import Mathlib

/-!
# zenoh-pico public API (`src/api/api.c`): a shallow embedding

The API layer of zenoh-pico is a thin layer over the net layer (`_z_write`,
`_z_declare_resource`, `_z_query`, ...).  The net layer lies below `api.c`,
so its functions are parameters of the development (the structure
`NetLayer`); every API function is translated line by line from `api.c` as a
function that threads the session state through the net-layer calls it makes
and records each state-changing call in a log.

Conventions
* a C pointer that may be `NULL` is an `Option`; `none` is `NULL`;
* a C string is the list of its characters (without the terminating NUL);
* `int8_t` statuses are `Int`;
* a function that would dereference `NULL` returns `none`.
-/

namespace ZenohPico

/-! ## C library functions used by `api.c` -/

/-- C `strstr`: the tail of `hay` starting at the first occurrence of `needle`,
`none` (NULL) when there is none. -/
def strstr : List Char → List Char → Option (List Char)
  | [], needle => if needle.isEmpty then some [] else none
  | h :: t, needle => if needle.isPrefixOf (h :: t) then some (h :: t) else strstr t needle

/-- C `strpbrk`, as an index: the position of the first character of `s` that
occurs in `accept`, `none` (NULL) when there is none. -/
def strpbrk : List Char → List Char → Option Nat
  | [], _ => none
  | h :: t, accept => if accept.contains h then some 0 else (strpbrk t accept).map (· + 1)

/-! ## Data types -/

/-- The type `z_bytes_t`: `start` is the pointed-to buffer (`none` is NULL). -/
structure z_bytes_t where
  start : Option (List Nat)
  len : Nat
  _is_alloc : Bool
  deriving DecidableEq, Repr

/-- The function `_z_bytes_wrap` (a non-owning view). -/
def _z_bytes_wrap (p : Option (List Nat)) (len : Nat) : z_bytes_t :=
  { start := p, len := len, _is_alloc := false }

/-- The function `_z_bytes_empty`. -/
def _z_bytes_empty : z_bytes_t := { start := none, len := 0, _is_alloc := false }

/-- The type `z_keyexpr_t`: resource id (0 is `Z_RESOURCE_ID_NONE`), suffix
string (`none` is NULL) and the ownership flag on the suffix. -/
structure z_keyexpr_t where
  _id : Nat
  _suffix : Option (List Char)
  _owns_suffix : Bool
  deriving DecidableEq, Repr

/-- The constant `Z_RESOURCE_ID_NONE`. -/
def Z_RESOURCE_ID_NONE : Nat := 0

/-- The function `_z_rid_with_suffix`: a key that does not own its suffix. -/
def _z_rid_with_suffix (rid : Nat) (suffix : Option (List Char)) : z_keyexpr_t :=
  { _id := rid, _suffix := suffix, _owns_suffix := false }

/-- The function `_z_rname`. -/
def _z_rname (name : Option (List Char)) : z_keyexpr_t := _z_rid_with_suffix Z_RESOURCE_ID_NONE name

/-- The function `z_keyexpr`. -/
def z_keyexpr (name : Option (List Char)) : z_keyexpr_t := _z_rname name

/-- The function `_z_keyexpr_set_owns_suffix`. -/
def _z_keyexpr_set_owns_suffix (k : z_keyexpr_t) (owns : Bool) : z_keyexpr_t :=
  { k with _owns_suffix := owns }

/-- The type `z_encoding_t`. -/
structure z_encoding_t where
  pfx : Nat
  suffix : z_bytes_t
  deriving DecidableEq, Repr

/-- The type `z_value_t`. -/
structure z_value_t where
  payload : z_bytes_t
  encoding : z_encoding_t
  deriving DecidableEq, Repr

/-- The type `z_attachment_t`. -/
structure z_attachment_t where
  data : Option Nat
  iteration_driver : Option Nat
  deriving DecidableEq, Repr

/-- The enumeration `z_consolidation_mode_t`. -/
inductive z_consolidation_mode_t
  | Z_CONSOLIDATION_MODE_AUTO
  | Z_CONSOLIDATION_MODE_NONE
  | Z_CONSOLIDATION_MODE_MONOTONIC
  | Z_CONSOLIDATION_MODE_LATEST
  deriving DecidableEq, Repr

open z_consolidation_mode_t

/-- The type `z_query_consolidation_t`. -/
structure z_query_consolidation_t where
  mode : z_consolidation_mode_t
  deriving DecidableEq, Repr

/-- The enumeration `z_congestion_control_t`. -/
inductive z_congestion_control_t
  | Z_CONGESTION_CONTROL_BLOCK
  | Z_CONGESTION_CONTROL_DROP
  deriving DecidableEq, Repr

/-- The enumeration `z_sample_kind_t`. -/
inductive z_sample_kind_t
  | Z_SAMPLE_KIND_PUT
  | Z_SAMPLE_KIND_DELETE
  deriving DecidableEq, Repr

/-- The transport type tag `_tp._type` of a session. -/
inductive z_transport_type_t
  | _Z_TRANSPORT_UNICAST_TYPE
  | _Z_TRANSPORT_MULTICAST_TYPE
  | _Z_TRANSPORT_RAWETH_TYPE
  | _Z_TRANSPORT_NONE
  deriving DecidableEq, Repr

/-- A closure `z_owned_closure_*_t`: function pointers and the context pointer
are opaque addresses. -/
structure z_owned_closure_t where
  context : Option Nat
  call : Option Nat
  drop : Option Nat
  deriving DecidableEq, Repr

/-- The type `z_get_options_t`. -/
structure z_get_options_t where
  value : z_value_t
  consolidation : z_query_consolidation_t
  target : Nat
  deriving DecidableEq, Repr

/-- The wrapper `__z_reply_handler_wrapper_t` allocated by `z_get`. -/
structure __z_reply_handler_wrapper_t where
  user_call : Option Nat
  ctx : Option Nat
  deriving DecidableEq, Repr

/-- The arguments `z_get` hands to `_z_query`. -/
structure QueryArgs where
  keyexpr : z_keyexpr_t
  parameters : Option (List Char)
  target : Nat
  mode : z_consolidation_mode_t
  value : z_value_t
  wrapped_ctx : Option __z_reply_handler_wrapper_t
  drop : Option Nat
  ctx : Option Nat
  attachment : z_attachment_t
  deriving DecidableEq, Repr

/-- The type `_z_subinfo_t`: reliability and push-or-pull mode. -/
structure _z_subinfo_t where
  reliability : Nat
  pull : Bool
  deriving DecidableEq, Repr

/-- The QoS byte `_z_n_qos_t`, by its three components. -/
structure _z_n_qos_t where
  express : Bool
  nodrop : Bool
  priority : Nat
  deriving DecidableEq, Repr

/-- The function `_z_n_qos_make`. -/
def _z_n_qos_make (express nodrop : Bool) (priority : Nat) : _z_n_qos_t :=
  { express := express, nodrop := nodrop, priority := priority }

/-- The type `_z_resource_t`, an entry of the resource table. -/
structure _z_resource_t where
  _id : Nat
  _key : z_keyexpr_t
  _refcount : Nat
  deriving DecidableEq, Repr

/-- The type `_z_publisher_t` (the session back reference `_zn` is the session
of the world the publisher lives in). -/
structure _z_publisher_t where
  _key : z_keyexpr_t
  _id : Nat
  _congestion_control : z_congestion_control_t
  _priority : Nat
  deriving DecidableEq, Repr

/-- The type `_z_subscriber_t`, also used for pull subscribers. -/
structure _z_subscriber_t where
  _entity_id : Nat
  deriving DecidableEq, Repr

/-- The type `_z_queryable_t`. -/
structure _z_queryable_t where
  _entity_id : Nat
  deriving DecidableEq, Repr

/-- The borrowed handle `z_publisher_t`. -/
structure z_publisher_t where
  _val : Option _z_publisher_t
  deriving DecidableEq, Repr

/-- The owned handle `z_owned_publisher_t`; `_value = none` is the gravestone. -/
structure z_owned_publisher_t where
  _value : Option _z_publisher_t
  deriving DecidableEq, Repr

/-- The owned handle `z_owned_subscriber_t`. -/
structure z_owned_subscriber_t where
  _value : Option _z_subscriber_t
  deriving DecidableEq, Repr

/-- The owned handle `z_owned_pull_subscriber_t`. -/
structure z_owned_pull_subscriber_t where
  _value : Option _z_subscriber_t
  deriving DecidableEq, Repr

/-- The owned handle `z_owned_queryable_t`. -/
structure z_owned_queryable_t where
  _value : Option _z_queryable_t
  deriving DecidableEq, Repr

/-- The owned handle `z_owned_session_t`: `_value_in` is the pointer `_value.in`
of the reference-counted cell (an address; `none` is the gravestone). -/
structure z_owned_session_t where
  _value_in : Option Nat
  deriving DecidableEq, Repr

/-- The type `z_put_options_t`. -/
structure z_put_options_t where
  encoding : z_encoding_t
  congestion_control : z_congestion_control_t
  priority : Nat
  attachment : z_attachment_t
  deriving DecidableEq, Repr

/-- The type `z_delete_options_t`. -/
structure z_delete_options_t where
  congestion_control : z_congestion_control_t
  priority : Nat
  deriving DecidableEq, Repr

/-- The type `z_publisher_options_t`. -/
structure z_publisher_options_t where
  congestion_control : z_congestion_control_t
  priority : Nat
  deriving DecidableEq, Repr

/-- The type `z_publisher_put_options_t`. -/
structure z_publisher_put_options_t where
  encoding : z_encoding_t
  attachment : z_attachment_t
  deriving DecidableEq, Repr

/-- The type `z_publisher_delete_options_t`. -/
structure z_publisher_delete_options_t where
  __dummy : Nat
  deriving DecidableEq, Repr

/-- The type `z_queryable_options_t`. -/
structure z_queryable_options_t where
  complete : Bool
  deriving DecidableEq, Repr

/-- The type `z_subscriber_options_t` (and `z_pull_subscriber_options_t`). -/
structure z_subscriber_options_t where
  reliability : Nat
  deriving DecidableEq, Repr

/-- The owned handle `z_owned_keyexpr_t`; `_value = none` is the gravestone. -/
structure z_owned_keyexpr_t where
  _value : Option z_keyexpr_t
  deriving DecidableEq, Repr

/-- Modelled from the spec: the type `_z_config_t` (also `_z_scouting_config_t`),
a mapping from small-integer option keys to string values, kept as the list
of its (key, value) entries. -/
abbrev _z_config_t := List (Nat × List Char)

/-- The owned handle `z_owned_config_t`. -/
structure z_owned_config_t where
  _value : Option _z_config_t
  deriving DecidableEq, Repr

/-- The owned handle `z_owned_scouting_config_t`. -/
structure z_owned_scouting_config_t where
  _value : Option _z_config_t
  deriving DecidableEq, Repr

/-- The wrapper `__z_hello_handler_wrapper_t` allocated by `z_scout`. -/
structure __z_hello_handler_wrapper_t where
  user_call : Option Nat
  ctx : Option Nat
  deriving DecidableEq, Repr

/-- The arguments `z_scout` hands to `_z_scout`. -/
structure ScoutArgs where
  what : Int
  zid : List Nat
  locator : List Char
  timeout : Nat
  wrapped_ctx : __z_hello_handler_wrapper_t
  drop : Option Nat
  ctx : Option Nat
  deriving DecidableEq, Repr

/-- The pair `struct _z_bytes_pair_t` of the attachment map. -/
structure _z_bytes_pair_t where
  key : z_bytes_t
  value : z_bytes_t
  deriving DecidableEq, Repr

/-- The type `z_owned_bytes_map_t`.  `_inner` is the list `_z_bytes_pair_list_t *`:
a pointer to the first cell, each cell holding a pair and the pointer to the
next cell; the NULL pointer is the empty list `[]`. -/
structure z_owned_bytes_map_t where
  _inner : List _z_bytes_pair_t
  deriving DecidableEq, Repr

/-- The owned string `z_owned_str_t`; `_value = none` is the gravestone. -/
structure z_owned_str_t where
  _value : Option (List Char)
  deriving DecidableEq, Repr

/-- The borrowed handle `z_config_t`. -/
structure z_config_t where
  _val : Option _z_config_t
  deriving DecidableEq, Repr

/-- The borrowed handle `z_subscriber_t`. -/
structure z_subscriber_t where
  _val : Option _z_subscriber_t
  deriving DecidableEq, Repr

/-- A local subscription `_z_subscription_t`, by the two fields `api.c` reads. -/
structure _z_subscription_t where
  _id : Nat
  _key : z_keyexpr_t
  deriving DecidableEq, Repr

/-! ## The net layer -/

/-- The arguments of `_z_write`. -/
structure WriteArgs where
  keyexpr : z_keyexpr_t
  payload : Option (List Nat)
  len : Nat
  encoding : z_encoding_t
  kind : z_sample_kind_t
  cong_ctrl : z_congestion_control_t
  priority : Nat
  attachment : z_attachment_t
  deriving DecidableEq, Repr

/-- The arguments of `_z_trigger_local_subscriptions`. -/
structure TriggerArgs where
  keyexpr : z_keyexpr_t
  payload : Option (List Nat)
  payload_len : Nat
  qos : _z_n_qos_t
  attachment : z_attachment_t
  deriving DecidableEq, Repr

/-- The arguments of `_z_declare_publisher`. -/
structure PublisherArgs where
  keyexpr : z_keyexpr_t
  congestion_control : z_congestion_control_t
  priority : Nat
  deriving DecidableEq, Repr

/-- The arguments of `_z_declare_queryable`. -/
structure QueryableArgs where
  keyexpr : z_keyexpr_t
  complete : Bool
  call : Option Nat
  drop : Option Nat
  ctx : Option Nat
  deriving DecidableEq, Repr

/-- The arguments of `_z_declare_subscriber`. -/
structure SubscriberArgs where
  keyexpr : z_keyexpr_t
  sub_info : _z_subinfo_t
  call : Option Nat
  drop : Option Nat
  ctx : Option Nat
  deriving DecidableEq, Repr

/-- A state-changing call made by the API layer into the net layer;
`user_drop fn ctx` is the invocation `fn(ctx)` of a user's drop function. -/
inductive NetCall
  | _z_query (a : QueryArgs)
  | _z_declare_resource (keyexpr : z_keyexpr_t)
  | _z_declare_publisher (a : PublisherArgs)
  | _z_declare_queryable (a : QueryableArgs)
  | _z_declare_subscriber (a : SubscriberArgs)
  | _z_write (a : WriteArgs)
  | _z_trigger_local_subscriptions (a : TriggerArgs)
  | _z_close
  | _z_session_rc_drop
  | _z_undeclare_publisher (pub : _z_publisher_t)
  | _z_undeclare_subscriber (sub : _z_subscriber_t)
  | _z_undeclare_queryable (q : _z_queryable_t)
  | _z_publisher_free (pub : _z_publisher_t)
  | _z_subscriber_free (sub : _z_subscriber_t)
  | _z_queryable_free (q : _z_queryable_t)
  | _z_undeclare_resource (rid : Nat)
  | _z_open (config : Option _z_config_t)
  | _z_scout (a : ScoutArgs)
  | _zp_multicast_fetch_zid (callback : z_owned_closure_t)
  | _zp_unicast_fetch_zid (callback : z_owned_closure_t)
  | user_drop (fn : Nat) (ctx : Option Nat)
  deriving DecidableEq, Repr

/-- The net layer below `api.c`, over a session state `σ` (the C type
`_z_session_t`), together with the configuration constants `api.c` takes
from the headers.  Each function returns its C result and the session state
it leaves. -/
structure NetLayer (σ : Type) where
  tp_type : σ → z_transport_type_t
  get_resource_by_key : σ → z_keyexpr_t → Option _z_resource_t
  declare_resource : σ → z_keyexpr_t → Nat × σ
  declare_publisher : σ → PublisherArgs → Option Nat × σ
  declare_queryable : σ → QueryableArgs → Option _z_queryable_t × σ
  declare_subscriber : σ → SubscriberArgs → Option _z_subscriber_t × σ
  write : σ → WriteArgs → Int × σ
  trigger_local_subscriptions : σ → TriggerArgs → Int × σ
  query : σ → QueryArgs → Int × σ
  close : σ → Int × σ
  session_rc_drop : σ → σ
  undeclare_publisher : σ → _z_publisher_t → Int × σ
  undeclare_subscriber : σ → _z_subscriber_t → Int × σ
  undeclare_queryable : σ → _z_queryable_t → Int × σ
  publisher_free : σ → _z_publisher_t → σ
  subscriber_free : σ → _z_subscriber_t → σ
  queryable_free : σ → _z_queryable_t → σ
  undeclare_null_status : Int
  _z_subinfo_push_default : _z_subinfo_t
  _z_subinfo_pull_default : _z_subinfo_t
  Z_QUERY_TARGET_DEFAULT : Nat
  Z_ENCODING_PREFIX_DEFAULT : Nat
  Z_CONGESTION_CONTROL_DEFAULT : z_congestion_control_t
  Z_PRIORITY_DEFAULT : Nat
  Z_RELIABILITY_DEFAULT : Nat
  _Z_QUERYABLE_COMPLETE_DEFAULT : Bool
  _Z_N_QOS_DEFAULT : _z_n_qos_t
  undeclare_resource : σ → Nat → Int × σ
  open_session : σ → Option _z_config_t → Int × σ
  multicast_fetch_zid : σ → z_owned_closure_t → σ
  local_subscriptions : σ → List _z_subscription_t
  unicast_fetch_zid : σ → z_owned_closure_t → σ
  _z_keyexpr_includes : List Char → Nat → List Char → Nat → Bool
  _z_keyexpr_intersects : List Char → Nat → List Char → Nat → Bool
  strtol : List Char → Int
  strtoul : List Char → Nat
  _z_uuid_to_bytes : List Char → List Nat
  _z_id_empty : List Nat
  _Z_ERR_GENERIC : Int
  _Z_ERR_SYSTEM_OUT_OF_MEMORY : Int
  Z_CONFIG_MULTICAST_LOCATOR_KEY : Nat
  Z_CONFIG_SCOUTING_TIMEOUT_KEY : Nat
  Z_CONFIG_SCOUTING_WHAT_KEY : Nat
  Z_CONFIG_SESSION_ZID_KEY : Nat
  Z_CONFIG_MULTICAST_LOCATOR_DEFAULT : List Char
  Z_CONFIG_SCOUTING_TIMEOUT_DEFAULT : List Char
  Z_CONFIG_SCOUTING_WHAT_DEFAULT : List Char

/-- The world an API call runs in: the session and the log of the net-layer
calls made so far, oldest first. -/
structure World (σ : Type) where
  sess : σ
  log : List NetCall
  deriving DecidableEq

variable {σ : Type}

/-- The constant `_Z_RES_OK`. -/
def _Z_RES_OK : Int := 0

/-- Modelled from the spec: the constant `Z_SELECTOR_TIME`, the reserved
selector `_time=`. -/
def Z_SELECTOR_TIME : List Char := ['_', 't', 'i', 'm', 'e', '=']

/-- The function `z_attachment_null`. -/
def z_attachment_null : z_attachment_t := { data := none, iteration_driver := none }

/-- The net-layer call `_z_query`, recorded. -/
def _z_query (net : NetLayer σ) (w : World σ) (a : QueryArgs) : Int × World σ :=
  let r := net.query w.sess a
  (r.1, { sess := r.2, log := w.log ++ [NetCall._z_query a] })

/-- The net-layer lookup `_z_get_resource_by_key` (it leaves the session as it is). -/
def _z_get_resource_by_key (net : NetLayer σ) (w : World σ) (keyexpr : z_keyexpr_t) :
    Option _z_resource_t :=
  net.get_resource_by_key w.sess keyexpr

/-- The net-layer call `_z_declare_resource`, recorded. -/
def _z_declare_resource (net : NetLayer σ) (w : World σ) (keyexpr : z_keyexpr_t) :
    Nat × World σ :=
  let r := net.declare_resource w.sess keyexpr
  (r.1, { sess := r.2, log := w.log ++ [NetCall._z_declare_resource keyexpr] })

/-- Modelled from the spec: the net-layer function `_z_declare_publisher`.  A
publisher is the record (entity-id, key-expression, congestion-control,
priority, session backref) created at declaration: when the net layer grants
an entity id the record holds the key expression and options it was declared
with; otherwise the result is NULL. -/
def _z_declare_publisher (net : NetLayer σ) (w : World σ) (a : PublisherArgs) :
    Option _z_publisher_t × World σ :=
  let r := net.declare_publisher w.sess a
  (r.1.map fun id =>
      { _key := a.keyexpr, _id := id, _congestion_control := a.congestion_control,
        _priority := a.priority },
    { sess := r.2, log := w.log ++ [NetCall._z_declare_publisher a] })

/-- The net-layer call `_z_declare_queryable`, recorded. -/
def _z_declare_queryable (net : NetLayer σ) (w : World σ) (a : QueryableArgs) :
    Option _z_queryable_t × World σ :=
  let r := net.declare_queryable w.sess a
  (r.1, { sess := r.2, log := w.log ++ [NetCall._z_declare_queryable a] })

/-- The net-layer call `_z_declare_subscriber`, recorded. -/
def _z_declare_subscriber (net : NetLayer σ) (w : World σ) (a : SubscriberArgs) :
    Option _z_subscriber_t × World σ :=
  let r := net.declare_subscriber w.sess a
  (r.1, { sess := r.2, log := w.log ++ [NetCall._z_declare_subscriber a] })

/-- The net-layer call `_z_write`, recorded. -/
def _z_write (net : NetLayer σ) (w : World σ) (a : WriteArgs) : Int × World σ :=
  let r := net.write w.sess a
  (r.1, { sess := r.2, log := w.log ++ [NetCall._z_write a] })

/-- The net-layer call `_z_trigger_local_subscriptions`, recorded. -/
def _z_trigger_local_subscriptions (net : NetLayer σ) (w : World σ) (a : TriggerArgs) :
    Int × World σ :=
  let r := net.trigger_local_subscriptions w.sess a
  (r.1, { sess := r.2, log := w.log ++ [NetCall._z_trigger_local_subscriptions a] })

/-- The net-layer call `_z_close`, recorded. -/
def _z_close (net : NetLayer σ) (w : World σ) : Int × World σ :=
  let r := net.close w.sess
  (r.1, { sess := r.2, log := w.log ++ [NetCall._z_close] })

/-- The net-layer call `_z_session_rc_drop`, recorded. -/
def _z_session_rc_drop (net : NetLayer σ) (w : World σ) : World σ :=
  { sess := net.session_rc_drop w.sess, log := w.log ++ [NetCall._z_session_rc_drop] }

/-! ## Queries: `z_get` -/

/-- The function `z_encoding`. -/
def z_encoding (pfx : Nat) (suffix : Option (List Char)) : z_encoding_t :=
  { pfx := pfx,
    suffix := _z_bytes_wrap (suffix.map fun s => s.map Char.toNat)
      (match suffix with
       | none => 0
       | some s => s.length) }

/-- The function `z_encoding_default`. -/
def z_encoding_default (net : NetLayer σ) : z_encoding_t :=
  z_encoding net.Z_ENCODING_PREFIX_DEFAULT none

/-- The function `z_query_target_default`. -/
def z_query_target_default (net : NetLayer σ) : Nat := net.Z_QUERY_TARGET_DEFAULT

/-- The function `z_query_consolidation_auto`. -/
def z_query_consolidation_auto : z_query_consolidation_t := { mode := Z_CONSOLIDATION_MODE_AUTO }

/-- The function `z_query_consolidation_default`. -/
def z_query_consolidation_default : z_query_consolidation_t := z_query_consolidation_auto

/-- The function `z_get_options_default`. -/
def z_get_options_default (net : NetLayer σ) : z_get_options_t :=
  { target := z_query_target_default net,
    consolidation := z_query_consolidation_default,
    value := { encoding := z_encoding_default net, payload := _z_bytes_empty } }

/-- The function `z_get`.  `malloc_ok` tells whether the `z_malloc` of the reply
handler wrapper succeeds.  The result is the status and the caller's closure
as the call leaves it. -/
def z_get (net : NetLayer σ) (w : World σ) (malloc_ok : Bool) (keyexpr : z_keyexpr_t)
    (parameters : Option (List Char)) (callback : z_owned_closure_t)
    (options : Option z_get_options_t) : (Int × z_owned_closure_t) × World σ :=
  let ctx := callback.context
  let callback := { callback with context := none }
  let opt := z_get_options_default net
  let opt :=
    match options with
    | some o => { opt with consolidation := o.consolidation, target := o.target, value := o.value }
    | none => opt
  let opt :=
    if opt.consolidation.mode = Z_CONSOLIDATION_MODE_AUTO then
      let lp := match parameters with
        | none => []
        | some p => p
      if (strstr lp Z_SELECTOR_TIME).isSome then
        { opt with consolidation := { mode := Z_CONSOLIDATION_MODE_NONE } }
      else
        { opt with consolidation := { mode := Z_CONSOLIDATION_MODE_LATEST } }
    else opt
  let wrapped_ctx : Option __z_reply_handler_wrapper_t :=
    if malloc_ok then some { user_call := callback.call, ctx := ctx } else none
  let r := _z_query net w
    { keyexpr := keyexpr, parameters := parameters, target := opt.target,
      mode := opt.consolidation.mode, value := opt.value, wrapped_ctx := wrapped_ctx,
      drop := callback.drop, ctx := ctx, attachment := z_attachment_null }
  ((r.1, callback), r.2)

/-! ## Publication: `z_put`, `z_delete`, publishers -/

open z_transport_type_t z_congestion_control_t z_sample_kind_t

/-- The function `z_put_options_default`. -/
def z_put_options_default (net : NetLayer σ) : z_put_options_t :=
  { encoding := z_encoding_default net,
    congestion_control := net.Z_CONGESTION_CONTROL_DEFAULT,
    priority := net.Z_PRIORITY_DEFAULT,
    attachment := z_attachment_null }

/-- The function `z_delete_options_default`. -/
def z_delete_options_default (net : NetLayer σ) : z_delete_options_t :=
  { congestion_control := net.Z_CONGESTION_CONTROL_DEFAULT, priority := net.Z_PRIORITY_DEFAULT }

/-- The function `z_put`. -/
def z_put (net : NetLayer σ) (w : World σ) (keyexpr : z_keyexpr_t) (payload : Option (List Nat))
    (payload_len : Nat) (options : Option z_put_options_t) : Int × World σ :=
  let opt := z_put_options_default net
  let opt :=
    match options with
    | some o =>
      { opt with congestion_control := o.congestion_control, encoding := o.encoding,
                 priority := o.priority, attachment := o.attachment }
    | none => opt
  let r := _z_write net w
    { keyexpr := keyexpr, payload := payload, len := payload_len, encoding := opt.encoding,
      kind := Z_SAMPLE_KIND_PUT, cong_ctrl := opt.congestion_control, priority := opt.priority,
      attachment := opt.attachment }
  let ret := r.1
  -- Trigger local subscriptions
  let t := _z_trigger_local_subscriptions net r.2
    { keyexpr := keyexpr, payload := payload, payload_len := payload_len,
      qos := _z_n_qos_make false (opt.congestion_control = Z_CONGESTION_CONTROL_BLOCK) opt.priority,
      attachment := opt.attachment }
  (ret, t.2)

/-- The function `z_delete`. -/
def z_delete (net : NetLayer σ) (w : World σ) (keyexpr : z_keyexpr_t)
    (options : Option z_delete_options_t) : Int × World σ :=
  let opt := z_delete_options_default net
  let opt :=
    match options with
    | some o => { opt with congestion_control := o.congestion_control, priority := o.priority }
    | none => opt
  _z_write net w
    { keyexpr := keyexpr, payload := none, len := 0, encoding := z_encoding_default net,
      kind := Z_SAMPLE_KIND_DELETE, cong_ctrl := opt.congestion_control, priority := opt.priority,
      attachment := z_attachment_null }

/-- The function `z_publisher_options_default`. -/
def z_publisher_options_default (net : NetLayer σ) : z_publisher_options_t :=
  { congestion_control := net.Z_CONGESTION_CONTROL_DEFAULT, priority := net.Z_PRIORITY_DEFAULT }

/-- The function `z_declare_publisher`. -/
def z_declare_publisher (net : NetLayer σ) (w : World σ) (keyexpr : z_keyexpr_t)
    (options : Option z_publisher_options_t) : z_owned_publisher_t × World σ :=
  let key := keyexpr
  let kw : z_keyexpr_t × World σ :=
    if net.tp_type w.sess = _Z_TRANSPORT_UNICAST_TYPE then
      match _z_get_resource_by_key net w keyexpr with
      | none =>
        let r := _z_declare_resource net w keyexpr
        (_z_rid_with_suffix r.1 none, r.2)
      | some _ => (key, w)
    else (key, w)
  let opt := z_publisher_options_default net
  let opt :=
    match options with
    | some o => { opt with congestion_control := o.congestion_control, priority := o.priority }
    | none => opt
  let r := _z_declare_publisher net kw.2
    { keyexpr := kw.1, congestion_control := opt.congestion_control, priority := opt.priority }
  ({ _value := r.1 }, r.2)

/-- The function `z_publisher_loan`. -/
def z_publisher_loan (val : z_owned_publisher_t) : z_publisher_t := { _val := val._value }

/-- The function `z_publisher_check`. -/
def z_publisher_check (val : z_owned_publisher_t) : Bool := val._value.isSome

/-- The function `z_publisher_put_options_default`. -/
def z_publisher_put_options_default (net : NetLayer σ) : z_publisher_put_options_t :=
  { encoding := z_encoding_default net, attachment := z_attachment_null }

/-- The function `z_publisher_put`; `none` when `pub._val` is NULL. -/
def z_publisher_put (net : NetLayer σ) (w : World σ) (pub : z_publisher_t)
    (payload : Option (List Nat)) (len : Nat) (options : Option z_publisher_put_options_t) :
    Option (Int × World σ) :=
  let opt := z_publisher_put_options_default net
  let opt :=
    match options with
    | some o => { opt with encoding := o.encoding, attachment := o.attachment }
    | none => opt
  match pub._val with
  | none => none
  | some p =>
    let r := _z_write net w
      { keyexpr := p._key, payload := payload, len := len, encoding := opt.encoding,
        kind := Z_SAMPLE_KIND_PUT, cong_ctrl := p._congestion_control, priority := p._priority,
        attachment := opt.attachment }
    let ret := r.1
    -- Trigger local subscriptions
    let t := _z_trigger_local_subscriptions net r.2
      { keyexpr := p._key, payload := payload, payload_len := len, qos := net._Z_N_QOS_DEFAULT,
        attachment := opt.attachment }
    some (ret, t.2)

/-- The function `z_publisher_delete`; `none` when `pub._val` is NULL. -/
def z_publisher_delete (net : NetLayer σ) (w : World σ) (pub : z_publisher_t)
    (_options : Option z_publisher_delete_options_t) : Option (Int × World σ) :=
  match pub._val with
  | none => none
  | some p =>
    some (_z_write net w
      { keyexpr := p._key, payload := none, len := 0, encoding := z_encoding_default net,
        kind := Z_SAMPLE_KIND_DELETE, cong_ctrl := p._congestion_control,
        priority := p._priority, attachment := z_attachment_null })

/-! ## Queryables and subscribers -/

/-- The function `z_queryable_options_default`. -/
def z_queryable_options_default (net : NetLayer σ) : z_queryable_options_t :=
  { complete := net._Z_QUERYABLE_COMPLETE_DEFAULT }

/-- The function `z_declare_queryable`.  The result is the owned queryable and
the caller's closure as the call leaves it. -/
def z_declare_queryable (net : NetLayer σ) (w : World σ) (keyexpr : z_keyexpr_t)
    (callback : z_owned_closure_t) (options : Option z_queryable_options_t) :
    (z_owned_queryable_t × z_owned_closure_t) × World σ :=
  let ctx := callback.context
  let callback := { callback with context := none }
  let key := keyexpr
  let kw : z_keyexpr_t × World σ :=
    if net.tp_type w.sess = _Z_TRANSPORT_UNICAST_TYPE then
      match _z_get_resource_by_key net w keyexpr with
      | none =>
        let r := _z_declare_resource net w keyexpr
        (_z_rid_with_suffix r.1 none, r.2)
      | some _ => (key, w)
    else (key, w)
  let opt := z_queryable_options_default net
  let opt :=
    match options with
    | some o => { opt with complete := o.complete }
    | none => opt
  let r := _z_declare_queryable net kw.2
    { keyexpr := kw.1, complete := opt.complete, call := callback.call, drop := callback.drop,
      ctx := ctx }
  (({ _value := r.1 }, callback), r.2)

/-- The function `z_subscriber_options_default`. -/
def z_subscriber_options_default (net : NetLayer σ) : z_subscriber_options_t :=
  { reliability := net.Z_RELIABILITY_DEFAULT }

/-- The function `z_pull_subscriber_options_default`. -/
def z_pull_subscriber_options_default (net : NetLayer σ) : z_subscriber_options_t :=
  { reliability := net.Z_RELIABILITY_DEFAULT }

/-- The function `z_declare_subscriber`.  `malloc_ok` tells whether the
`z_malloc` of the split buffer succeeds; a position in the caller's string `s`
stands for the pointer `wild`, so the string at `wild` is `s.drop wild`.  The
result is `none` when `strpbrk` is reached with a NULL suffix. -/
def z_declare_subscriber (net : NetLayer σ) (w : World σ) (malloc_ok : Bool)
    (keyexpr : z_keyexpr_t) (callback : z_owned_closure_t)
    (options : Option z_subscriber_options_t) :
    Option ((z_owned_subscriber_t × z_owned_closure_t) × World σ) :=
  let ctx := callback.context
  let callback := { callback with context := none }
  let key := keyexpr
  let kw : Option (z_keyexpr_t × World σ) :=
    if net.tp_type w.sess = _Z_TRANSPORT_UNICAST_TYPE then
      match _z_get_resource_by_key net w keyexpr with
      | none =>
        match keyexpr._suffix with
        | none => none
        | some s =>
          let wild := strpbrk s ['*', '$']
          let st : Option Nat × z_keyexpr_t × Bool :=
            if wild ≠ none ∧ wild ≠ some 0 then
              let wild := wild.map (· - 1)
              let len := wild.getD 0
              if malloc_ok then
                (wild, _z_keyexpr_set_owns_suffix { keyexpr with _suffix := some (s.take len) } false,
                  true)
              else (wild, keyexpr, false)
            else (wild, keyexpr, true)
          if st.2.2 then
            let r := _z_declare_resource net w st.2.1
            some (_z_rid_with_suffix r.1 (st.1.map fun i => s.drop i), r.2)
          else some (key, w)
      | some _ => some (key, w)
    else some (key, w)
  match kw with
  | none => none
  | some (key, w) =>
    let subinfo := net._z_subinfo_push_default
    let subinfo :=
      match options with
      | some o => { subinfo with reliability := o.reliability }
      | none => subinfo
    let r := _z_declare_subscriber net w
      { keyexpr := key, sub_info := subinfo, call := callback.call, drop := callback.drop,
        ctx := ctx }
    some (({ _value := r.1 }, callback), r.2)

/-- The function `z_declare_pull_subscriber`. -/
def z_declare_pull_subscriber (net : NetLayer σ) (w : World σ) (keyexpr : z_keyexpr_t)
    (callback : z_owned_closure_t) (options : Option z_subscriber_options_t) :
    (z_owned_pull_subscriber_t × z_owned_closure_t) × World σ :=
  let ctx := callback.context
  let callback := { callback with context := none }
  let key := keyexpr
  let kw : z_keyexpr_t × World σ :=
    match _z_get_resource_by_key net w keyexpr with
    | none =>
      let r := _z_declare_resource net w keyexpr
      (_z_rid_with_suffix r.1 none, r.2)
    | some _ => (key, w)
  let subinfo := net._z_subinfo_pull_default
  let subinfo :=
    match options with
    | some o => { subinfo with reliability := o.reliability }
    | none => subinfo
  let r := _z_declare_subscriber net kw.2
    { keyexpr := kw.1, sub_info := subinfo, call := callback.call, drop := callback.drop,
      ctx := ctx }
  (({ _value := r.1 }, callback), r.2)

/-! ## Undeclaration -/

/-- Modelled from the spec: the net-layer function `_z_undeclare_publisher`.
Undeclare treats a null pointer as a no-op (it only reports a status); on a
live publisher the net layer undeclares it. -/
def _z_undeclare_publisher (net : NetLayer σ) (w : World σ) (pub : Option _z_publisher_t) :
    Int × World σ :=
  match pub with
  | none => (net.undeclare_null_status, w)
  | some p =>
    let r := net.undeclare_publisher w.sess p
    (r.1, { sess := r.2, log := w.log ++ [NetCall._z_undeclare_publisher p] })

/-- Modelled from the spec: the net-layer function `_z_publisher_free`.  The
drop clears the handle's internal pointer; a null pointer is a no-op. -/
def _z_publisher_free (net : NetLayer σ) (w : World σ) (pub : Option _z_publisher_t) :
    Option _z_publisher_t × World σ :=
  match pub with
  | none => (none, w)
  | some p =>
    (none, { sess := net.publisher_free w.sess p, log := w.log ++ [NetCall._z_publisher_free p] })

/-- Modelled from the spec: the net-layer function `_z_undeclare_subscriber`.
Undeclare treats a null pointer as a no-op (it only reports a status); on a
live subscriber the net layer undeclares it. -/
def _z_undeclare_subscriber (net : NetLayer σ) (w : World σ) (sub : Option _z_subscriber_t) :
    Int × World σ :=
  match sub with
  | none => (net.undeclare_null_status, w)
  | some p =>
    let r := net.undeclare_subscriber w.sess p
    (r.1, { sess := r.2, log := w.log ++ [NetCall._z_undeclare_subscriber p] })

/-- Modelled from the spec: the net-layer function `_z_subscriber_free`.  The
drop clears the handle's internal pointer; a null pointer is a no-op. -/
def _z_subscriber_free (net : NetLayer σ) (w : World σ) (sub : Option _z_subscriber_t) :
    Option _z_subscriber_t × World σ :=
  match sub with
  | none => (none, w)
  | some p =>
    (none, { sess := net.subscriber_free w.sess p, log := w.log ++ [NetCall._z_subscriber_free p] })

/-- Modelled from the spec: the net-layer function `_z_undeclare_queryable`.
Undeclare treats a null pointer as a no-op (it only reports a status); on a
live queryable the net layer undeclares it. -/
def _z_undeclare_queryable (net : NetLayer σ) (w : World σ) (q : Option _z_queryable_t) :
    Int × World σ :=
  match q with
  | none => (net.undeclare_null_status, w)
  | some p =>
    let r := net.undeclare_queryable w.sess p
    (r.1, { sess := r.2, log := w.log ++ [NetCall._z_undeclare_queryable p] })

/-- Modelled from the spec: the net-layer function `_z_queryable_free`.  The
drop clears the handle's internal pointer; a null pointer is a no-op. -/
def _z_queryable_free (net : NetLayer σ) (w : World σ) (q : Option _z_queryable_t) :
    Option _z_queryable_t × World σ :=
  match q with
  | none => (none, w)
  | some p =>
    (none, { sess := net.queryable_free w.sess p, log := w.log ++ [NetCall._z_queryable_free p] })

/-- The function `z_undeclare_publisher`: the status and the handle as the call
leaves it. -/
def z_undeclare_publisher (net : NetLayer σ) (w : World σ) (pub : z_owned_publisher_t) :
    (Int × z_owned_publisher_t) × World σ :=
  let r := _z_undeclare_publisher net w pub._value
  let ret := r.1
  let f := _z_publisher_free net r.2 pub._value
  ((ret, { pub with _value := f.1 }), f.2)

/-- The function `z_undeclare_queryable`. -/
def z_undeclare_queryable (net : NetLayer σ) (w : World σ) (queryable : z_owned_queryable_t) :
    (Int × z_owned_queryable_t) × World σ :=
  let r := _z_undeclare_queryable net w queryable._value
  let ret := r.1
  let f := _z_queryable_free net r.2 queryable._value
  ((ret, { queryable with _value := f.1 }), f.2)

/-- The function `z_undeclare_subscriber`. -/
def z_undeclare_subscriber (net : NetLayer σ) (w : World σ) (sub : z_owned_subscriber_t) :
    (Int × z_owned_subscriber_t) × World σ :=
  let ret := _Z_RES_OK
  let r := _z_undeclare_subscriber net w sub._value
  let f := _z_subscriber_free net r.2 sub._value
  ((ret, { sub with _value := f.1 }), f.2)

/-- The function `z_undeclare_pull_subscriber`. -/
def z_undeclare_pull_subscriber (net : NetLayer σ) (w : World σ)
    (sub : z_owned_pull_subscriber_t) : (Int × z_owned_pull_subscriber_t) × World σ :=
  let ret := _Z_RES_OK
  let r := _z_undeclare_subscriber net w sub._value
  let f := _z_subscriber_free net r.2 sub._value
  ((ret, { sub with _value := f.1 }), f.2)

/-- The function `z_subscriber_check`. -/
def z_subscriber_check (val : z_owned_subscriber_t) : Bool := val._value.isSome

/-- The function `z_pull_subscriber_check`. -/
def z_pull_subscriber_check (val : z_owned_pull_subscriber_t) : Bool := val._value.isSome

/-- The function `z_queryable_check`. -/
def z_queryable_check (val : z_owned_queryable_t) : Bool := val._value.isSome

/-! ## Sessions: `z_close` -/

/-- The function `z_session_check`. -/
def z_session_check (val : z_owned_session_t) : Bool := val._value_in.isSome

/-- The function `z_session_null`. -/
def z_session_null : z_owned_session_t := { _value_in := none }

/-- The function `z_close`; the argument is the pointer `zs` (`none` is NULL).
The result is the status and the pointed-to handle as the call leaves it. -/
def z_close (net : NetLayer σ) (w : World σ) (zs : Option z_owned_session_t) :
    (Int × Option z_owned_session_t) × World σ :=
  match zs with
  | none => ((_Z_RES_OK, none), w)
  | some h =>
    match h._value_in with
    | none => ((_Z_RES_OK, some h), w)
    | some _ =>
      let c := _z_close net w
      let w := _z_session_rc_drop net c.2
      ((_Z_RES_OK, some { h with _value_in := none }), w)

/-! ## Owned key expressions: `z_undeclare_keyexpr` -/

/-- The net-layer call `_z_undeclare_resource`, recorded. -/
def _z_undeclare_resource (net : NetLayer σ) (w : World σ) (rid : Nat) : Int × World σ :=
  let r := net.undeclare_resource w.sess rid
  (r.1, { sess := r.2, log := w.log ++ [NetCall._z_undeclare_resource rid] })

/-- The function `z_keyexpr_check`. -/
def z_keyexpr_check (val : z_owned_keyexpr_t) : Bool := val._value.isSome

/-- The function `z_keyexpr_null`. -/
def z_keyexpr_null : z_owned_keyexpr_t := { _value := none }

/-- Modelled from the spec: the function `_z_keyexpr_free`.  The drop clears the
handle's internal pointer. -/
def _z_keyexpr_free (_p : Option z_keyexpr_t) : Option z_keyexpr_t := none

/-- The function `z_keyexpr_drop`. -/
def z_keyexpr_drop (val : z_owned_keyexpr_t) : z_owned_keyexpr_t :=
  if val._value ≠ none then { val with _value := _z_keyexpr_free val._value } else val

/-- The function `z_declare_keyexpr`; `malloc_ok` tells whether the `z_malloc`
of the key succeeds. -/
def z_declare_keyexpr (net : NetLayer σ) (w : World σ) (malloc_ok : Bool)
    (keyexpr : z_keyexpr_t) : z_owned_keyexpr_t × World σ :=
  if malloc_ok then
    let r := _z_declare_resource net w keyexpr
    ({ _value := some (_z_rid_with_suffix r.1 none) }, r.2)
  else ({ _value := none }, w)

/-- The function `z_undeclare_keyexpr`: the status and the handle as the call
leaves it; `none` when `keyexpr->_value` is NULL, which the function
dereferences to read `_id`. -/
def z_undeclare_keyexpr (net : NetLayer σ) (w : World σ) (keyexpr : z_owned_keyexpr_t) :
    Option ((Int × z_owned_keyexpr_t) × World σ) :=
  match keyexpr._value with
  | none => none
  | some k =>
    let r := _z_undeclare_resource net w k._id
    let ret := r.1
    some ((ret, z_keyexpr_drop keyexpr), r.2)

/-! ## Key-expression relations -/

/-- C `strlen`. -/
def strlen (s : List Char) : Nat := s.length

/-- C `strncmp`: compares at most `n` characters, stopping at the end of
either string; 0 when no difference is met. -/
def strncmp : List Char → List Char → Nat → Int
  | _, _, 0 => 0
  | [], [], _ + 1 => 0
  | [], c :: _, _ + 1 => 0 - (c.toNat : Int)
  | c :: _, [], _ + 1 => (c.toNat : Int)
  | a :: l, b :: r, n + 1 => if a = b then strncmp l r n else (a.toNat : Int) - (b.toNat : Int)

/-- The function `zp_keyexpr_includes_null_terminated`. -/
def zp_keyexpr_includes_null_terminated (net : NetLayer σ) (l r : Option (List Char)) : Int :=
  match l, r with
  | some l, some r =>
    if net._z_keyexpr_includes l (strlen l) r (strlen r) = true then 0 else -1
  | _, _ => net._Z_ERR_GENERIC

/-- The function `z_keyexpr_includes`. -/
def z_keyexpr_includes (net : NetLayer σ) (l r : z_keyexpr_t) : Int :=
  if l._id = Z_RESOURCE_ID_NONE ∧ r._id = Z_RESOURCE_ID_NONE then
    zp_keyexpr_includes_null_terminated net l._suffix r._suffix
  else net._Z_ERR_GENERIC

/-- The function `zp_keyexpr_intersect_null_terminated`. -/
def zp_keyexpr_intersect_null_terminated (net : NetLayer σ) (l r : Option (List Char)) : Int :=
  match l, r with
  | some l, some r =>
    if net._z_keyexpr_intersects l (strlen l) r (strlen r) = true then 0 else -1
  | _, _ => net._Z_ERR_GENERIC

/-- The function `z_keyexpr_intersects`. -/
def z_keyexpr_intersects (net : NetLayer σ) (l r : z_keyexpr_t) : Int :=
  if l._id = Z_RESOURCE_ID_NONE ∧ r._id = Z_RESOURCE_ID_NONE then
    zp_keyexpr_intersect_null_terminated net l._suffix r._suffix
  else net._Z_ERR_GENERIC

/-- The function `zp_keyexpr_equals_null_terminated`. -/
def zp_keyexpr_equals_null_terminated (net : NetLayer σ) (l r : Option (List Char)) : Int :=
  match l, r with
  | some l, some r =>
    let llen := strlen l
    if llen = strlen r then
      if strncmp l r llen = 0 then 0 else -1
    else -1
  | _, _ => net._Z_ERR_GENERIC

/-- The function `z_keyexpr_equals`. -/
def z_keyexpr_equals (net : NetLayer σ) (l r : z_keyexpr_t) : Int :=
  if l._id = Z_RESOURCE_ID_NONE ∧ r._id = Z_RESOURCE_ID_NONE then
    zp_keyexpr_equals_null_terminated net l._suffix r._suffix
  else net._Z_ERR_GENERIC

/-! ## Closures: `OWNED_FUNCTIONS_CLOSURE` -/

/-- The invocation `fn(ctx)` of a user's drop function, recorded. -/
def user_drop (w : World σ) (fn : Nat) (ctx : Option Nat) : World σ :=
  { w with log := w.log ++ [NetCall.user_drop fn ctx] }

/-- The function `z_##name##_check` of the macro `OWNED_FUNCTIONS_CLOSURE`. -/
def OWNED_FUNCTIONS_CLOSURE_check (val : z_owned_closure_t) : Bool := val.call.isSome

/-- The function `z_##name##_drop` of the macro `OWNED_FUNCTIONS_CLOSURE`: the
closure as the call leaves it. -/
def OWNED_FUNCTIONS_CLOSURE_drop (w : World σ) (val : z_owned_closure_t) :
    z_owned_closure_t × World σ :=
  let vw : z_owned_closure_t × World σ :=
    match val.drop with
    | some d => ({ val with drop := none }, user_drop w d val.context)
    | none => (val, w)
  ({ vw.1 with call := none, context := none }, vw.2)

/-- The function `z_##name##_null` of the macro `OWNED_FUNCTIONS_CLOSURE`. -/
def OWNED_FUNCTIONS_CLOSURE_null : z_owned_closure_t :=
  { call := none, drop := none, context := none }

/-- The function `z_closure_sample_check`. -/
def z_closure_sample_check (val : z_owned_closure_t) : Bool := OWNED_FUNCTIONS_CLOSURE_check val

/-- The function `z_closure_sample_drop`. -/
def z_closure_sample_drop (w : World σ) (val : z_owned_closure_t) :
    z_owned_closure_t × World σ := OWNED_FUNCTIONS_CLOSURE_drop w val

/-- The function `z_closure_sample_null`. -/
def z_closure_sample_null : z_owned_closure_t := OWNED_FUNCTIONS_CLOSURE_null

/-- The function `z_closure_query_check`. -/
def z_closure_query_check (val : z_owned_closure_t) : Bool := OWNED_FUNCTIONS_CLOSURE_check val

/-- The function `z_closure_query_drop`. -/
def z_closure_query_drop (w : World σ) (val : z_owned_closure_t) :
    z_owned_closure_t × World σ := OWNED_FUNCTIONS_CLOSURE_drop w val

/-- The function `z_closure_query_null`. -/
def z_closure_query_null : z_owned_closure_t := OWNED_FUNCTIONS_CLOSURE_null

/-- The function `z_closure_reply_check`. -/
def z_closure_reply_check (val : z_owned_closure_t) : Bool := OWNED_FUNCTIONS_CLOSURE_check val

/-- The function `z_closure_reply_drop`. -/
def z_closure_reply_drop (w : World σ) (val : z_owned_closure_t) :
    z_owned_closure_t × World σ := OWNED_FUNCTIONS_CLOSURE_drop w val

/-- The function `z_closure_reply_null`. -/
def z_closure_reply_null : z_owned_closure_t := OWNED_FUNCTIONS_CLOSURE_null

/-- The function `z_closure_hello_check`. -/
def z_closure_hello_check (val : z_owned_closure_t) : Bool := OWNED_FUNCTIONS_CLOSURE_check val

/-- The function `z_closure_hello_drop`. -/
def z_closure_hello_drop (w : World σ) (val : z_owned_closure_t) :
    z_owned_closure_t × World σ := OWNED_FUNCTIONS_CLOSURE_drop w val

/-- The function `z_closure_hello_null`. -/
def z_closure_hello_null : z_owned_closure_t := OWNED_FUNCTIONS_CLOSURE_null

/-- The function `z_closure_zid_check`. -/
def z_closure_zid_check (val : z_owned_closure_t) : Bool := OWNED_FUNCTIONS_CLOSURE_check val

/-- The function `z_closure_zid_drop`. -/
def z_closure_zid_drop (w : World σ) (val : z_owned_closure_t) :
    z_owned_closure_t × World σ := OWNED_FUNCTIONS_CLOSURE_drop w val

/-- The function `z_closure_zid_null`. -/
def z_closure_zid_null : z_owned_closure_t := OWNED_FUNCTIONS_CLOSURE_null

/-- A sequence of `n` calls of `z_##name##_drop` on the same closure. -/
def closure_drop_times : Nat → World σ → z_owned_closure_t → z_owned_closure_t × World σ
  | 0, w, val => (val, w)
  | n + 1, w, val =>
    let r := OWNED_FUNCTIONS_CLOSURE_drop w val
    closure_drop_times n r.2 r.1

/-! ## Configurations, `z_scout` and `z_open` -/

/-- Modelled from the spec: the function `_z_config_get`.  A configuration maps
option keys to string values; the result is the value stored under `key`,
NULL when there is none. -/
def _z_config_get (c : _z_config_t) (key : Nat) : Option (List Char) :=
  (c.find? fun e => e.1 == key).map fun e => e.2

/-- Modelled from the spec: the functions `_z_config_free` and
`_z_scouting_config_free`.  The drop clears the handle's internal pointer. -/
def _z_config_free (_p : Option _z_config_t) : Option _z_config_t := none

/-- The function `z_config_check`. -/
def z_config_check (val : z_owned_config_t) : Bool := val._value.isSome

/-- The function `z_config_drop`. -/
def z_config_drop (val : z_owned_config_t) : z_owned_config_t :=
  if val._value ≠ none then { val with _value := _z_config_free val._value } else val

/-- The function `z_scouting_config_check`. -/
def z_scouting_config_check (val : z_owned_scouting_config_t) : Bool := val._value.isSome

/-- The function `z_scouting_config_drop`. -/
def z_scouting_config_drop (val : z_owned_scouting_config_t) : z_owned_scouting_config_t :=
  if val._value ≠ none then { val with _value := _z_config_free val._value } else val

/-- The net-layer call `_z_scout`, recorded (it works on no session). -/
def _z_scout (w : World σ) (a : ScoutArgs) : World σ :=
  { w with log := w.log ++ [NetCall._z_scout a] }

/-- The function `z_scout`.  `malloc_ok` tells whether the `z_malloc` of the
hello handler wrapper succeeds.  The result is the status, the configuration
handle and the caller's closure as the call leaves them; `none` when the
configuration is read through a NULL `config->_value`. -/
def z_scout (net : NetLayer σ) (w : World σ) (malloc_ok : Bool)
    (config : z_owned_scouting_config_t) (callback : z_owned_closure_t) :
    Option ((Int × z_owned_scouting_config_t × z_owned_closure_t) × World σ) :=
  let ctx := callback.context
  let callback := { callback with context := none }
  if malloc_ok then
    let wrapped_ctx : __z_hello_handler_wrapper_t := { user_call := callback.call, ctx := ctx }
    match config._value with
    | none => none
    | some c =>
      let opt_as_str := (_z_config_get c net.Z_CONFIG_SCOUTING_WHAT_KEY).getD
        net.Z_CONFIG_SCOUTING_WHAT_DEFAULT
      let what := net.strtol opt_as_str
      let opt_as_str := (_z_config_get c net.Z_CONFIG_MULTICAST_LOCATOR_KEY).getD
        net.Z_CONFIG_MULTICAST_LOCATOR_DEFAULT
      let mcast_locator := opt_as_str
      let opt_as_str := (_z_config_get c net.Z_CONFIG_SCOUTING_TIMEOUT_KEY).getD
        net.Z_CONFIG_SCOUTING_TIMEOUT_DEFAULT
      let timeout := net.strtoul opt_as_str
      let zid :=
        match _z_config_get c net.Z_CONFIG_SESSION_ZID_KEY with
        | some zid_str => net._z_uuid_to_bytes zid_str
        | none => net._z_id_empty
      let w := _z_scout w
        { what := what, zid := zid, locator := mcast_locator, timeout := timeout,
          wrapped_ctx := wrapped_ctx, drop := callback.drop, ctx := ctx }
      some ((_Z_RES_OK, z_scouting_config_drop config, callback), w)
  else some ((net._Z_ERR_SYSTEM_OUT_OF_MEMORY, config, callback), w)

/-- The net-layer call `_z_open` on the session of the new cell, recorded. -/
def _z_open (net : NetLayer σ) (w : World σ) (config : Option _z_config_t) : Int × World σ :=
  let r := net.open_session w.sess config
  (r.1, { sess := r.2, log := w.log ++ [NetCall._z_open config] })

/-- The function `z_open`.  `zsrc` is the pointer `in` of the cell
`_z_session_rc_new()` returns, NULL when the cell cannot be created; the
session of the world is the session of that cell.  The result is the owned
session and the caller's configuration handle as the call leaves it. -/
def z_open (net : NetLayer σ) (w : World σ) (zsrc : Option Nat) (config : z_owned_config_t) :
    (z_owned_session_t × z_owned_config_t) × World σ :=
  let zs : z_owned_session_t := { _value_in := none }
  match zsrc with
  | none => ((zs, z_config_drop config), w)
  | some a =>
    let r := _z_open net w config._value
    if r.1 ≠ _Z_RES_OK then
      let w := _z_session_rc_drop net r.2
      ((zs, z_config_drop config), w)
    else
      (({ zs with _value_in := some a }, z_config_drop config), r.2)

/-! ## Session information: `z_info_peers_zid`, `z_info_routers_zid` -/

/-- The net-layer call `_zp_multicast_fetch_zid`, recorded. -/
def _zp_multicast_fetch_zid (net : NetLayer σ) (w : World σ) (callback : z_owned_closure_t) :
    World σ :=
  { sess := net.multicast_fetch_zid w.sess callback,
    log := w.log ++ [NetCall._zp_multicast_fetch_zid callback] }

/-- The net-layer call `_zp_unicast_fetch_zid`, recorded. -/
def _zp_unicast_fetch_zid (net : NetLayer σ) (w : World σ) (callback : z_owned_closure_t) :
    World σ :=
  { sess := net.unicast_fetch_zid w.sess callback,
    log := w.log ++ [NetCall._zp_unicast_fetch_zid callback] }

/-- The function `z_info_peers_zid`: the status and the caller's closure as the
call leaves it. -/
def z_info_peers_zid (net : NetLayer σ) (w : World σ) (callback : z_owned_closure_t) :
    (Int × z_owned_closure_t) × World σ :=
  -- Call transport function
  let w :=
    match net.tp_type w.sess with
    | _Z_TRANSPORT_MULTICAST_TYPE => _zp_multicast_fetch_zid net w callback
    | _Z_TRANSPORT_RAWETH_TYPE => _zp_multicast_fetch_zid net w callback
    | _ => w
  -- Note and clear context
  let ctx := callback.context
  let callback := { callback with context := none }
  -- Drop if needed
  let w :=
    match callback.drop with
    | some d => user_drop w d ctx
    | none => w
  ((0, callback), w)

/-- The function `z_info_routers_zid`: the status and the caller's closure as
the call leaves it. -/
def z_info_routers_zid (net : NetLayer σ) (w : World σ) (callback : z_owned_closure_t) :
    (Int × z_owned_closure_t) × World σ :=
  -- Call transport function
  let w :=
    match net.tp_type w.sess with
    | _Z_TRANSPORT_UNICAST_TYPE => _zp_unicast_fetch_zid net w callback
    | _ => w
  -- Note and clear context
  let ctx := callback.context
  let callback := { callback with context := none }
  -- Drop if needed
  let w :=
    match callback.drop with
    | some d => user_drop w d ctx
    | none => w
  ((0, callback), w)

/-! ## The attachment map: `z_bytes_map_get`, `z_bytes_map_iter` -/

/-- The function `z_bytes_null`. -/
def z_bytes_null : z_bytes_t := { len := 0, _is_alloc := false, start := none }

/-- Modelled from the spec: the function `_z_bytes_eq`.  Keys are byte strings:
two are equal when they have the same length and the same bytes. -/
def _z_bytes_eq (left right : z_bytes_t) : Bool :=
  left.len == right.len &&
    (left.start.getD []).take left.len == (right.start.getD []).take right.len

/-- The function `z_bytes_map_check`. -/
def z_bytes_map_check (this_ : z_owned_bytes_map_t) : Bool := !this_._inner.isEmpty

/-- The function `z_bytes_map_null`. -/
def z_bytes_map_null : z_owned_bytes_map_t := { _inner := [] }

/-- The loop of `z_bytes_map_get`, run for at most `fuel` tests of its
condition; `none` when the fuel runs out before the function returns.  The
body of the loop leaves `current` as it is. -/
def z_bytes_map_get_loop (key : z_bytes_t) : Nat → List _z_bytes_pair_t → Option z_bytes_t
  | 0, _ => none
  | fuel + 1, current =>
    match current with
    | [] => some z_bytes_null
    | head :: _ =>
      if _z_bytes_eq key head.key then some (_z_bytes_wrap head.value.start head.value.len)
      else z_bytes_map_get_loop key fuel current

/-- The function `z_bytes_map_get`, with the fuel of its loop. -/
def z_bytes_map_get (fuel : Nat) (this_ : z_owned_bytes_map_t) (key : z_bytes_t) :
    Option z_bytes_t :=
  z_bytes_map_get_loop key fuel this_._inner

/-- The loop of `z_bytes_map_iter`.  The state `γ` is what the pointer `ctx`
points to: `body` receives it and returns its status with the state it
leaves. -/
def z_bytes_map_iter_loop {γ : Type} (body : z_bytes_t → z_bytes_t → γ → Int × γ) :
    List _z_bytes_pair_t → γ → Int × γ
  | [], ctx => (0, ctx)
  | head :: tail, ctx =>
    let r := body head.key head.value ctx
    if r.1 ≠ 0 then r else z_bytes_map_iter_loop body tail r.2

/-- The function `z_bytes_map_iter`. -/
def z_bytes_map_iter {γ : Type} (this_ : z_owned_bytes_map_t)
    (body : z_bytes_t → z_bytes_t → γ → Int × γ) (ctx : γ) : Int × γ :=
  z_bytes_map_iter_loop body this_._inner ctx

/-- A call of an iteration body, as recorded: the key and value it was given
and the status it returned. -/
structure BodyCall where
  key : z_bytes_t
  value : z_bytes_t
  ret : Int
  deriving DecidableEq, Repr

/-- The body `body`, recording each of its calls next to the state it works on. -/
def recording {γ : Type} (body : z_bytes_t → z_bytes_t → γ → Int × γ) :
    z_bytes_t → z_bytes_t → γ × List BodyCall → Int × γ × List BodyCall :=
  fun k v st =>
    let r := body k v st.1
    (r.1, r.2, st.2 ++ [{ key := k, value := v, ret := r.1 }])

/-! ## The attachment map: insertion, attachments, `z_bytes_from_str` -/

/-- Modelled from the spec: the function `_z_bytes_copy`.  A copy owns its
bytes: it holds the first `len` bytes of the source in a buffer of its own. -/
def _z_bytes_copy (src : z_bytes_t) : z_bytes_t :=
  { start := some ((src.start.getD []).take src.len), len := src.len, _is_alloc := true }

/-- The function `z_bytes_map_new`: `_z_bytes_pair_list_new()` is the empty
list. -/
def z_bytes_map_new : z_owned_bytes_map_t := { _inner := [] }

/-- The search loop and in-place update of `z_bytes_map_insert_by_alias`: the
list with its first pair of key `key` given the value `value`, aliased;
`none` when the loop ends with `current` NULL. -/
def z_bytes_map_insert_by_alias_loop (key value : z_bytes_t) :
    List _z_bytes_pair_t → Option (List _z_bytes_pair_t)
  | [] => none
  | head :: tail =>
    if _z_bytes_eq key head.key then
      some ({ head with value := _z_bytes_wrap value.start value.len } :: tail)
    else (z_bytes_map_insert_by_alias_loop key value tail).map fun l => head :: l

/-- The function `z_bytes_map_insert_by_alias`: the map as the call leaves it.
The pair pushed for a new key goes to the head of the list. -/
def z_bytes_map_insert_by_alias (this_ : z_owned_bytes_map_t) (key value : z_bytes_t) :
    z_owned_bytes_map_t :=
  match z_bytes_map_insert_by_alias_loop key value this_._inner with
  | some l => { _inner := l }
  | none =>
    { _inner :=
        { key := _z_bytes_wrap key.start key.len,
          value := _z_bytes_wrap value.start value.len } :: this_._inner }

/-- The search loop and in-place update of `z_bytes_map_insert_by_copy`: the
list with its first pair of key `key` given a copy of `value` (and a copy of
`key` when the pair did not own its key); `none` when the loop ends with
`current` NULL. -/
def z_bytes_map_insert_by_copy_loop (key value : z_bytes_t) :
    List _z_bytes_pair_t → Option (List _z_bytes_pair_t)
  | [] => none
  | head :: tail =>
    if _z_bytes_eq key head.key then
      some ({ value := _z_bytes_copy value,
              key := if !head.key._is_alloc then _z_bytes_copy key else head.key } :: tail)
    else (z_bytes_map_insert_by_copy_loop key value tail).map fun l => head :: l

/-- The function `z_bytes_map_insert_by_copy`: the map as the call leaves it
(the `z_malloc` of a new pair is not tested by the code and taken to
succeed). -/
def z_bytes_map_insert_by_copy (this_ : z_owned_bytes_map_t) (key value : z_bytes_t) :
    z_owned_bytes_map_t :=
  match z_bytes_map_insert_by_copy_loop key value this_._inner with
  | some l => { _inner := l }
  | none =>
    { _inner := { key := _z_bytes_copy key, value := _z_bytes_copy value } :: this_._inner }

/-- The function `_z_bytes_map_insert_by_alias`, an iteration body whose `ctx`
points to a map. -/
def _z_bytes_map_insert_by_alias (key value : z_bytes_t) (this_ : z_owned_bytes_map_t) :
    Int × z_owned_bytes_map_t :=
  (0, z_bytes_map_insert_by_alias this_ key value)

/-- The function `_z_bytes_map_insert_by_copy`, an iteration body whose `ctx`
points to a map. -/
def _z_bytes_map_insert_by_copy (key value : z_bytes_t) (this_ : z_owned_bytes_map_t) :
    Int × z_owned_bytes_map_t :=
  (0, z_bytes_map_insert_by_copy this_ key value)

/-- The memory an attachment points into: `map_at p` is the bytes map stored at
the address `p` (if one is), `z_bytes_map_iter` the address of the function of
that name. -/
structure Memory where
  map_at : Nat → Option z_owned_bytes_map_t
  z_bytes_map_iter : Nat

/-- Modelled from the spec: the function `z_attachment_check`.  The null
attachment, which stands for no attachment, is the one without an iteration
driver. -/
def z_attachment_check (this_ : z_attachment_t) : Bool := this_.iteration_driver.isSome

/-- Modelled from the spec: the function `z_attachment_iterate`, which runs the
attachment's iteration driver on its data with the given body and `ctx`.
Only the driver `z_bytes_map_iter`, on a pointer to a map, is modelled; the
result is `none` for any other attachment. -/
def z_attachment_iterate {γ : Type} (mem : Memory) (this_ : z_attachment_t)
    (body : z_bytes_t → z_bytes_t → γ → Int × γ) (ctx : γ) : Option (Int × γ) :=
  if this_.iteration_driver = some mem.z_bytes_map_iter then
    match this_.data.bind mem.map_at with
    | some m => some (z_bytes_map_iter m body ctx)
    | none => none
  else none

/-- The function `z_bytes_map_as_attachment`; `this_` is the address of the
map, `none` when no map is stored there. -/
def z_bytes_map_as_attachment (mem : Memory) (this_ : Nat) : Option z_attachment_t :=
  match mem.map_at this_ with
  | none => none
  | some m =>
    if !z_bytes_map_check m then some z_attachment_null
    else some { data := some this_, iteration_driver := some mem.z_bytes_map_iter }

/-- The function `z_bytes_map_from_attachment`. -/
def z_bytes_map_from_attachment (mem : Memory) (this_ : z_attachment_t) :
    Option z_owned_bytes_map_t :=
  if !z_attachment_check this_ then some z_bytes_map_null
  else
    let map := z_bytes_map_new
    (z_attachment_iterate mem this_ _z_bytes_map_insert_by_copy map).map fun r => r.2

/-- The function `z_bytes_map_from_attachment_aliasing`. -/
def z_bytes_map_from_attachment_aliasing (mem : Memory) (this_ : z_attachment_t) :
    Option z_owned_bytes_map_t :=
  if !z_attachment_check this_ then some z_bytes_map_null
  else
    let map := z_bytes_map_new
    (z_attachment_iterate mem this_ _z_bytes_map_insert_by_alias map).map fun r => r.2

/-- The function `z_bytes_from_str`; `none` when `strlen` is applied to a NULL
`str`. -/
def z_bytes_from_str (str : Option (List Char)) : Option z_bytes_t :=
  match str with
  | none => none
  | some s => some (_z_bytes_wrap (some (s.map Char.toNat)) (strlen s))

/-- One insertion into a bytes map, by either function. -/
inductive MapInsert
  | by_copy (key value : z_bytes_t)
  | by_alias (key value : z_bytes_t)
  deriving DecidableEq, Repr

/-- The key of an insertion. -/
def MapInsert.key : MapInsert → z_bytes_t
  | .by_copy k _ => k
  | .by_alias k _ => k

/-- The value of an insertion. -/
def MapInsert.value : MapInsert → z_bytes_t
  | .by_copy _ v => v
  | .by_alias _ v => v

/-- The map after one insertion. -/
def z_bytes_map_apply (m : z_owned_bytes_map_t) : MapInsert → z_owned_bytes_map_t
  | .by_copy k v => z_bytes_map_insert_by_copy m k v
  | .by_alias k v => z_bytes_map_insert_by_alias m k v

/-- The map built from `z_bytes_map_new()` by a sequence of insertions, first
insertion first. -/
def z_bytes_map_build (ops : List MapInsert) : z_owned_bytes_map_t :=
  ops.foldl z_bytes_map_apply z_bytes_map_new

/-- The bytes a `z_bytes_t` stands for: its length and its first `len` bytes.
Two values are `_z_bytes_eq` exactly when they have the same content. -/
def z_bytes_content (b : z_bytes_t) : Nat × List Nat := (b.len, (b.start.getD []).take b.len)

/-- The value of the most recent insertion, in a sequence of insertions, whose
key is byte-equal to `k`. -/
def last_inserted (ops : List MapInsert) (k : z_bytes_t) : Option z_bytes_t :=
  (ops.reverse.find? fun op => _z_bytes_eq k op.key).map fun op => op.value

/-- The shape shared by the two insertion loops: the list with its first pair of
key `key` replaced by `f` of that pair; `none` when no pair has that key. -/
def z_bytes_map_update_first (f : _z_bytes_pair_t → _z_bytes_pair_t) (key : z_bytes_t) :
    List _z_bytes_pair_t → Option (List _z_bytes_pair_t)
  | [] => none
  | head :: tail =>
    if _z_bytes_eq key head.key then some (f head :: tail)
    else (z_bytes_map_update_first f key tail).map fun l => head :: l

/-- The in-place update an insertion makes on the pair that already has its key. -/
def MapInsert.update : MapInsert → _z_bytes_pair_t → _z_bytes_pair_t
  | .by_copy k v => fun head =>
    { value := _z_bytes_copy v, key := if !head.key._is_alloc then _z_bytes_copy k else head.key }
  | .by_alias _ v => fun head => { head with value := _z_bytes_wrap v.start v.len }

/-- The pair an insertion pushes when no pair has its key. -/
def MapInsert.pair : MapInsert → _z_bytes_pair_t
  | .by_copy k v => { key := _z_bytes_copy k, value := _z_bytes_copy v }
  | .by_alias k v => { key := _z_bytes_wrap k.start k.len, value := _z_bytes_wrap v.start v.len }

/-- An iteration body that collects the pairs it is given and always returns 0. -/
def collecting : z_bytes_t → z_bytes_t → List (z_bytes_t × z_bytes_t) →
    Int × List (z_bytes_t × z_bytes_t) :=
  fun k v acc => (0, acc ++ [(k, v)])

/-! ## Scouting configurations -/

/-- Modelled from the spec: the function `_z_config_empty`, the configuration
that maps no key. -/
def _z_config_empty : _z_config_t := []

/-- Modelled from the spec: the function `_zp_config_insert`.  Afterwards the
configuration maps `key` to `value`, and every other key as before. -/
def _zp_config_insert (c : _z_config_t) (key : Nat) (value : List Char) : _z_config_t :=
  (key, value) :: c.filter fun e => e.1 != key

/-- Modelled from the spec: the function `_z_string_make`, the string value made
of a C string. -/
def _z_string_make (value : List Char) : List Char := value

/-- Modelled from the spec: the constant `Z_CONFIG_MULTICAST_LOCATOR_DEFAULT`,
the default group locator for scouting, `udp/224.0.0.224:7446`. -/
def Z_CONFIG_MULTICAST_LOCATOR_DEFAULT : List Char := "udp/224.0.0.224:7446".toList

/-- The function `z_config_loan`. -/
def z_config_loan (val : z_owned_config_t) : z_config_t := { _val := val._value }

/-- The function `z_scouting_config_default`. -/
def z_scouting_config_default (net : NetLayer σ) : z_owned_scouting_config_t :=
  let sc := _z_config_empty
  let sc := _zp_config_insert sc net.Z_CONFIG_MULTICAST_LOCATOR_KEY
    (_z_string_make net.Z_CONFIG_MULTICAST_LOCATOR_DEFAULT)
  let sc := _zp_config_insert sc net.Z_CONFIG_SCOUTING_TIMEOUT_KEY
    (_z_string_make net.Z_CONFIG_SCOUTING_TIMEOUT_DEFAULT)
  let sc := _zp_config_insert sc net.Z_CONFIG_SCOUTING_WHAT_KEY
    (_z_string_make net.Z_CONFIG_SCOUTING_WHAT_DEFAULT)
  { _value := some sc }

/-- The function `z_scouting_config_from`; `none` when the configuration is read
through a NULL `c._val`. -/
def z_scouting_config_from (net : NetLayer σ) (c : z_config_t) :
    Option z_owned_scouting_config_t :=
  match c._val with
  | none => none
  | some cv =>
    let sc := _z_config_empty
    let sc :=
      match _z_config_get cv net.Z_CONFIG_MULTICAST_LOCATOR_KEY with
      | none => _zp_config_insert sc net.Z_CONFIG_MULTICAST_LOCATOR_KEY
          (_z_string_make net.Z_CONFIG_MULTICAST_LOCATOR_DEFAULT)
      | some opt => _zp_config_insert sc net.Z_CONFIG_MULTICAST_LOCATOR_KEY (_z_string_make opt)
    let sc :=
      match _z_config_get cv net.Z_CONFIG_SCOUTING_TIMEOUT_KEY with
      | none => _zp_config_insert sc net.Z_CONFIG_SCOUTING_TIMEOUT_KEY
          (_z_string_make net.Z_CONFIG_SCOUTING_TIMEOUT_DEFAULT)
      | some opt => _zp_config_insert sc net.Z_CONFIG_SCOUTING_TIMEOUT_KEY (_z_string_make opt)
    let sc :=
      match _z_config_get cv net.Z_CONFIG_SCOUTING_WHAT_KEY with
      | none => _zp_config_insert sc net.Z_CONFIG_SCOUTING_WHAT_KEY
          (_z_string_make net.Z_CONFIG_SCOUTING_WHAT_DEFAULT)
      | some opt => _zp_config_insert sc net.Z_CONFIG_SCOUTING_WHAT_KEY (_z_string_make opt)
    some { _value := some sc }

/-! ## Key-expression accessors -/

/-- Modelled from the spec: the function `_z_str_size`, the number of bytes a
copy of the string takes: its characters and the terminating NUL. -/
def _z_str_size (src : List Char) : Nat := strlen src + 1

/-- Modelled from the spec: the function `_z_str_n_copy`, the copy of a string
into a buffer of `size` bytes, always NUL-terminated: its first `size - 1`
characters. -/
def _z_str_n_copy (src : List Char) (size : Nat) : List Char := src.take (size - 1)

/-- The function `z_keyexpr_to_string`.  `malloc_ok` tells whether the
`z_malloc` of the copy succeeds; `none` when the size of a NULL suffix is
taken. -/
def z_keyexpr_to_string (malloc_ok : Bool) (keyexpr : z_keyexpr_t) : Option z_owned_str_t :=
  let ret : z_owned_str_t := { _value := none }
  if keyexpr._id = Z_RESOURCE_ID_NONE then
    match keyexpr._suffix with
    | none => none
    | some suffix =>
      let ke_len := _z_str_size suffix
      if malloc_ok then some { ret with _value := some (_z_str_n_copy suffix ke_len) }
      else some ret
  else some ret

/-- The function `z_keyexpr_as_bytes`; `none` when `strlen` is applied to a NULL
suffix. -/
def z_keyexpr_as_bytes (keyexpr : z_keyexpr_t) : Option z_bytes_t :=
  if keyexpr._id = Z_RESOURCE_ID_NONE then
    match keyexpr._suffix with
    | none => none
    | some suffix =>
      some { start := some (suffix.map Char.toNat), len := strlen suffix, _is_alloc := false }
  else some { start := none, len := 0, _is_alloc := false }

/-- The function `zp_keyexpr_was_declared`. -/
def zp_keyexpr_was_declared (keyexpr : z_keyexpr_t) : Bool :=
  if keyexpr._id ≠ Z_RESOURCE_ID_NONE then true else false

/-- The function `z_keyexpr_is_initialized`. -/
def z_keyexpr_is_initialized (keyexpr : z_keyexpr_t) : Bool :=
  if keyexpr._id ≠ Z_RESOURCE_ID_NONE ∨ keyexpr._suffix ≠ none then true else false

/-- The function `z_str_check`. -/
def z_str_check (val : z_owned_str_t) : Bool := val._value.isSome

/-! ## The key expression of a publisher or subscriber -/

/-- Modelled from the spec: the function `_z_keyexpr_duplicate`.  A clone is an
independent copy: the same resource id and the same suffix string, owned by
the copy. -/
def _z_keyexpr_duplicate (src : z_keyexpr_t) : z_keyexpr_t := { src with _owns_suffix := true }

/-- The function `z_publisher_keyexpr`.  `malloc_ok` tells whether the
`z_malloc` of the result succeeds and `uninit` is what the fresh memory holds
before anything is written to it. -/
def z_publisher_keyexpr (malloc_ok : Bool) (uninit : z_keyexpr_t) (publisher : z_publisher_t) :
    z_owned_keyexpr_t :=
  let ret : z_owned_keyexpr_t := { _value := if malloc_ok then some uninit else none }
  match ret._value, publisher._val with
  | some _, some p => { ret with _value := some (_z_keyexpr_duplicate p._key) }
  | _, _ => ret

/-- The function `z_subscriber_loan`. -/
def z_subscriber_loan (val : z_owned_subscriber_t) : z_subscriber_t := { _val := val._value }

/-- The loop of `z_subscriber_keyexpr` over the local subscriptions. -/
def z_subscriber_keyexpr_loop (malloc_ok : Bool) (lookup : Nat) :
    List _z_subscription_t → z_owned_keyexpr_t → z_owned_keyexpr_t
  | [], ret => ret
  | head :: tail, ret =>
    if z_keyexpr_check ret then ret
    else
      let ret :=
        if head._id = lookup then
          let key := _z_keyexpr_duplicate head._key
          if malloc_ok then { _value := some key } else { _value := none }
        else ret
      z_subscriber_keyexpr_loop malloc_ok lookup tail ret

/-- The function `z_subscriber_keyexpr`.  `malloc_ok` tells whether the
`z_malloc` of the result succeeds; `none` when `_entity_id` is read through a
NULL `sub._val`. -/
def z_subscriber_keyexpr (net : NetLayer σ) (w : World σ) (malloc_ok : Bool)
    (sub : z_subscriber_t) : Option z_owned_keyexpr_t :=
  let ret := z_keyexpr_null
  match sub._val with
  | none => none
  | some v =>
    let lookup := v._entity_id
    some (z_subscriber_keyexpr_loop malloc_ok lookup (net.local_subscriptions w.sess) ret)

/-! ## A concrete net layer

A small session with a resource table, used to run the API functions on
concrete inputs. -/

/-- A concrete session: transport type, resource table, next entity id, and
whether the transport is saturated. -/
structure DemoSession where
  tp : z_transport_type_t
  resources : List _z_resource_t
  next_entity : Nat
  saturated : Bool
  closed : Bool
  refs : Nat
  subscriptions : List _z_subscription_t := []
  deriving DecidableEq, Repr

/-- A concrete net layer over `DemoSession`: resources are looked up by their
suffix string, a declared resource takes the next free id, and a write with
congestion control DROP on a saturated transport is refused.  Its
key-expression relations are plain equality and its number parsers return
the length of the string: stand-ins that are enough to run the API code. -/
def demoNet : NetLayer DemoSession where
  tp_type s := s.tp
  get_resource_by_key s k := s.resources.find? fun r => decide (r._key._suffix = k._suffix)
  declare_resource s k :=
    (s.resources.length + 1,
      { s with resources := s.resources ++ [{ _id := s.resources.length + 1, _key := k,
                                              _refcount := 1 }] })
  declare_publisher s _ := (some s.next_entity, { s with next_entity := s.next_entity + 1 })
  declare_queryable s _ :=
    (some { _entity_id := s.next_entity }, { s with next_entity := s.next_entity + 1 })
  declare_subscriber s _ :=
    (some { _entity_id := s.next_entity }, { s with next_entity := s.next_entity + 1 })
  write s a :=
    (if s.saturated ∧ a.cong_ctrl = Z_CONGESTION_CONTROL_DROP then -1 else 0, s)
  trigger_local_subscriptions s _ := (0, s)
  query s _ := (0, s)
  close s := (0, { s with closed := true })
  session_rc_drop s := { s with refs := s.refs - 1 }
  undeclare_publisher s _ := (0, s)
  undeclare_subscriber s _ := (0, s)
  undeclare_queryable s _ := (0, s)
  publisher_free s _ := { s with refs := s.refs - 1 }
  subscriber_free s _ := { s with refs := s.refs - 1 }
  queryable_free s _ := { s with refs := s.refs - 1 }
  undeclare_null_status := -128
  _z_subinfo_push_default := { reliability := 0, pull := false }
  _z_subinfo_pull_default := { reliability := 0, pull := true }
  Z_QUERY_TARGET_DEFAULT := 0
  Z_ENCODING_PREFIX_DEFAULT := 0
  Z_CONGESTION_CONTROL_DEFAULT := Z_CONGESTION_CONTROL_DROP
  Z_PRIORITY_DEFAULT := 5
  Z_RELIABILITY_DEFAULT := 0
  _Z_QUERYABLE_COMPLETE_DEFAULT := false
  _Z_N_QOS_DEFAULT := { express := false, nodrop := false, priority := 5 }
  undeclare_resource s rid :=
    (0, { s with resources := s.resources.filter fun r => decide (r._id ≠ rid) })
  open_session s c := (if c.isSome then 0 else -1, s)
  multicast_fetch_zid s _ := s
  local_subscriptions s := s.subscriptions
  unicast_fetch_zid s _ := s
  _z_keyexpr_includes l _ r _ := decide (l = r)
  _z_keyexpr_intersects l _ r _ := decide (l = r)
  strtol s := s.length
  strtoul s := s.length
  _z_uuid_to_bytes s := s.map Char.toNat
  _z_id_empty := List.replicate 16 0
  _Z_ERR_GENERIC := -128
  _Z_ERR_SYSTEM_OUT_OF_MEMORY := -78
  Z_CONFIG_MULTICAST_LOCATOR_KEY := 70
  Z_CONFIG_SCOUTING_TIMEOUT_KEY := 71
  Z_CONFIG_SCOUTING_WHAT_KEY := 72
  Z_CONFIG_SESSION_ZID_KEY := 73
  Z_CONFIG_MULTICAST_LOCATOR_DEFAULT := "udp/224.0.0.224:7446".toList
  Z_CONFIG_SCOUTING_TIMEOUT_DEFAULT := "1000".toList
  Z_CONFIG_SCOUTING_WHAT_DEFAULT := "3".toList

/-- A fresh unicast session with an empty resource table. -/
def demoUnicast : World DemoSession :=
  { sess := { tp := _Z_TRANSPORT_UNICAST_TYPE, resources := [], next_entity := 1,
              saturated := false, closed := false, refs := 1 },
    log := [] }

/-- A fresh multicast session with an empty resource table. -/
def demoMulticast : World DemoSession :=
  { sess := { tp := _Z_TRANSPORT_MULTICAST_TYPE, resources := [], next_entity := 1,
              saturated := false, closed := false, refs := 1 },
    log := [] }

/-- The literal key expression of a string. -/
def lit (s : String) : z_keyexpr_t := z_keyexpr (some s.toList)

/-- The characters of a string literal, as a C string. -/
def cstr (s : String) : List Char := s.toList

/-- Query options asking for consolidation mode Auto. -/
def demoGetOptions : z_get_options_t :=
  { value := { payload := _z_bytes_empty, encoding := { pfx := 0, suffix := _z_bytes_empty } },
    consolidation := z_query_consolidation_auto, target := 0 }

/-- A closure with all three pointers set. -/
def demoClosure : z_owned_closure_t := { context := some 30, call := some 10, drop := some 20 }

/-- The session after a first publisher has been declared on `a` over unicast:
`a` is then present in the resource table under id 1. -/
def demoAfterFirstPublisher : World DemoSession :=
  (z_declare_publisher demoNet demoUnicast (lit "a") none).2

/-- The concrete net layer, with a subscriber undeclaration that fails. -/
def demoNetFailing : NetLayer DemoSession :=
  { demoNet with
    undeclare_subscriber := fun s _ => (-1, s)
    undeclare_publisher := fun s _ => (-1, s)
    undeclare_queryable := fun s _ => (-1, s)
    undeclare_resource := fun s _ => (-1, s) }

/-- The bytes of a string literal, as a non-owning `z_bytes_t`. -/
def bstr (s : String) : z_bytes_t := _z_bytes_wrap (some (s.toList.map Char.toNat)) s.length

/-- The attachment map holding `a -> 1` and, next in the list, `b -> 2`. -/
def demoMap : z_owned_bytes_map_t :=
  { _inner := [{ key := bstr "a", value := bstr "1" }, { key := bstr "b", value := bstr "2" }] }

/-- An iteration body that counts its calls and stops, with status 7, on the
key `b`. -/
def demoBody : z_bytes_t → z_bytes_t → Nat → Int × Nat :=
  fun k _ n => (if k = bstr "b" then 7 else 0, n + 1)

/-- A scouting configuration that sets only the scouting timeout. -/
def demoScoutingConfig : z_owned_scouting_config_t := { _value := some [(71, "500".toList)] }

/-- A memory with the map `demoMap` stored at address 100. -/
def demoMemory : Memory :=
  { map_at := fun p => if p = 100 then some demoMap else none, z_bytes_map_iter := 7 }

/-- Modelled from the spec: the resolution of a possibly-aliased key expression
against the session, here the concrete one: the prefix stored under its id
concatenated with its suffix; a literal key is its own suffix. -/
def demo_resolve (s : DemoSession) (k : z_keyexpr_t) : Option (List Char) :=
  if k._id = Z_RESOURCE_ID_NONE then k._suffix
  else (s.resources.find? fun r => r._id == k._id).map fun r =>
    r._key._suffix.getD [] ++ k._suffix.getD []

/-- The key expression of the last `_z_declare_subscriber` call of a log. -/
def declared_subscriber_key : List NetCall → Option z_keyexpr_t
  | [] => none
  | c :: rest =>
    match declared_subscriber_key rest with
    | some k => some k
    | none =>
      match c with
      | NetCall._z_declare_subscriber a => some a.keyexpr
      | _ => none

/-- The key expression of the first `_z_declare_resource` call of a log. -/
def declared_resource_key : List NetCall → Option z_keyexpr_t
  | [] => none
  | NetCall._z_declare_resource k :: _ => some k
  | _ :: rest => declared_resource_key rest

/-- The key a subscriber declared on `k`, on a fresh unicast session, resolves
to: the key it is registered with, resolved against the session the
declaration leaves. -/
def demo_subscriber_resolves (malloc_ok : Bool) (k : String) : Option (List Char) :=
  (z_declare_subscriber demoNet demoUnicast malloc_ok (lit k) demoClosure none).bind fun r =>
    (declared_subscriber_key r.2.log).bind (demo_resolve r.2.sess)

/-- A publisher on the literal key `demo/a` with congestion control BLOCK and
priority 1. -/
def demoPublisher : _z_publisher_t :=
  { _key := lit "demo/a", _id := 1, _congestion_control := Z_CONGESTION_CONTROL_BLOCK,
    _priority := 1 }

/-! # Theorems -/

/-! ## C library lemmas -/

theorem strstr_isSome_iff (hay needle : List Char) :
    (strstr hay needle).isSome = true ↔ needle <:+: hay := by
  induction hay with
  | nil =>
    cases needle <;> simp [strstr]
  | cons h t ih =>
    unfold strstr
    by_cases hp : needle.isPrefixOf (h :: t) = true
    · simp only [hp, if_true, Option.isSome_some, true_iff]
      exact (List.isPrefixOf_iff_prefix.mp hp).isInfix
    · simp only [hp, Bool.false_eq_true, if_false, ih]
      rw [List.infix_cons_iff]
      constructor
      · intro h1; exact Or.inr h1
      · rintro (h1 | h1)
        · exact absurd (List.isPrefixOf_iff_prefix.mpr h1) hp
        · exact h1

theorem strpbrk_append (pre rest : List Char) (c : Char) (accept : List Char)
    (hpre : ∀ x ∈ pre, x ∉ accept) (hc : c ∈ accept) :
    strpbrk (pre ++ c :: rest) accept = some pre.length := by
  induction pre with
  | nil => simp [strpbrk, hc]
  | cons a t ih =>
    have ha : a ∉ accept := hpre a (List.mem_cons_self _ _)
    have ht : ∀ x ∈ t, x ∉ accept := fun x hx => hpre x (List.mem_cons_of_mem _ hx)
    simp [strpbrk, ha, ih ht]

theorem strpbrk_none (s : List Char) (accept : List Char)
    (hs : ∀ x ∈ s, x ∉ accept) : strpbrk s accept = none := by
  induction s with
  | nil => simp [strpbrk]
  | cons a t ih =>
    have ha : a ∉ accept := hs a (List.mem_cons_self _ _)
    have ht : ∀ x ∈ t, x ∉ accept := fun x hx => hs x (List.mem_cons_of_mem _ hx)
    simp [strpbrk, ha, ih ht]

/-! ## C1: consolidation mode chosen by `z_get` under Auto -/

/-- C1: `z_get` with consolidation mode Auto (options NULL, whose default is
Auto, or options whose consolidation mode is Auto): for every parameters
string `p`, a NULL `p` read as the empty string, the call makes exactly one
`_z_query`, on the caller's key and parameters, and the consolidation mode
handed to it is None if `p` contains `_time=` and Latest otherwise. -/
theorem z_get_auto_consolidation (net : NetLayer σ) (w : World σ) (malloc_ok : Bool)
    (keyexpr : z_keyexpr_t) (p : Option (List Char)) (callback : z_owned_closure_t)
    (options : Option z_get_options_t)
    (hauto : ∀ o, options = some o → o.consolidation.mode = Z_CONSOLIDATION_MODE_AUTO) :
    ∃ a : QueryArgs,
      (z_get net w malloc_ok keyexpr p callback options).2.log = w.log ++ [NetCall._z_query a] ∧
      a.keyexpr = keyexpr ∧ a.parameters = p ∧
      (Z_SELECTOR_TIME <:+: p.getD [] → a.mode = Z_CONSOLIDATION_MODE_NONE) ∧
      (¬ Z_SELECTOR_TIME <:+: p.getD [] → a.mode = Z_CONSOLIDATION_MODE_LATEST) := by
  have hlp : (match p with
      | none => []
      | some q => q) = p.getD [] := by cases p <;> rfl
  have hmode : (match options with
      | some o =>
        { z_get_options_default net with
          consolidation := o.consolidation, target := o.target, value := o.value }
      | none => z_get_options_default net).consolidation.mode = Z_CONSOLIDATION_MODE_AUTO := by
    cases options with
    | none => rfl
    | some o => exact hauto o rfl
  by_cases hin : Z_SELECTOR_TIME <:+: p.getD []
  · have hs : (strstr (p.getD []) Z_SELECTOR_TIME).isSome = true :=
      (strstr_isSome_iff _ _).mpr hin
    simp only [z_get, _z_query, hlp, hmode, hs, if_true]
    exact ⟨_, rfl, rfl, rfl, fun _ => rfl, fun hn => absurd hin hn⟩
  · have hs : ¬ (strstr (p.getD []) Z_SELECTOR_TIME).isSome = true :=
      fun h => hin ((strstr_isSome_iff _ _).mp h)
    simp only [z_get, _z_query, hlp, hmode, hs, if_true, if_false]
    exact ⟨_, rfl, rfl, rfl, fun hn => absurd hn hin, fun _ => rfl⟩

theorem z_get_auto_consolidation_witness :
    (∀ o, some demoGetOptions = some o → o.consolidation.mode = Z_CONSOLIDATION_MODE_AUTO) ∧
    ∃ a : QueryArgs,
      (z_get demoNet demoUnicast true (lit "demo/**") (some (cstr "_time=[now()]")) demoClosure
        (some demoGetOptions)).2.log = demoUnicast.log ++ [NetCall._z_query a] ∧
      a.keyexpr = lit "demo/**" ∧ a.parameters = some (cstr "_time=[now()]") ∧
      (Z_SELECTOR_TIME <:+: (some (cstr "_time=[now()]")).getD [] →
        a.mode = Z_CONSOLIDATION_MODE_NONE) ∧
      (¬ Z_SELECTOR_TIME <:+: (some (cstr "_time=[now()]")).getD [] →
        a.mode = Z_CONSOLIDATION_MODE_LATEST) :=
  ⟨fun o h => by cases h; rfl,
   z_get_auto_consolidation demoNet demoUnicast true (lit "demo/**")
     (some (cstr "_time=[now()]")) demoClosure (some demoGetOptions)
     (fun o h => by cases h; rfl)⟩

/-! ## C2: no automatic resource declaration off unicast -/

/-- C2: on a session whose transport is not unicast, `z_declare_publisher`,
`z_declare_queryable` and `z_declare_subscriber` make exactly one net-layer
call, the declaration of the entity itself, on the session exactly as the
caller handed it over: no `_z_declare_resource` call is made (the resource
table is left as it is, no resource id is allocated), and the entity is
declared with exactly the key expression the caller passed. -/
theorem declare_non_unicast_no_resource (net : NetLayer σ) (w : World σ) (malloc_ok : Bool)
    (keyexpr : z_keyexpr_t) (callback : z_owned_closure_t)
    (popt : Option z_publisher_options_t) (qopt : Option z_queryable_options_t)
    (sopt : Option z_subscriber_options_t)
    (h : net.tp_type w.sess ≠ _Z_TRANSPORT_UNICAST_TYPE) :
    (∃ a : PublisherArgs,
      (z_declare_publisher net w keyexpr popt).2.log = w.log ++ [NetCall._z_declare_publisher a] ∧
      a.keyexpr = keyexpr ∧
      (z_declare_publisher net w keyexpr popt).2.sess = (net.declare_publisher w.sess a).2) ∧
    (∃ a : QueryableArgs,
      (z_declare_queryable net w keyexpr callback qopt).2.log =
        w.log ++ [NetCall._z_declare_queryable a] ∧
      a.keyexpr = keyexpr ∧
      (z_declare_queryable net w keyexpr callback qopt).2.sess =
        (net.declare_queryable w.sess a).2) ∧
    (∃ (a : SubscriberArgs) (r : (z_owned_subscriber_t × z_owned_closure_t) × World σ),
      z_declare_subscriber net w malloc_ok keyexpr callback sopt = some r ∧
      r.2.log = w.log ++ [NetCall._z_declare_subscriber a] ∧
      a.keyexpr = keyexpr ∧
      r.2.sess = (net.declare_subscriber w.sess a).2) := by
  refine ⟨?_, ?_, ?_⟩
  · simp only [z_declare_publisher, _z_declare_publisher, h, if_false]
    exact ⟨_, rfl, rfl, rfl⟩
  · simp only [z_declare_queryable, _z_declare_queryable, h, if_false]
    exact ⟨_, rfl, rfl, rfl⟩
  · simp only [z_declare_subscriber, _z_declare_subscriber, h, if_false]
    exact ⟨_, _, rfl, rfl, rfl, rfl⟩

theorem declare_non_unicast_no_resource_witness :
    demoNet.tp_type demoMulticast.sess ≠ _Z_TRANSPORT_UNICAST_TYPE ∧
    (z_declare_publisher demoNet demoMulticast (lit "demo/example/a") none).2.log =
      [NetCall._z_declare_publisher
        { keyexpr := lit "demo/example/a", congestion_control := Z_CONGESTION_CONTROL_DROP,
          priority := 5 }] ∧
    (∃ a : PublisherArgs,
      (z_declare_publisher demoNet demoMulticast (lit "demo/example/a") none).2.log =
        demoMulticast.log ++ [NetCall._z_declare_publisher a] ∧
      a.keyexpr = lit "demo/example/a" ∧
      (z_declare_publisher demoNet demoMulticast (lit "demo/example/a") none).2.sess =
        (demoNet.declare_publisher demoMulticast.sess a).2) :=
  ⟨by decide, by decide,
   (declare_non_unicast_no_resource demoNet demoMulticast true (lit "demo/example/a")
      demoClosure none none none (by decide)).1⟩

/-! ## C3: the pull subscriber declares a resource on any transport -/

/-- C3 (the code at the failing input): on a multicast session whose resource
table does not hold `a`, `z_declare_pull_subscriber` on the literal key `a`
does call `_z_declare_resource` on `a` and declares the pull subscriber with
the key (1, NULL), the fresh resource id with an empty suffix, instead of the
caller's key. -/
theorem z_declare_pull_subscriber_multicast_declares :
    demoNet.tp_type demoMulticast.sess = _Z_TRANSPORT_MULTICAST_TYPE ∧
    demoNet.get_resource_by_key demoMulticast.sess (lit "a") = none ∧
    (z_declare_pull_subscriber demoNet demoMulticast (lit "a") demoClosure none).2.log =
      [NetCall._z_declare_resource (lit "a"),
       NetCall._z_declare_subscriber
         { keyexpr := _z_rid_with_suffix 1 none, sub_info := { reliability := 0, pull := true },
           call := some 10, drop := some 20, ctx := some 30 }] ∧
    _z_rid_with_suffix 1 none ≠ lit "a" := by
  decide

/-! ## C4: automatic resource declaration on unicast, key absent -/

/-- C4: on a unicast session, when the key expression `k` is absent from the
local resource table, `z_declare_publisher` (and likewise
`z_declare_queryable`) calls `_z_declare_resource` on `k` exactly once and
then declares the entity with the key (id, NULL suffix), `id` being the
resource id that declaration returned; every later `z_publisher_put` through
the publisher writes, and triggers the local subscriptions, with that same
(id, NULL suffix) key. -/
theorem declare_unicast_absent_key (net : NetLayer σ) (w : World σ) (keyexpr : z_keyexpr_t)
    (callback : z_owned_closure_t) (popt : Option z_publisher_options_t)
    (qopt : Option z_queryable_options_t)
    (hu : net.tp_type w.sess = _Z_TRANSPORT_UNICAST_TYPE)
    (habs : net.get_resource_by_key w.sess keyexpr = none) :
    (∃ a : PublisherArgs,
      (z_declare_publisher net w keyexpr popt).2.log =
        w.log ++ [NetCall._z_declare_resource keyexpr, NetCall._z_declare_publisher a] ∧
      a.keyexpr = _z_rid_with_suffix (net.declare_resource w.sess keyexpr).1 none ∧
      ∀ pub, (z_declare_publisher net w keyexpr popt).1._value = some pub →
        pub._key = _z_rid_with_suffix (net.declare_resource w.sess keyexpr).1 none ∧
        ∀ (w2 : World σ) (payload : Option (List Nat)) (len : Nat)
          (o : Option z_publisher_put_options_t),
          ∃ (wa : WriteArgs) (ta : TriggerArgs) (r : Int × World σ),
            z_publisher_put net w2 (z_publisher_loan (z_declare_publisher net w keyexpr popt).1)
              payload len o = some r ∧
            r.2.log = w2.log ++
              [NetCall._z_write wa, NetCall._z_trigger_local_subscriptions ta] ∧
            wa.keyexpr = _z_rid_with_suffix (net.declare_resource w.sess keyexpr).1 none ∧
            ta.keyexpr = _z_rid_with_suffix (net.declare_resource w.sess keyexpr).1 none) ∧
    (∃ a : QueryableArgs,
      (z_declare_queryable net w keyexpr callback qopt).2.log =
        w.log ++ [NetCall._z_declare_resource keyexpr, NetCall._z_declare_queryable a] ∧
      a.keyexpr = _z_rid_with_suffix (net.declare_resource w.sess keyexpr).1 none) := by
  refine ⟨?_, ?_⟩
  · simp only [z_declare_publisher, _z_get_resource_by_key, _z_declare_resource,
      _z_declare_publisher, hu, habs, if_true, List.append_assoc, List.singleton_append]
    refine ⟨_, rfl, rfl, ?_⟩
    intro pub hpub
    have hkey : pub._key = _z_rid_with_suffix (net.declare_resource w.sess keyexpr).1 none := by
      rw [Option.map_eq_some'] at hpub
      obtain ⟨id, _, hid⟩ := hpub
      rw [← hid]
    refine ⟨hkey, ?_⟩
    intro w2 payload len o
    simp only [z_publisher_put, z_publisher_loan, hpub, _z_write, _z_trigger_local_subscriptions,
      List.append_assoc, List.singleton_append]
    exact ⟨_, _, _, rfl, rfl, hkey, hkey⟩
  · simp only [z_declare_queryable, _z_get_resource_by_key, _z_declare_resource,
      _z_declare_queryable, hu, habs, if_true, List.append_assoc, List.singleton_append]
    exact ⟨_, rfl, rfl⟩

theorem declare_unicast_absent_key_witness :
    demoNet.tp_type demoUnicast.sess = _Z_TRANSPORT_UNICAST_TYPE ∧
    demoNet.get_resource_by_key demoUnicast.sess (lit "demo/example/a") = none ∧
    (z_declare_publisher demoNet demoUnicast (lit "demo/example/a") none).2.log =
      [NetCall._z_declare_resource (lit "demo/example/a"),
       NetCall._z_declare_publisher
         { keyexpr := _z_rid_with_suffix 1 none,
           congestion_control := Z_CONGESTION_CONTROL_DROP, priority := 5 }] ∧
    (∃ a : QueryableArgs,
      (z_declare_queryable demoNet demoUnicast (lit "demo/example/a") demoClosure none).2.log =
        demoUnicast.log ++
          [NetCall._z_declare_resource (lit "demo/example/a"), NetCall._z_declare_queryable a] ∧
      a.keyexpr =
        _z_rid_with_suffix (demoNet.declare_resource demoUnicast.sess (lit "demo/example/a")).1
          none) :=
  ⟨by decide, by decide, by decide,
   (declare_unicast_absent_key demoNet demoUnicast (lit "demo/example/a") demoClosure none none
      (by decide) (by decide)).2⟩

/-! ## C5: publisher on a key already present in the resource table -/

/-- C5 (counterexample): after a first publisher on `a` has put `a` in the
resource table of a unicast session under id 1, a second
`z_declare_publisher` on the literal key `a` yields a publisher whose key is
the literal key (id 0, suffix `a`), not the existing resource id 1 with an
empty suffix. -/
theorem second_publisher_keeps_literal_key :
    demoNet.tp_type demoAfterFirstPublisher.sess = _Z_TRANSPORT_UNICAST_TYPE ∧
    demoNet.get_resource_by_key demoAfterFirstPublisher.sess (lit "a") =
      some { _id := 1, _key := lit "a", _refcount := 1 } ∧
    ((z_declare_publisher demoNet demoAfterFirstPublisher (lit "a") none).1._value.map
      fun p => p._key) = some (lit "a") ∧
    ((z_declare_publisher demoNet demoAfterFirstPublisher (lit "a") none).1._value.map
      fun p => p._key) ≠ some (_z_rid_with_suffix 1 none) := by
  decide

/-- C5 (amended): on a unicast session `z_declare_publisher` refers to the key
by (resource id, NULL suffix) only when the key is absent from the local
resource table, the id being the freshly declared one.  When the key is
already present (as for the second of two publishers on the same key) no
resource is declared, so no second resource id is allocated, and the
publisher is declared with, and keeps, the key expression exactly as the
caller passed it. -/
theorem z_declare_publisher_unicast_key (net : NetLayer σ) (w : World σ)
    (keyexpr : z_keyexpr_t) (popt : Option z_publisher_options_t)
    (hu : net.tp_type w.sess = _Z_TRANSPORT_UNICAST_TYPE) :
    (net.get_resource_by_key w.sess keyexpr = none →
      ∃ a : PublisherArgs,
        (z_declare_publisher net w keyexpr popt).2.log =
          w.log ++ [NetCall._z_declare_resource keyexpr, NetCall._z_declare_publisher a] ∧
        a.keyexpr = _z_rid_with_suffix (net.declare_resource w.sess keyexpr).1 none) ∧
    (∀ r, net.get_resource_by_key w.sess keyexpr = some r →
      ∃ a : PublisherArgs,
        (z_declare_publisher net w keyexpr popt).2.log =
          w.log ++ [NetCall._z_declare_publisher a] ∧
        a.keyexpr = keyexpr ∧
        (z_declare_publisher net w keyexpr popt).2.sess = (net.declare_publisher w.sess a).2 ∧
        ∀ pub, (z_declare_publisher net w keyexpr popt).1._value = some pub →
          pub._key = keyexpr) := by
  refine ⟨?_, ?_⟩
  · intro habs
    simp only [z_declare_publisher, _z_get_resource_by_key, _z_declare_resource,
      _z_declare_publisher, hu, habs, if_true, List.append_assoc, List.singleton_append]
    exact ⟨_, rfl, rfl⟩
  · intro r hpres
    simp only [z_declare_publisher, _z_get_resource_by_key, _z_declare_publisher, hu, hpres,
      if_true]
    refine ⟨_, rfl, rfl, rfl, ?_⟩
    intro pub hpub
    rw [Option.map_eq_some'] at hpub
    obtain ⟨id, _, hid⟩ := hpub
    rw [← hid]

theorem z_declare_publisher_unicast_key_witness :
    demoNet.tp_type demoAfterFirstPublisher.sess = _Z_TRANSPORT_UNICAST_TYPE ∧
    (z_declare_publisher demoNet demoAfterFirstPublisher (lit "a") none).2.log =
      demoAfterFirstPublisher.log ++
        [NetCall._z_declare_publisher
          { keyexpr := lit "a", congestion_control := Z_CONGESTION_CONTROL_DROP,
            priority := 5 }] ∧
    ∃ a : PublisherArgs,
      (z_declare_publisher demoNet demoAfterFirstPublisher (lit "a") none).2.log =
        demoAfterFirstPublisher.log ++ [NetCall._z_declare_publisher a] ∧
      a.keyexpr = lit "a" ∧
      (z_declare_publisher demoNet demoAfterFirstPublisher (lit "a") none).2.sess =
        (demoNet.declare_publisher demoAfterFirstPublisher.sess a).2 ∧
      ∀ pub, (z_declare_publisher demoNet demoAfterFirstPublisher (lit "a") none).1._value =
          some pub → pub._key = lit "a" :=
  ⟨by decide, by decide,
   (z_declare_publisher_unicast_key demoNet demoAfterFirstPublisher (lit "a") none
      (by decide)).2 { _id := 1, _key := lit "a", _refcount := 1 } (by decide)⟩

/-! ## C6: the split of a wildcard subscriber key -/

/-- C6 (counterexample): on a unicast session with an empty resource table,
`z_declare_subscriber` on the key `**`, whose wildcard is its first character,
makes no split: the resource declared is the whole key `**`, wildcard
included, and the subscriber is declared with that resource id and the whole
key again as suffix.  And on `a/**`, when the buffer for the split cannot be
allocated, no resource is declared at all and the subscriber keeps the
caller's key.  And on `a/b$*`, whose wildcard sits inside a segment, the
resource declared is `a/`, separator included, and the suffix kept is `b$*`,
the last segment whole. -/
theorem z_declare_subscriber_no_split :
    (Option.map (fun r => r.2.log)
      (z_declare_subscriber demoNet demoUnicast true (lit "**") demoClosure none)) =
      some [NetCall._z_declare_resource (lit "**"),
        NetCall._z_declare_subscriber
          { keyexpr := _z_rid_with_suffix 1 (some (cstr "**")),
            sub_info := { reliability := 0, pull := false },
            call := some 10, drop := some 20, ctx := some 30 }] ∧
    strpbrk (cstr "**") ['*', '$'] = some 0 ∧
    (Option.map (fun r => r.2.log)
      (z_declare_subscriber demoNet demoUnicast false (lit "a/**") demoClosure none)) =
      some [NetCall._z_declare_subscriber
          { keyexpr := lit "a/**",
            sub_info := { reliability := 0, pull := false },
            call := some 10, drop := some 20, ctx := some 30 }] ∧
    (Option.map (fun r => r.2.log)
      (z_declare_subscriber demoNet demoUnicast true (lit "a/b$*") demoClosure none)) =
      some [NetCall._z_declare_resource
          { _id := 0, _suffix := some (cstr "a/"), _owns_suffix := false },
        NetCall._z_declare_subscriber
          { keyexpr := _z_rid_with_suffix 1 (some (cstr "b$*")),
            sub_info := { reliability := 0, pull := false },
            call := some 10, drop := some 20, ctx := some 30 }] := by
  decide

/-- C6 (amended): `z_declare_subscriber` on a unicast session, for every key
expression absent from the resource table whose first wildcard character
(`*` or `$`) comes right after a `/` separator.  When the buffer for the split
is allocated: the part of the key before that separator is what gets declared
as a resource (exactly once), and the subscriber is declared with that
resource's id and, as suffix, the rest of the key from the separator on, the
separator followed by the wildcard tail.  When the allocation fails: no
resource is declared, the one net call is the declaration of the subscriber,
with the caller's key unchanged, on the session as it was. -/
theorem z_declare_subscriber_wildcard_split (net : NetLayer σ) (w : World σ)
    (keyexpr : z_keyexpr_t) (callback : z_owned_closure_t)
    (sopt : Option z_subscriber_options_t) (pre rest : List Char) (c : Char)
    (hu : net.tp_type w.sess = _Z_TRANSPORT_UNICAST_TYPE)
    (habs : net.get_resource_by_key w.sess keyexpr = none)
    (hs : keyexpr._suffix = some (pre ++ '/' :: c :: rest))
    (hpre : ∀ x ∈ pre, x ≠ '*' ∧ x ≠ '$')
    (hc : c = '*' ∨ c = '$') :
    (∃ (a : SubscriberArgs) (r : (z_owned_subscriber_t × z_owned_closure_t) × World σ),
      z_declare_subscriber net w true keyexpr callback sopt = some r ∧
      r.2.log = w.log ++
        [NetCall._z_declare_resource
           { _id := keyexpr._id, _suffix := some pre, _owns_suffix := false },
         NetCall._z_declare_subscriber a] ∧
      a.keyexpr =
        _z_rid_with_suffix
          (net.declare_resource w.sess
            { _id := keyexpr._id, _suffix := some pre, _owns_suffix := false }).1
          (some ('/' :: c :: rest))) ∧
    (∃ (a : SubscriberArgs) (r : (z_owned_subscriber_t × z_owned_closure_t) × World σ),
      z_declare_subscriber net w false keyexpr callback sopt = some r ∧
      r.2.log = w.log ++ [NetCall._z_declare_subscriber a] ∧
      a.keyexpr = keyexpr ∧
      r.2.sess = (net.declare_subscriber w.sess a).2) := by
  have hwild : strpbrk (pre ++ '/' :: c :: rest) ['*', '$'] = some (pre.length + 1) := by
    have h1 : ∀ x ∈ pre ++ ['/'], x ∉ ['*', '$'] := by
      intro x hx
      rw [List.mem_append, List.mem_singleton] at hx
      rcases hx with hx | hx
      · have := hpre x hx
        simp [this.1, this.2]
      · subst hx; decide
    have h2 : c ∈ ['*', '$'] := by
      rcases hc with hc | hc <;> simp [hc]
    have := strpbrk_append (pre ++ ['/']) rest c ['*', '$'] h1 h2
    simpa using this
  refine ⟨?_, ?_⟩
  · simp only [z_declare_subscriber, _z_get_resource_by_key, _z_declare_resource,
      _z_declare_subscriber, _z_keyexpr_set_owns_suffix, hu, habs, hs, hwild, if_true]
    simp
  · simp only [z_declare_subscriber, _z_get_resource_by_key, _z_declare_subscriber, hu, habs,
      hs, hwild, if_true]
    simp

theorem z_declare_subscriber_wildcard_split_witness :
    demoNet.tp_type demoUnicast.sess = _Z_TRANSPORT_UNICAST_TYPE ∧
    demoNet.get_resource_by_key demoUnicast.sess (lit "demo/example/**") = none ∧
    (lit "demo/example/**")._suffix = some (cstr "demo/example" ++ '/' :: '*' :: ['*']) ∧
    (∀ x ∈ cstr "demo/example", x ≠ '*' ∧ x ≠ '$') ∧
    (Option.map (fun r => r.2.log)
      (z_declare_subscriber demoNet demoUnicast true (lit "demo/example/**") demoClosure none)) =
      some [NetCall._z_declare_resource (lit "demo/example"),
        NetCall._z_declare_subscriber
          { keyexpr := _z_rid_with_suffix 1 (some (cstr "/**")),
            sub_info := { reliability := 0, pull := false },
            call := some 10, drop := some 20, ctx := some 30 }] ∧
    (Option.map (fun r => r.2.log)
      (z_declare_subscriber demoNet demoUnicast false (lit "demo/example/**") demoClosure none)) =
      some [NetCall._z_declare_subscriber
          { keyexpr := lit "demo/example/**",
            sub_info := { reliability := 0, pull := false },
            call := some 10, drop := some 20, ctx := some 30 }] ∧
    (∃ (a : SubscriberArgs) (r : (z_owned_subscriber_t × z_owned_closure_t) × World DemoSession),
      z_declare_subscriber demoNet demoUnicast true (lit "demo/example/**") demoClosure none =
        some r ∧
      r.2.log = demoUnicast.log ++
        [NetCall._z_declare_resource
           { _id := (lit "demo/example/**")._id, _suffix := some (cstr "demo/example"),
             _owns_suffix := false },
         NetCall._z_declare_subscriber a] ∧
      a.keyexpr =
        _z_rid_with_suffix
          (demoNet.declare_resource demoUnicast.sess
            { _id := (lit "demo/example/**")._id, _suffix := some (cstr "demo/example"),
              _owns_suffix := false }).1
          (some ('/' :: '*' :: ['*']))) ∧
    (∃ (a : SubscriberArgs) (r : (z_owned_subscriber_t × z_owned_closure_t) × World DemoSession),
      z_declare_subscriber demoNet demoUnicast false (lit "demo/example/**") demoClosure none =
        some r ∧
      r.2.log = demoUnicast.log ++ [NetCall._z_declare_subscriber a] ∧
      a.keyexpr = lit "demo/example/**" ∧
      r.2.sess = (demoNet.declare_subscriber demoUnicast.sess a).2) :=
  ⟨by decide, by decide, by decide, by decide, by decide, by decide,
   z_declare_subscriber_wildcard_split demoNet demoUnicast (lit "demo/example/**") demoClosure
     none (cstr "demo/example") ['*'] '*' (by decide) (by decide) (by decide) (by decide)
     (Or.inl rfl)⟩

/-! ## C7, C8: `put` writes, then triggers the local subscriptions -/

/-- C7: every call of `z_put`, and every call of `z_publisher_put` through a
live publisher, makes exactly two net-layer calls, in this order: the
transport write `_z_write`, then `_z_trigger_local_subscriptions`, once, with
the same key expression and payload that were written.  The trigger runs on
the session the write left, whatever status the write returned. -/
theorem put_triggers_local_subscriptions (net : NetLayer σ) (w : World σ)
    (keyexpr : z_keyexpr_t) (payload : Option (List Nat)) (len : Nat)
    (options : Option z_put_options_t) (p : _z_publisher_t)
    (popts : Option z_publisher_put_options_t) :
    (∃ (wa : WriteArgs) (ta : TriggerArgs),
      (z_put net w keyexpr payload len options).2.log =
        w.log ++ [NetCall._z_write wa, NetCall._z_trigger_local_subscriptions ta] ∧
      (wa.keyexpr = keyexpr ∧ wa.payload = payload ∧ wa.len = len) ∧
      (ta.keyexpr = keyexpr ∧ ta.payload = payload ∧ ta.payload_len = len) ∧
      (z_put net w keyexpr payload len options).2.sess =
        (net.trigger_local_subscriptions (net.write w.sess wa).2 ta).2) ∧
    (∃ (wa : WriteArgs) (ta : TriggerArgs) (r : Int × World σ),
      z_publisher_put net w { _val := some p } payload len popts = some r ∧
      r.2.log = w.log ++ [NetCall._z_write wa, NetCall._z_trigger_local_subscriptions ta] ∧
      (wa.keyexpr = p._key ∧ wa.payload = payload ∧ wa.len = len) ∧
      (ta.keyexpr = p._key ∧ ta.payload = payload ∧ ta.payload_len = len) ∧
      r.2.sess = (net.trigger_local_subscriptions (net.write w.sess wa).2 ta).2) := by
  refine ⟨?_, ?_⟩
  · simp only [z_put, _z_write, _z_trigger_local_subscriptions, List.append_assoc,
      List.singleton_append]
    exact ⟨_, _, rfl, ⟨rfl, rfl, rfl⟩, ⟨rfl, rfl, rfl⟩, rfl⟩
  · simp only [z_publisher_put, _z_write, _z_trigger_local_subscriptions, List.append_assoc,
      List.singleton_append]
    exact ⟨_, _, _, rfl, rfl, ⟨rfl, rfl, rfl⟩, ⟨rfl, rfl, rfl⟩, rfl⟩

/-- C8: `z_put`, `z_publisher_put`, `z_delete` and `z_publisher_delete` return
exactly the status of their one `_z_write` call on the caller's session; the
status `_z_trigger_local_subscriptions` may report does not enter the
result.  So a non-OK write status is the status returned. -/
theorem put_returns_write_status (net : NetLayer σ) (w : World σ) (keyexpr : z_keyexpr_t)
    (payload : Option (List Nat)) (len : Nat) (options : Option z_put_options_t)
    (dopts : Option z_delete_options_t) (p : _z_publisher_t)
    (popts : Option z_publisher_put_options_t)
    (pdopts : Option z_publisher_delete_options_t) :
    (∃ (wa : WriteArgs) (ta : TriggerArgs),
      (z_put net w keyexpr payload len options).2.log =
        w.log ++ [NetCall._z_write wa, NetCall._z_trigger_local_subscriptions ta] ∧
      (z_put net w keyexpr payload len options).1 = (net.write w.sess wa).1) ∧
    (∃ (wa : WriteArgs) (ta : TriggerArgs) (r : Int × World σ),
      z_publisher_put net w { _val := some p } payload len popts = some r ∧
      r.2.log = w.log ++ [NetCall._z_write wa, NetCall._z_trigger_local_subscriptions ta] ∧
      r.1 = (net.write w.sess wa).1) ∧
    (∃ wa : WriteArgs,
      (z_delete net w keyexpr dopts).2.log = w.log ++ [NetCall._z_write wa] ∧
      (z_delete net w keyexpr dopts).1 = (net.write w.sess wa).1) ∧
    (∃ (wa : WriteArgs) (r : Int × World σ),
      z_publisher_delete net w { _val := some p } pdopts = some r ∧
      r.2.log = w.log ++ [NetCall._z_write wa] ∧
      r.1 = (net.write w.sess wa).1) := by
  refine ⟨?_, ?_, ?_, ?_⟩
  · simp only [z_put, _z_write, _z_trigger_local_subscriptions, List.append_assoc,
      List.singleton_append]
    exact ⟨_, _, rfl, rfl⟩
  · simp only [z_publisher_put, _z_write, _z_trigger_local_subscriptions, List.append_assoc,
      List.singleton_append]
    exact ⟨_, _, _, rfl, rfl, rfl⟩
  · simp only [z_delete, _z_write]
    exact ⟨_, rfl, rfl⟩
  · simp only [z_publisher_delete, _z_write]
    exact ⟨_, _, rfl, rfl, rfl⟩

/-! ## C9: `z_close` is idempotent -/

/-- C9: `z_close` on a NULL pointer or on a gravestone session handle returns
OK, makes no net-layer call and leaves session and handle as they are; on a
live handle it calls `_z_close`, then `_z_session_rc_drop` once (one reference
released), returns OK and leaves the handle gravestone (`z_session_check`
false).  So a second `z_close` of the same handle returns OK and changes
nothing: closing twice has the effect of closing once. -/
theorem z_close_idempotent (net : NetLayer σ) (w : World σ) (a : Nat)
    (zs : Option z_owned_session_t) :
    z_close net w none = ((_Z_RES_OK, none), w) ∧
    z_close net w (some z_session_null) = ((_Z_RES_OK, some z_session_null), w) ∧
    z_close net w (some { _value_in := some a }) =
      ((_Z_RES_OK, some z_session_null),
        { sess := net.session_rc_drop (net.close w.sess).2,
          log := w.log ++ [NetCall._z_close, NetCall._z_session_rc_drop] }) ∧
    z_session_check z_session_null = false ∧
    ((z_close net w zs).1.2.map z_session_check ≠ some true) ∧
    z_close net (z_close net w zs).2 (z_close net w zs).1.2 =
      ((_Z_RES_OK, (z_close net w zs).1.2), (z_close net w zs).2) := by
  refine ⟨rfl, rfl, ?_, rfl, ?_, ?_⟩
  · simp [z_close, _z_close, _z_session_rc_drop, z_session_null]
  · rcases zs with _ | ⟨_ | b⟩ <;> simp [z_close, z_session_check]
  · rcases zs with _ | ⟨_ | b⟩ <;> simp [z_close]

/-! ## C10: undeclare leaves a gravestone, and is a no-op on it -/

/-- C10: after `z_undeclare_publisher`, `z_undeclare_subscriber`,
`z_undeclare_pull_subscriber` or `z_undeclare_queryable` the owned handle is
gravestone (its check returns false); applying the same undeclare again to
that handle, in any later state of the session, makes no net-layer call,
leaves the session as it is and the handle gravestone: nothing further is
undeclared. -/
theorem undeclare_idempotent (net : NetLayer σ) (w w2 : World σ)
    (pub : z_owned_publisher_t) (sub : z_owned_subscriber_t)
    (psub : z_owned_pull_subscriber_t) (q : z_owned_queryable_t) :
    (z_publisher_check (z_undeclare_publisher net w pub).1.2 = false ∧
      (z_undeclare_publisher net w2 (z_undeclare_publisher net w pub).1.2).2 = w2 ∧
      (z_undeclare_publisher net w2 (z_undeclare_publisher net w pub).1.2).1.2 =
        (z_undeclare_publisher net w pub).1.2) ∧
    (z_subscriber_check (z_undeclare_subscriber net w sub).1.2 = false ∧
      (z_undeclare_subscriber net w2 (z_undeclare_subscriber net w sub).1.2).2 = w2 ∧
      (z_undeclare_subscriber net w2 (z_undeclare_subscriber net w sub).1.2).1.2 =
        (z_undeclare_subscriber net w sub).1.2) ∧
    (z_pull_subscriber_check (z_undeclare_pull_subscriber net w psub).1.2 = false ∧
      (z_undeclare_pull_subscriber net w2 (z_undeclare_pull_subscriber net w psub).1.2).2 = w2 ∧
      (z_undeclare_pull_subscriber net w2 (z_undeclare_pull_subscriber net w psub).1.2).1.2 =
        (z_undeclare_pull_subscriber net w psub).1.2) ∧
    (z_queryable_check (z_undeclare_queryable net w q).1.2 = false ∧
      (z_undeclare_queryable net w2 (z_undeclare_queryable net w q).1.2).2 = w2 ∧
      (z_undeclare_queryable net w2 (z_undeclare_queryable net w q).1.2).1.2 =
        (z_undeclare_queryable net w q).1.2) := by
  have hp : ∀ (x : World σ) (v : Option _z_publisher_t), (_z_publisher_free net x v).1 = none := by
    intro x v; cases v <;> rfl
  have hsb : ∀ (x : World σ) (v : Option _z_subscriber_t), (_z_subscriber_free net x v).1 = none := by
    intro x v; cases v <;> rfl
  have hq : ∀ (x : World σ) (v : Option _z_queryable_t), (_z_queryable_free net x v).1 = none := by
    intro x v; cases v <;> rfl
  have h1 : (z_undeclare_publisher net w pub).1.2 = { _value := none } := by
    simp [z_undeclare_publisher, hp]
  have h2 : (z_undeclare_subscriber net w sub).1.2 = { _value := none } := by
    simp [z_undeclare_subscriber, hsb]
  have h3 : (z_undeclare_pull_subscriber net w psub).1.2 = { _value := none } := by
    simp [z_undeclare_pull_subscriber, hsb]
  have h4 : (z_undeclare_queryable net w q).1.2 = { _value := none } := by
    simp [z_undeclare_queryable, hq]
  rw [h1, h2, h3, h4]
  exact ⟨⟨rfl, rfl, rfl⟩, ⟨rfl, rfl, rfl⟩, ⟨rfl, rfl, rfl⟩, ⟨rfl, rfl, rfl⟩⟩

/-! ## C11: `z_undeclare_keyexpr` on a gravestone handle -/

/-- C11 (the code at the failing input): on the gravestone owned key expression
`z_keyexpr_null()`, in any session, `z_undeclare_keyexpr` does not return: it
reads `_id` through the NULL `_value` before any test of the pointer (the
model's `none`).  The drop it would call next, `z_keyexpr_drop`, does test
the pointer and leaves a gravestone handle as it is. -/
theorem z_undeclare_keyexpr_gravestone (net : NetLayer σ) (w : World σ) :
    z_keyexpr_check z_keyexpr_null = false ∧
    z_undeclare_keyexpr net w z_keyexpr_null = none ∧
    z_keyexpr_drop z_keyexpr_null = z_keyexpr_null := by
  exact ⟨rfl, rfl, rfl⟩

/-! ## C12: the status of the undeclare operations -/

/-- C12 (the code at the failing input): with a net layer whose undeclarations
fail with status -1, `z_undeclare_subscriber` and `z_undeclare_pull_subscriber`
on a live subscriber still return 0 (`_Z_RES_OK`): the status of
`_z_undeclare_subscriber` is not assigned to `ret`.  On the same net layer
`z_undeclare_publisher`, `z_undeclare_queryable` and `z_undeclare_keyexpr`
return the -1 of their underlying undeclaration. -/
theorem z_undeclare_subscriber_status_lost :
    (demoNetFailing.undeclare_subscriber demoUnicast.sess { _entity_id := 1 }).1 = -1 ∧
    (z_undeclare_subscriber demoNetFailing demoUnicast
      { _value := some { _entity_id := 1 } }).1.1 = 0 ∧
    (z_undeclare_pull_subscriber demoNetFailing demoUnicast
      { _value := some { _entity_id := 1 } }).1.1 = 0 ∧
    (z_undeclare_publisher demoNetFailing demoUnicast
      { _value := some { _key := lit "a", _id := 1,
                         _congestion_control := Z_CONGESTION_CONTROL_DROP,
                         _priority := 5 } }).1.1 = -1 ∧
    (z_undeclare_queryable demoNetFailing demoUnicast
      { _value := some { _entity_id := 1 } }).1.1 = -1 ∧
    (Option.map (fun r => r.1.1)
      (z_undeclare_keyexpr demoNetFailing demoUnicast
        { _value := some (_z_rid_with_suffix 1 none) })) = some (-1) := by
  decide

/-! ## C13: `z_keyexpr_equals` is byte equality -/

theorem char_toNat_sub_ne_zero (a b : Char) (h : a ≠ b) :
    (a.toNat : Int) - (b.toNat : Int) ≠ 0 := by
  intro h0
  apply h
  have h1 : a.toNat = b.toNat := by omega
  have h2 := congrArg Char.ofNat h1
  simpa using h2

theorem strncmp_eq_zero_iff (l : List Char) :
    ∀ r : List Char, l.length = r.length → (strncmp l r l.length = 0 ↔ l = r) := by
  induction l with
  | nil =>
    intro r hr
    cases r with
    | nil => simp [strncmp]
    | cons b r => simp at hr
  | cons a l ih =>
    intro r hr
    cases r with
    | nil => simp at hr
    | cons b r =>
      have hlen : l.length = r.length := by simpa using hr
      by_cases hab : a = b
      · subst hab
        simp [strncmp, ih r hlen]
      · simp [strncmp, hab, char_toNat_sub_ne_zero a b hab]

/-- C13 (counterexample): the two spellings `a//b/` and `a/b`, which have the
same canonical form `a/b`, do not compare equal: `z_keyexpr_equals` and
`zp_keyexpr_equals_null_terminated` return -1 on them, in either order. -/
theorem z_keyexpr_equals_not_canonical :
    z_keyexpr_equals demoNet (lit "a//b/") (lit "a/b") = -1 ∧
    z_keyexpr_equals demoNet (lit "a/b") (lit "a//b/") = -1 ∧
    zp_keyexpr_equals_null_terminated demoNet (some (cstr "a//b/")) (some (cstr "a/b")) = -1 := by
  decide

/-- C13 (amended): for all non-NULL literal key expressions `l` and `r`,
`z_keyexpr_equals(l, r)` and `zp_keyexpr_equals_null_terminated(l, r)` return 0
exactly when the two strings are byte-equal as they were passed, and -1
otherwise; no canonicalization takes place. -/
theorem z_keyexpr_equals_bytes (net : NetLayer σ) (l r : List Char) :
    (z_keyexpr_equals net (z_keyexpr (some l)) (z_keyexpr (some r)) = 0 ↔ l = r) ∧
    (z_keyexpr_equals net (z_keyexpr (some l)) (z_keyexpr (some r)) = -1 ↔ l ≠ r) ∧
    (zp_keyexpr_equals_null_terminated net (some l) (some r) = 0 ↔ l = r) ∧
    (zp_keyexpr_equals_null_terminated net (some l) (some r) = -1 ↔ l ≠ r) := by
  have key : zp_keyexpr_equals_null_terminated net (some l) (some r) = if l = r then 0 else -1 := by
    unfold zp_keyexpr_equals_null_terminated
    simp only [strlen]
    by_cases hlen : l.length = r.length
    · have h := strncmp_eq_zero_iff l r hlen
      rw [if_pos hlen]
      by_cases hlr : l = r
      · rw [if_pos (h.mpr hlr), if_pos hlr]
      · rw [if_neg (fun h0 => hlr (h.mp h0)), if_neg hlr]
    · have hlr : l ≠ r := fun h => hlen (by rw [h])
      rw [if_neg hlen, if_neg hlr]
  have key2 : z_keyexpr_equals net (z_keyexpr (some l)) (z_keyexpr (some r)) =
      if l = r then 0 else -1 := by
    simp [z_keyexpr_equals, z_keyexpr, _z_rname, _z_rid_with_suffix, key]
  rw [key, key2]
  by_cases hlr : l = r <;> simp [hlr]

/-! ## C14: the relations on aliased key expressions -/

/-- C14 (counterexample): on the key expression made of the resource id 1 alone,
compared with itself, `z_keyexpr_equals`, `z_keyexpr_includes` and
`z_keyexpr_intersects` all return the error status `_Z_ERR_GENERIC` (-128
here), not 0; the same result comes back when the other operand is the
literal key `a`, so the result does not answer the relation. -/
theorem z_keyexpr_relations_reject_ids :
    demoNet._Z_ERR_GENERIC = -128 ∧
    z_keyexpr_equals demoNet (_z_rid_with_suffix 1 none) (_z_rid_with_suffix 1 none) = -128 ∧
    z_keyexpr_includes demoNet (_z_rid_with_suffix 1 none) (_z_rid_with_suffix 1 none) = -128 ∧
    z_keyexpr_intersects demoNet (_z_rid_with_suffix 1 none) (_z_rid_with_suffix 1 none)
      = -128 ∧
    z_keyexpr_equals demoNet (_z_rid_with_suffix 1 none) (lit "a") = -128 ∧
    z_keyexpr_includes demoNet (lit "a") (_z_rid_with_suffix 1 (some (cstr "/b"))) = -128 ∧
    z_keyexpr_intersects demoNet (_z_rid_with_suffix 1 none) (lit "a") = -128 := by
  decide

/-- C14 (amended): `z_keyexpr_includes`, `z_keyexpr_intersects` and
`z_keyexpr_equals` answer the relation only for two literal operands (resource
id 0 on both sides); when an operand carries a non-zero resource id, each of
them returns the generic error status `_Z_ERR_GENERIC`, whatever the
operands. -/
theorem z_keyexpr_relations_need_literals (net : NetLayer σ) (l r : z_keyexpr_t)
    (h : l._id ≠ Z_RESOURCE_ID_NONE ∨ r._id ≠ Z_RESOURCE_ID_NONE) :
    z_keyexpr_includes net l r = net._Z_ERR_GENERIC ∧
    z_keyexpr_intersects net l r = net._Z_ERR_GENERIC ∧
    z_keyexpr_equals net l r = net._Z_ERR_GENERIC := by
  have hn : ¬ (l._id = Z_RESOURCE_ID_NONE ∧ r._id = Z_RESOURCE_ID_NONE) := by
    rintro ⟨h1, h2⟩
    rcases h with h | h
    · exact h h1
    · exact h h2
  simp only [z_keyexpr_includes, z_keyexpr_intersects, z_keyexpr_equals, hn, if_false,
    and_self]

theorem z_keyexpr_relations_need_literals_witness :
    ((_z_rid_with_suffix 1 none)._id ≠ Z_RESOURCE_ID_NONE ∨
      (lit "demo/**")._id ≠ Z_RESOURCE_ID_NONE) ∧
    z_keyexpr_includes demoNet (_z_rid_with_suffix 1 none) (lit "demo/**") =
      demoNet._Z_ERR_GENERIC ∧
    z_keyexpr_intersects demoNet (_z_rid_with_suffix 1 none) (lit "demo/**") =
      demoNet._Z_ERR_GENERIC ∧
    z_keyexpr_equals demoNet (_z_rid_with_suffix 1 none) (lit "demo/**") =
      demoNet._Z_ERR_GENERIC :=
  ⟨Or.inl (by decide),
   z_keyexpr_relations_need_literals demoNet (_z_rid_with_suffix 1 none) (lit "demo/**")
     (Or.inl (by decide))⟩

/-! ## C15: a closure's drop function runs at most once -/

/-- C15: for every closure (sample, query, reply, hello, zid: the five drop
functions are the one macro body), the first `z_closure_*_drop` of a closure
with a non-NULL drop invokes `drop(context)` exactly once and leaves call,
drop and context all NULL; with a NULL drop it invokes nothing.  Dropping
again, or dropping `z_closure_*_null()`, invokes nothing and changes nothing,
so over any number `n + 1` of drops the calls made are those of the first
drop: the user's drop function is invoked at most once. -/
theorem closure_drop_at_most_once (w w2 : World σ) (c f : Option Nat) (d n : Nat)
    (val : z_owned_closure_t) :
    OWNED_FUNCTIONS_CLOSURE_drop w { context := c, call := f, drop := some d } =
      (OWNED_FUNCTIONS_CLOSURE_null, { w with log := w.log ++ [NetCall.user_drop d c] }) ∧
    OWNED_FUNCTIONS_CLOSURE_drop w { context := c, call := f, drop := none } =
      (OWNED_FUNCTIONS_CLOSURE_null, w) ∧
    (OWNED_FUNCTIONS_CLOSURE_drop w val).1 = OWNED_FUNCTIONS_CLOSURE_null ∧
    OWNED_FUNCTIONS_CLOSURE_drop w2 (OWNED_FUNCTIONS_CLOSURE_drop w val).1 =
      ((OWNED_FUNCTIONS_CLOSURE_drop w val).1, w2) ∧
    OWNED_FUNCTIONS_CLOSURE_drop w OWNED_FUNCTIONS_CLOSURE_null =
      (OWNED_FUNCTIONS_CLOSURE_null, w) ∧
    closure_drop_times (n + 1) w val = OWNED_FUNCTIONS_CLOSURE_drop w val ∧
    (z_closure_sample_drop w val = OWNED_FUNCTIONS_CLOSURE_drop w val ∧
      z_closure_query_drop w val = OWNED_FUNCTIONS_CLOSURE_drop w val ∧
      z_closure_reply_drop w val = OWNED_FUNCTIONS_CLOSURE_drop w val ∧
      z_closure_hello_drop w val = OWNED_FUNCTIONS_CLOSURE_drop w val ∧
      z_closure_zid_drop w val = OWNED_FUNCTIONS_CLOSURE_drop w val) := by
  have hnull : ∀ (x : World σ) (v : z_owned_closure_t),
      (OWNED_FUNCTIONS_CLOSURE_drop x v).1 = OWNED_FUNCTIONS_CLOSURE_null := by
    intro x v
    rcases v with ⟨vc, vf, _ | vd⟩ <;> rfl
  have hagain : ∀ (k : Nat) (x : World σ),
      closure_drop_times k x OWNED_FUNCTIONS_CLOSURE_null = (OWNED_FUNCTIONS_CLOSURE_null, x) := by
    intro k
    induction k with
    | zero => intro x; rfl
    | succ k ih => intro x; exact ih x
  refine ⟨rfl, rfl, hnull w val, ?_, rfl, ?_, rfl, rfl, rfl, rfl, rfl⟩
  · rw [hnull w val]; rfl
  · show closure_drop_times n (OWNED_FUNCTIONS_CLOSURE_drop w val).2
        (OWNED_FUNCTIONS_CLOSURE_drop w val).1 = OWNED_FUNCTIONS_CLOSURE_drop w val
    rw [hnull w val, hagain n]
    exact Prod.ext (hnull w val).symm rfl

/-! ## C16: what a move does to the source closure -/

/-- C16 (counterexample): after `z_declare_subscriber` (and after `z_get`) has
taken the closure with call 10, drop 20 and context 30, the source closure
still has its call and its drop, only its context is NULL: it is not the
gravestone value, `z_closure_*_check` is true, and a later `z_closure_*_drop`
on it does invoke the user's drop function 20. -/
theorem moved_closure_keeps_call_and_drop :
    (Option.map (fun r => r.1.2)
      (z_declare_subscriber demoNet demoUnicast true (lit "a") demoClosure none)) =
      some { context := none, call := some 10, drop := some 20 } ∧
    (z_get demoNet demoUnicast true (lit "a") none demoClosure none).1.2 =
      { context := none, call := some 10, drop := some 20 } ∧
    z_closure_sample_check { context := none, call := some 10, drop := some 20 } = true ∧
    (z_closure_sample_drop demoUnicast { context := none, call := some 10, drop := some 20 }).2.log =
      [NetCall.user_drop 20 none] := by
  decide

/-- C16 (amended): moving a closure into `z_declare_subscriber` (key with a
non-NULL string), `z_declare_pull_subscriber`, `z_declare_queryable`, `z_get`
or `z_scout` resets only the context of the source closure to NULL; call and
drop are left as they were.  So `z_closure_*_check` on the source is
unchanged, and the source is the gravestone value only if its call and drop
were NULL already.  The three declare functions hand call, drop and context
to the net layer.  `z_get` hands drop and context to `_z_query`, and the call
with the context in the handler wrapper when the wrapper is allocated; when
it is not, the wrapper passed is NULL.  `z_scout` (non-NULL configuration)
hands call, drop and context to `_z_scout` when its wrapper is allocated;
when it is not, it makes no net call and returns
`_Z_ERR_SYSTEM_OUT_OF_MEMORY`, the context cleared all the same.  A later
`z_closure_*_drop` on the source calls the user's drop function, when there
is one, with NULL, never the moved context, and leaves the gravestone
value. -/
theorem move_closure_clears_context_only (net : NetLayer σ) (w w2 : World σ)
    (malloc_ok : Bool) (keyexpr : z_keyexpr_t) (i : Nat) (s : List Char) (o : Bool)
    (parameters : Option (List Char)) (cb : z_owned_closure_t)
    (sopt : Option z_subscriber_options_t) (qopt : Option z_queryable_options_t)
    (gopt : Option z_get_options_t) (cfg : _z_config_t) (cfgo : z_owned_scouting_config_t)
    (d : Nat) :
    (∃ r a pre,
      z_declare_subscriber net w malloc_ok { _id := i, _suffix := some s, _owns_suffix := o } cb
        sopt = some r ∧
      r.1.2 = { cb with context := none } ∧
      r.2.log = pre ++ [NetCall._z_declare_subscriber a] ∧
      a.call = cb.call ∧ a.drop = cb.drop ∧ a.ctx = cb.context) ∧
    (∃ a pre,
      (z_declare_pull_subscriber net w keyexpr cb sopt).1.2 = { cb with context := none } ∧
      (z_declare_pull_subscriber net w keyexpr cb sopt).2.log =
        pre ++ [NetCall._z_declare_subscriber a] ∧
      a.call = cb.call ∧ a.drop = cb.drop ∧ a.ctx = cb.context) ∧
    (∃ a pre,
      (z_declare_queryable net w keyexpr cb qopt).1.2 = { cb with context := none } ∧
      (z_declare_queryable net w keyexpr cb qopt).2.log =
        pre ++ [NetCall._z_declare_queryable a] ∧
      a.call = cb.call ∧ a.drop = cb.drop ∧ a.ctx = cb.context) ∧
    (∃ a,
      (z_get net w malloc_ok keyexpr parameters cb gopt).1.2 = { cb with context := none } ∧
      (z_get net w malloc_ok keyexpr parameters cb gopt).2.log = w.log ++ [NetCall._z_query a] ∧
      a.drop = cb.drop ∧ a.ctx = cb.context ∧
      a.wrapped_ctx =
        if malloc_ok then some { user_call := cb.call, ctx := cb.context } else none) ∧
    (∃ r a,
      z_scout net w true { _value := some cfg } cb = some r ∧
      r.1.2.2 = { cb with context := none } ∧
      r.2.log = w.log ++ [NetCall._z_scout a] ∧
      a.drop = cb.drop ∧ a.ctx = cb.context ∧
      a.wrapped_ctx = { user_call := cb.call, ctx := cb.context }) ∧
    z_scout net w false cfgo cb =
      some ((net._Z_ERR_SYSTEM_OUT_OF_MEMORY, cfgo, { cb with context := none }), w) ∧
    OWNED_FUNCTIONS_CLOSURE_check { cb with context := none } =
      OWNED_FUNCTIONS_CLOSURE_check cb ∧
    ({ cb with context := none } = OWNED_FUNCTIONS_CLOSURE_null ↔
      cb.call = none ∧ cb.drop = none) ∧
    OWNED_FUNCTIONS_CLOSURE_drop w2 { cb with context := none, drop := some d } =
      (OWNED_FUNCTIONS_CLOSURE_null, { w2 with log := w2.log ++ [NetCall.user_drop d none] }) ∧
    OWNED_FUNCTIONS_CLOSURE_drop w2 { cb with context := none, drop := none } =
      (OWNED_FUNCTIONS_CLOSURE_null, w2) := by
  have hgrave : ({ cb with context := none } = OWNED_FUNCTIONS_CLOSURE_null ↔
      cb.call = none ∧ cb.drop = none) := by
    cases cb
    simp [OWNED_FUNCTIONS_CLOSURE_null]
  refine ⟨?_, ?_, ?_, ?_, ?_, rfl, rfl, hgrave, rfl, rfl⟩
  · by_cases hu : net.tp_type w.sess = _Z_TRANSPORT_UNICAST_TYPE
    · cases hres : net.get_resource_by_key w.sess { _id := i, _suffix := some s, _owns_suffix := o } with
      | some res =>
        simp only [z_declare_subscriber, _z_get_resource_by_key, _z_declare_subscriber, hu, hres,
          if_true]
        exact ⟨_, _, _, rfl, rfl, rfl, rfl, rfl, rfl⟩
      | none =>
        by_cases hw : strpbrk s ['*', '$'] ≠ none ∧ strpbrk s ['*', '$'] ≠ some 0
        · cases malloc_ok
          · simp only [z_declare_subscriber, _z_get_resource_by_key, _z_declare_subscriber, hu,
              hres, if_true, if_pos hw, Bool.false_eq_true, if_false]
            exact ⟨_, _, _, rfl, rfl, rfl, rfl, rfl, rfl⟩
          · simp only [z_declare_subscriber, _z_get_resource_by_key, _z_declare_subscriber, hu,
              hres, if_true, if_pos hw]
            exact ⟨_, _, _, rfl, rfl, rfl, rfl, rfl, rfl⟩
        · simp only [z_declare_subscriber, _z_get_resource_by_key, _z_declare_subscriber, hu,
            hres, if_true, if_neg hw]
          exact ⟨_, _, _, rfl, rfl, rfl, rfl, rfl, rfl⟩
    · simp only [z_declare_subscriber, _z_declare_subscriber, hu, if_false]
      exact ⟨_, _, _, rfl, rfl, rfl, rfl, rfl, rfl⟩
  · exact ⟨_, _, rfl, rfl, rfl, rfl, rfl⟩
  · exact ⟨_, _, rfl, rfl, rfl, rfl, rfl⟩
  · exact ⟨_, rfl, rfl, rfl, rfl, rfl⟩
  · exact ⟨_, _, rfl, rfl, rfl, rfl, rfl, rfl⟩

/-! ## C17: the outcomes of `z_open` -/

/-- C17: `z_open` returns a gravestone session (`z_session_check` false)
exactly when the reference-counted cell could not be created or the
underlying `_z_open` returned a status other than `_Z_RES_OK`, and a checked
session, on the new cell, otherwise.  `_z_open` is called only when the cell
exists, and the cell is released again when the open fails.  In all three
outcomes the moved-in configuration is dropped: the caller's handle is left
gravestone (`z_config_check` false). -/
theorem z_open_outcomes (net : NetLayer σ) (w : World σ) (a : Nat) (zsrc : Option Nat)
    (config : z_owned_config_t) :
    (z_session_check (z_open net w zsrc config).1.1 = false ↔
      (zsrc = none ∨ (net.open_session w.sess config._value).1 ≠ _Z_RES_OK)) ∧
    z_config_check (z_open net w zsrc config).1.2 = false ∧
    z_open net w none config = ((z_session_null, { _value := none }), w) ∧
    (z_open net w (some a) config).2.log =
      w.log ++ (if (net.open_session w.sess config._value).1 ≠ _Z_RES_OK
        then [NetCall._z_open config._value, NetCall._z_session_rc_drop]
        else [NetCall._z_open config._value]) ∧
    (z_open net w (some a) config).1.1 =
      (if (net.open_session w.sess config._value).1 ≠ _Z_RES_OK then z_session_null
        else { _value_in := some a }) := by
  have hdrop : ∀ c : z_owned_config_t, z_config_drop c = { _value := none } := by
    intro c
    rcases c with ⟨_ | v⟩ <;> rfl
  refine ⟨?_, ?_, ?_, ?_, ?_⟩
  · cases zsrc with
    | none => simp [z_open, z_session_check]
    | some b =>
      by_cases hop : (net.open_session w.sess config._value).1 ≠ _Z_RES_OK
      · simp [z_open, _z_open, z_session_check, hop]
      · simp [z_open, _z_open, z_session_check, hop]
  · cases zsrc with
    | none => simp [z_open, hdrop, z_config_check]
    | some b =>
      by_cases hop : (net.open_session w.sess config._value).1 ≠ _Z_RES_OK
      · simp [z_open, _z_open, hdrop, z_config_check, hop]
      · simp [z_open, _z_open, hdrop, z_config_check, hop]
  · simp [z_open, hdrop, z_session_null]
  · by_cases hop : (net.open_session w.sess config._value).1 ≠ _Z_RES_OK
    · simp [z_open, _z_open, _z_session_rc_drop, hop]
    · simp [z_open, _z_open, hop]
  · by_cases hop : (net.open_session w.sess config._value).1 ≠ _Z_RES_OK
    · simp [z_open, _z_open, z_session_null, hop]
    · simp [z_open, _z_open, hop]

/-! ## C18: `z_info_peers_zid` and `z_info_routers_zid` -/

/-- C18: `z_info_peers_zid` calls the zid fetch, once and with the caller's
closure (context still set), exactly when the session's transport is
multicast or raw-ethernet, and `z_info_routers_zid` exactly when it is
unicast.  For every transport type, after that the closure's context is
cleared, its drop function, when non-NULL, is invoked exactly once with the
original context (no call at all when it is NULL), and the call returns 0. -/
theorem z_info_zid_fetch_and_drop (net : NetLayer σ) (w : World σ)
    (callback : z_owned_closure_t) :
    ((z_info_peers_zid net w callback).2.log =
      w.log ++
        (if net.tp_type w.sess = _Z_TRANSPORT_MULTICAST_TYPE ∨
            net.tp_type w.sess = _Z_TRANSPORT_RAWETH_TYPE
          then [NetCall._zp_multicast_fetch_zid callback] else []) ++
        (match callback.drop with
         | some d => [NetCall.user_drop d callback.context]
         | none => [])) ∧
    (z_info_peers_zid net w callback).1 = (0, { callback with context := none }) ∧
    ((z_info_routers_zid net w callback).2.log =
      w.log ++
        (if net.tp_type w.sess = _Z_TRANSPORT_UNICAST_TYPE
          then [NetCall._zp_unicast_fetch_zid callback] else []) ++
        (match callback.drop with
         | some d => [NetCall.user_drop d callback.context]
         | none => [])) ∧
    (z_info_routers_zid net w callback).1 = (0, { callback with context := none }) := by
  refine ⟨?_, rfl, ?_, rfl⟩
  · cases htp : net.tp_type w.sess <;> cases hd : callback.drop <;>
      simp [z_info_peers_zid, _zp_multicast_fetch_zid, user_drop, htp, hd]
  · cases htp : net.tp_type w.sess <;> cases hd : callback.drop <;>
      simp [z_info_routers_zid, _zp_unicast_fetch_zid, user_drop, htp, hd]

/-! ## C19: the loop of `z_bytes_map_get` -/

theorem z_bytes_map_get_loop_stuck (key : z_bytes_t) (head : _z_bytes_pair_t)
    (tail : List _z_bytes_pair_t) (hne : _z_bytes_eq key head.key = false) :
    ∀ fuel : Nat, z_bytes_map_get_loop key fuel (head :: tail) = none := by
  intro fuel
  induction fuel with
  | zero => rfl
  | succ n ih => simp [z_bytes_map_get_loop, hne, ih]

/-- C19 (the code at the failing input): on the map holding `a -> 1` and then
`b -> 2`, `z_bytes_map_get` returns for no amount of fuel when asked for the
key `b`, which the map holds, or for the key `c`, which it does not hold: the
first pair does not match and the loop never steps to the tail.  It returns
only when the first pair matches (key `a`) or the map is empty. -/
theorem z_bytes_map_get_never_returns (fuel : Nat) :
    z_bytes_map_get fuel demoMap (bstr "b") = none ∧
    z_bytes_map_get fuel demoMap (bstr "c") = none ∧
    z_bytes_map_get (fuel + 1) demoMap (bstr "a") = some (bstr "1") ∧
    z_bytes_map_get (fuel + 1) z_bytes_map_null (bstr "a") = some z_bytes_null := by
  refine ⟨?_, ?_, ?_, rfl⟩
  · exact z_bytes_map_get_loop_stuck (bstr "b") _ _ (by decide) fuel
  · exact z_bytes_map_get_loop_stuck (bstr "c") _ _ (by decide) fuel
  · have heq : _z_bytes_eq (bstr "a") (bstr "a") = true := by decide
    simp only [z_bytes_map_get, z_bytes_map_get_loop, demoMap, heq, if_true]
    decide

/-! ## C20: the iteration order and early stop of `z_bytes_map_iter` -/

theorem z_bytes_map_iter_loop_recording {γ : Type}
    (body : z_bytes_t → z_bytes_t → γ → Int × γ) (pairs : List _z_bytes_pair_t) :
    ∀ (ctx : γ) (acc : List BodyCall),
      ∃ (calls : List BodyCall) (n : Nat),
        (z_bytes_map_iter_loop (recording body) pairs (ctx, acc)).2.2 = acc ++ calls ∧
        ((z_bytes_map_iter_loop (recording body) pairs (ctx, acc)).1,
          (z_bytes_map_iter_loop (recording body) pairs (ctx, acc)).2.1) =
            z_bytes_map_iter_loop body pairs ctx ∧
        n ≤ pairs.length ∧
        calls.map (fun c => (c.key, c.value)) = (pairs.take n).map (fun p => (p.key, p.value)) ∧
        (((z_bytes_map_iter_loop body pairs ctx).1 = 0 ∧ n = pairs.length ∧
            ∀ c ∈ calls, c.ret = 0) ∨
          ((z_bytes_map_iter_loop body pairs ctx).1 ≠ 0 ∧
            ∃ init last, calls = init ++ [last] ∧
              last.ret = (z_bytes_map_iter_loop body pairs ctx).1 ∧
              ∀ c ∈ init, c.ret = 0)) := by
  induction pairs with
  | nil =>
    intro ctx acc
    exact ⟨[], 0, by simp [z_bytes_map_iter_loop], rfl, Nat.le_refl _, rfl,
      Or.inl ⟨rfl, rfl, by simp⟩⟩
  | cons h t ih =>
    intro ctx acc
    by_cases hr : (body h.key h.value ctx).1 ≠ 0
    · refine ⟨[{ key := h.key, value := h.value, ret := (body h.key h.value ctx).1 }], 1,
        ?_, ?_, ?_, ?_, ?_⟩
      · simp [z_bytes_map_iter_loop, recording, hr]
      · simp [z_bytes_map_iter_loop, recording, hr]
      · simp
      · simp
      · refine Or.inr ⟨?_, [], _, rfl, ?_, by simp⟩
        · simp [z_bytes_map_iter_loop, hr]
        · simp [z_bytes_map_iter_loop, hr]
    · have hr0 : (body h.key h.value ctx).1 = 0 := by
        by_contra hne; exact hr hne
      obtain ⟨calls, n, h1, h2, h3, h4, h5⟩ :=
        ih (body h.key h.value ctx).2
          (acc ++ [{ key := h.key, value := h.value, ret := (body h.key h.value ctx).1 }])
      have hstep : z_bytes_map_iter_loop body (h :: t) ctx =
          z_bytes_map_iter_loop body t (body h.key h.value ctx).2 := by
        simp [z_bytes_map_iter_loop, hr0]
      have hstepr : z_bytes_map_iter_loop (recording body) (h :: t) (ctx, acc) =
          z_bytes_map_iter_loop (recording body) t ((body h.key h.value ctx).2,
            acc ++ [{ key := h.key, value := h.value, ret := (body h.key h.value ctx).1 }]) := by
        simp [z_bytes_map_iter_loop, recording, hr0]
      refine ⟨{ key := h.key, value := h.value, ret := (body h.key h.value ctx).1 } :: calls,
        n + 1, ?_, ?_, ?_, ?_, ?_⟩
      · rw [hstepr, h1]; simp
      · rw [hstepr, hstep, h2]
      · simpa using h3
      · simp [h4]
      · rw [hstep]
        rcases h5 with ⟨e1, e2, e3⟩ | ⟨e1, init, last, e2, e3, e4⟩
        · refine Or.inl ⟨e1, by simp [e2], ?_⟩
          intro c hc
          rcases List.mem_cons.mp hc with hc | hc
          · rw [hc]; exact hr0
          · exact e3 c hc
        · refine Or.inr ⟨e1, _ :: init, last, by rw [e2]; rfl, e3, ?_⟩
          intro c hc
          rcases List.mem_cons.mp hc with hc | hc
          · rw [hc]; exact hr0
          · exact e4 c hc

/-- C20: `z_bytes_map_iter` calls `body` on the pairs of the list in list order,
once each, with the pair's key and value and the state behind `ctx` as the
previous call left it: the calls made are those on the first `n` pairs.
Either every call returned 0, and then all pairs were visited (`n` is the
length of the list) and 0 is returned; or the last call made returned a
non-zero value, every call before it returned 0, no later pair was visited
and that value is returned.  On the empty list no call is made and 0 is
returned. -/
theorem z_bytes_map_iter_visits {γ : Type} (body : z_bytes_t → z_bytes_t → γ → Int × γ)
    (this_ : z_owned_bytes_map_t) (ctx : γ) :
    ∃ (calls : List BodyCall) (n : Nat),
      z_bytes_map_iter this_ (recording body) (ctx, []) =
        ((z_bytes_map_iter this_ body ctx).1, (z_bytes_map_iter this_ body ctx).2, calls) ∧
      n ≤ this_._inner.length ∧
      calls.map (fun c => (c.key, c.value)) =
        (this_._inner.take n).map (fun p => (p.key, p.value)) ∧
      (((z_bytes_map_iter this_ body ctx).1 = 0 ∧ n = this_._inner.length ∧
          ∀ c ∈ calls, c.ret = 0) ∨
        ((z_bytes_map_iter this_ body ctx).1 ≠ 0 ∧
          ∃ init last, calls = init ++ [last] ∧
            last.ret = (z_bytes_map_iter this_ body ctx).1 ∧
            ∀ c ∈ init, c.ret = 0)) := by
  obtain ⟨calls, n, h1, h2, h3, h4, h5⟩ :=
    z_bytes_map_iter_loop_recording body this_._inner ctx []
  refine ⟨calls, n, ?_, h3, h4, h5⟩
  simp only [List.nil_append] at h1
  have h21 := congrArg Prod.fst h2
  have h22 := congrArg Prod.snd h2
  simp only at h21 h22
  unfold z_bytes_map_iter
  rw [← h21, ← h22, ← h1]

/-! ## Lemmas on the attachment map -/

theorem z_bytes_eq_iff (a b : z_bytes_t) :
    _z_bytes_eq a b = true ↔ z_bytes_content a = z_bytes_content b := by
  simp [_z_bytes_eq, z_bytes_content, Prod.ext_iff]

theorem z_bytes_eq_false_iff (a b : z_bytes_t) :
    _z_bytes_eq a b = false ↔ z_bytes_content a ≠ z_bytes_content b := by
  rw [Ne, ← z_bytes_eq_iff]; simp

theorem z_bytes_content_copy (b : z_bytes_t) :
    z_bytes_content (_z_bytes_copy b) = z_bytes_content b := by
  simp [z_bytes_content, _z_bytes_copy, List.take_take]

theorem z_bytes_content_wrap (b : z_bytes_t) :
    z_bytes_content (_z_bytes_wrap b.start b.len) = z_bytes_content b := rfl

theorem insert_by_alias_loop_eq (key value : z_bytes_t) (l : List _z_bytes_pair_t) :
    z_bytes_map_insert_by_alias_loop key value l =
      z_bytes_map_update_first
        (fun head => { head with value := _z_bytes_wrap value.start value.len }) key l := by
  induction l with
  | nil => rfl
  | cons h t ih => simp [z_bytes_map_insert_by_alias_loop, z_bytes_map_update_first, ih]

theorem insert_by_copy_loop_eq (key value : z_bytes_t) (l : List _z_bytes_pair_t) :
    z_bytes_map_insert_by_copy_loop key value l =
      z_bytes_map_update_first
        (fun head => { value := _z_bytes_copy value,
                       key := if !head.key._is_alloc then _z_bytes_copy key else head.key })
        key l := by
  induction l with
  | nil => rfl
  | cons h t ih => simp [z_bytes_map_insert_by_copy_loop, z_bytes_map_update_first, ih]

theorem update_first_none_iff (f : _z_bytes_pair_t → _z_bytes_pair_t) (key : z_bytes_t)
    (l : List _z_bytes_pair_t) :
    z_bytes_map_update_first f key l = none ↔ ∀ p ∈ l, _z_bytes_eq key p.key = false := by
  induction l with
  | nil => simp [z_bytes_map_update_first]
  | cons h t ih =>
    by_cases hk : _z_bytes_eq key h.key = true
    · simp [z_bytes_map_update_first, hk]
    · simp [z_bytes_map_update_first, hk, ih]

theorem update_first_keys (f : _z_bytes_pair_t → _z_bytes_pair_t) (key : z_bytes_t)
    (hf : ∀ p, _z_bytes_eq key p.key = true → z_bytes_content (f p).key = z_bytes_content p.key)
    (l l2 : List _z_bytes_pair_t) (h : z_bytes_map_update_first f key l = some l2) :
    l2.map (fun p => z_bytes_content p.key) = l.map (fun p => z_bytes_content p.key) := by
  induction l generalizing l2 with
  | nil => simp [z_bytes_map_update_first] at h
  | cons a t ih =>
    by_cases hk : _z_bytes_eq key a.key = true
    · simp [z_bytes_map_update_first, hk] at h
      subst h
      simp [hf a hk]
    · simp only [z_bytes_map_update_first, hk, Bool.false_eq_true, if_false,
        Option.map_eq_some'] at h
      obtain ⟨t2, ht2, rfl⟩ := h
      simp [ih t2 ht2]

theorem update_first_find (f : _z_bytes_pair_t → _z_bytes_pair_t) (key k : z_bytes_t)
    (v : Nat × List Nat)
    (hf : ∀ p, _z_bytes_eq key p.key = true → z_bytes_content (f p).key = z_bytes_content p.key)
    (hv : ∀ p, z_bytes_content (f p).value = v)
    (l l2 : List _z_bytes_pair_t) (h : z_bytes_map_update_first f key l = some l2) :
    (l2.find? fun p => _z_bytes_eq k p.key).map (fun p => z_bytes_content p.value) =
      if _z_bytes_eq k key then some v
      else (l.find? fun p => _z_bytes_eq k p.key).map (fun p => z_bytes_content p.value) := by
  induction l generalizing l2 with
  | nil => simp [z_bytes_map_update_first] at h
  | cons a t ih =>
    by_cases hk : _z_bytes_eq key a.key = true
    · simp [z_bytes_map_update_first, hk] at h
      subst h
      have hkc := (z_bytes_eq_iff key a.key).mp hk
      have hfa := hf a hk
      by_cases hkk : _z_bytes_eq k key = true
      · have hc := (z_bytes_eq_iff k key).mp hkk
        have h1 : _z_bytes_eq k (f a).key = true :=
          (z_bytes_eq_iff _ _).mpr (by rw [hfa, hc, hkc])
        simp [List.find?, h1, hkk, hv]
      · have hc : z_bytes_content k ≠ z_bytes_content key :=
          fun e => hkk ((z_bytes_eq_iff _ _).mpr e)
        have h1 : _z_bytes_eq k (f a).key = false :=
          (z_bytes_eq_false_iff _ _).mpr (by rw [hfa, ← hkc]; exact hc)
        have h2 : _z_bytes_eq k a.key = false :=
          (z_bytes_eq_false_iff _ _).mpr (by rw [← hkc]; exact hc)
        simp [List.find?, h1, h2, hkk]
    · simp only [z_bytes_map_update_first, hk, Bool.false_eq_true, if_false,
        Option.map_eq_some'] at h
      obtain ⟨t2, ht2, rfl⟩ := h
      have hkc : z_bytes_content key ≠ z_bytes_content a.key :=
        fun e => hk ((z_bytes_eq_iff _ _).mpr e)
      by_cases hka : _z_bytes_eq k a.key = true
      · have hc := (z_bytes_eq_iff k a.key).mp hka
        have hkk : _z_bytes_eq k key = false :=
          (z_bytes_eq_false_iff _ _).mpr (by rw [hc]; exact fun e => hkc e.symm)
        simp [List.find?, hka, hkk]
      · simp only [List.find?, hka]
        exact ih t2 ht2

theorem apply_inner_eq (m : z_owned_bytes_map_t) (op : MapInsert) :
    (z_bytes_map_apply m op)._inner =
      (z_bytes_map_update_first op.update op.key m._inner).getD (op.pair :: m._inner) := by
  cases op with
  | by_copy k v =>
    simp only [z_bytes_map_apply, z_bytes_map_insert_by_copy, insert_by_copy_loop_eq,
      MapInsert.update, MapInsert.key, MapInsert.pair]
    cases z_bytes_map_update_first _ k m._inner <;> rfl
  | by_alias k v =>
    simp only [z_bytes_map_apply, z_bytes_map_insert_by_alias, insert_by_alias_loop_eq,
      MapInsert.update, MapInsert.key, MapInsert.pair]
    cases z_bytes_map_update_first _ k m._inner <;> rfl

theorem op_update_key (op : MapInsert) (p : _z_bytes_pair_t)
    (h : _z_bytes_eq op.key p.key = true) :
    z_bytes_content (op.update p).key = z_bytes_content p.key := by
  cases op with
  | by_copy k v =>
    have hc := (z_bytes_eq_iff k p.key).mp h
    by_cases ha : p.key._is_alloc = true
    · simp [MapInsert.update, ha]
    · simp [MapInsert.update, ha, z_bytes_content_copy, hc]
  | by_alias k v => rfl

theorem op_update_value (op : MapInsert) (p : _z_bytes_pair_t) :
    z_bytes_content (op.update p).value = z_bytes_content op.value := by
  cases op with
  | by_copy k v => exact z_bytes_content_copy v
  | by_alias k v => rfl

theorem op_pair_key (op : MapInsert) : z_bytes_content op.pair.key = z_bytes_content op.key := by
  cases op with
  | by_copy k v => exact z_bytes_content_copy k
  | by_alias k v => rfl

theorem op_pair_value (op : MapInsert) :
    z_bytes_content op.pair.value = z_bytes_content op.value := by
  cases op with
  | by_copy k v => exact z_bytes_content_copy v
  | by_alias k v => rfl

theorem apply_keys (m : z_owned_bytes_map_t) (op : MapInsert) :
    (z_bytes_map_apply m op)._inner.map (fun p => z_bytes_content p.key) =
      if z_bytes_content op.key ∈ m._inner.map (fun p => z_bytes_content p.key)
      then m._inner.map (fun p => z_bytes_content p.key)
      else z_bytes_content op.key :: m._inner.map (fun p => z_bytes_content p.key) := by
  rw [apply_inner_eq]
  cases h : z_bytes_map_update_first op.update op.key m._inner with
  | none =>
    have hn := (update_first_none_iff _ _ _).mp h
    have hmem : z_bytes_content op.key ∉ m._inner.map (fun p => z_bytes_content p.key) := by
      intro hm
      obtain ⟨p, hp, hpe⟩ := List.mem_map.mp hm
      exact (z_bytes_eq_false_iff _ _).mp (hn p hp) hpe.symm
    simp [hmem, op_pair_key]
  | some l2 =>
    have hmem : z_bytes_content op.key ∈ m._inner.map (fun p => z_bytes_content p.key) := by
      by_contra hm
      have hall : ∀ p ∈ m._inner, _z_bytes_eq op.key p.key = false := by
        intro p hp
        refine (z_bytes_eq_false_iff _ _).mpr ?_
        intro e
        exact hm (List.mem_map.mpr ⟨p, hp, e.symm⟩)
      rw [(update_first_none_iff _ _ _).mpr hall] at h
      cases h
    simp [hmem, update_first_keys op.update op.key (op_update_key op) _ _ h]

theorem apply_find (m : z_owned_bytes_map_t) (op : MapInsert) (k : z_bytes_t) :
    ((z_bytes_map_apply m op)._inner.find? fun p => _z_bytes_eq k p.key).map
        (fun p => z_bytes_content p.value) =
      if _z_bytes_eq k op.key then some (z_bytes_content op.value)
      else (m._inner.find? fun p => _z_bytes_eq k p.key).map
        (fun p => z_bytes_content p.value) := by
  rw [apply_inner_eq]
  cases h : z_bytes_map_update_first op.update op.key m._inner with
  | none =>
    by_cases hk : _z_bytes_eq k op.key = true
    · have h1 : _z_bytes_eq k op.pair.key = true :=
        (z_bytes_eq_iff _ _).mpr (by rw [op_pair_key]; exact (z_bytes_eq_iff _ _).mp hk)
      simp [List.find?, h1, hk, op_pair_value]
    · have h1 : _z_bytes_eq k op.pair.key = false :=
        (z_bytes_eq_false_iff _ _).mpr
          (by rw [op_pair_key]; exact fun e => hk ((z_bytes_eq_iff _ _).mpr e))
      simp [List.find?, h1, hk]
  | some l2 =>
    simpa using update_first_find op.update op.key k (z_bytes_content op.value)
      (op_update_key op) (op_update_value op) _ _ h

theorem update_first_frame (f : _z_bytes_pair_t → _z_bytes_pair_t) (key : z_bytes_t)
    (p : _z_bytes_pair_t) (hne : _z_bytes_eq key p.key = false)
    (l l2 : List _z_bytes_pair_t) (hp : p ∈ l)
    (h : z_bytes_map_update_first f key l = some l2) : p ∈ l2 := by
  induction l generalizing l2 with
  | nil => cases hp
  | cons a t ih =>
    by_cases hk : _z_bytes_eq key a.key = true
    · simp [z_bytes_map_update_first, hk] at h
      subst h
      rcases List.mem_cons.mp hp with e | e
      · subst e; rw [hne] at hk; cases hk
      · exact List.mem_cons_of_mem _ e
    · simp only [z_bytes_map_update_first, hk, Bool.false_eq_true, if_false,
        Option.map_eq_some'] at h
      obtain ⟨t2, ht2, rfl⟩ := h
      rcases List.mem_cons.mp hp with e | e
      · subst e; exact List.mem_cons_self _ _
      · exact List.mem_cons_of_mem _ (ih t2 e ht2)

theorem apply_frame (m : z_owned_bytes_map_t) (op : MapInsert) (p : _z_bytes_pair_t)
    (hp : p ∈ m._inner) (hne : _z_bytes_eq op.key p.key = false) :
    p ∈ (z_bytes_map_apply m op)._inner := by
  rw [apply_inner_eq]
  cases h : z_bytes_map_update_first op.update op.key m._inner with
  | none => simp [hp]
  | some l2 =>
    simp only [Option.getD_some]
    exact update_first_frame _ _ p hne _ _ hp h

theorem update_first_filter (f : _z_bytes_pair_t → _z_bytes_pair_t) (key : z_bytes_t)
    (hf : ∀ p, _z_bytes_eq key p.key = true → z_bytes_content (f p).key = z_bytes_content p.key)
    (l l2 : List _z_bytes_pair_t) (h : z_bytes_map_update_first f key l = some l2) :
    l2.filter (fun p => !_z_bytes_eq key p.key) = l.filter (fun p => !_z_bytes_eq key p.key) := by
  induction l generalizing l2 with
  | nil => simp [z_bytes_map_update_first] at h
  | cons a t ih =>
    by_cases hk : _z_bytes_eq key a.key = true
    · simp [z_bytes_map_update_first, hk] at h
      subst h
      have h1 : _z_bytes_eq key (f a).key = true :=
        (z_bytes_eq_iff _ _).mpr (by rw [hf a hk]; exact (z_bytes_eq_iff _ _).mp hk)
      simp [List.filter, h1, hk]
    · simp only [z_bytes_map_update_first, hk, Bool.false_eq_true, if_false,
        Option.map_eq_some'] at h
      obtain ⟨t2, ht2, rfl⟩ := h
      simp [List.filter, hk, ih t2 ht2]

theorem apply_filter (m : z_owned_bytes_map_t) (op : MapInsert) :
    (z_bytes_map_apply m op)._inner.filter (fun p => !_z_bytes_eq op.key p.key) =
      m._inner.filter (fun p => !_z_bytes_eq op.key p.key) := by
  rw [apply_inner_eq]
  cases h : z_bytes_map_update_first op.update op.key m._inner with
  | none =>
    have h1 : _z_bytes_eq op.key op.pair.key = true :=
      (z_bytes_eq_iff _ _).mpr (op_pair_key op).symm
    simp [List.filter, h1]
  | some l2 =>
    simp only [Option.getD_some]
    exact update_first_filter _ _ (op_update_key op) _ _ h

theorem build_append (ops : List MapInsert) (op : MapInsert) :
    z_bytes_map_build (ops ++ [op]) = z_bytes_map_apply (z_bytes_map_build ops) op := by
  simp [z_bytes_map_build, List.foldl_append]

theorem last_inserted_append (ops : List MapInsert) (op : MapInsert) (k : z_bytes_t) :
    last_inserted (ops ++ [op]) k =
      if _z_bytes_eq k op.key then some op.value else last_inserted ops k := by
  by_cases hk : _z_bytes_eq k op.key = true
  · simp [last_inserted, List.find?, hk]
  · simp [last_inserted, List.find?, hk]

theorem build_nodup (ops : List MapInsert) :
    ((z_bytes_map_build ops)._inner.map fun p => z_bytes_content p.key).Nodup := by
  induction ops using List.reverseRecOn with
  | nil => simp [z_bytes_map_build, z_bytes_map_new]
  | append_singleton l op ih =>
    rw [build_append, apply_keys]
    by_cases hm : z_bytes_content op.key ∈
        (z_bytes_map_build l)._inner.map (fun p => z_bytes_content p.key)
    · simpa [hm] using ih
    · simp only [hm, if_false]
      exact List.nodup_cons.mpr ⟨hm, ih⟩

theorem build_find (ops : List MapInsert) (k : z_bytes_t) :
    ((z_bytes_map_build ops)._inner.find? fun p => _z_bytes_eq k p.key).map
        (fun p => z_bytes_content p.value) =
      (last_inserted ops k).map z_bytes_content := by
  induction ops using List.reverseRecOn with
  | nil => simp [z_bytes_map_build, z_bytes_map_new, last_inserted]
  | append_singleton l op ih =>
    rw [build_append, apply_find, last_inserted_append, ih]
    by_cases hk : _z_bytes_eq k op.key = true <;> simp [hk]

theorem iter_collecting (l : List _z_bytes_pair_t) :
    ∀ acc : List (z_bytes_t × z_bytes_t),
      z_bytes_map_iter_loop collecting l acc = (0, acc ++ l.map fun p => (p.key, p.value)) := by
  induction l with
  | nil => intro acc; simp [z_bytes_map_iter_loop]
  | cons h t ih =>
    intro acc
    simp [z_bytes_map_iter_loop, collecting, ih]

/-! ## C21: insertion keeps map semantics -/

/-- C21: for the map built from `z_bytes_map_new()` by any sequence of
`z_bytes_map_insert_by_copy` / `z_bytes_map_insert_by_alias` calls: no two of
its pairs have byte-equal keys; for every key `k` the pair of key `k`, if
any, carries the bytes of the value of the most recent insertion at `k`, and
there is such a pair exactly when `k` was inserted; iterating the map visits
its pairs, once each, and returns 0.  An insertion into any map leaves the
pairs of all other keys as they were. -/
theorem z_bytes_map_insert_keeps_map (ops : List MapInsert) (k : z_bytes_t)
    (m0 : z_owned_bytes_map_t) (op : MapInsert) :
    (z_bytes_map_build ops)._inner.Pairwise (fun p q => _z_bytes_eq p.key q.key = false) ∧
    (((z_bytes_map_build ops)._inner.find? fun p => _z_bytes_eq k p.key).map
        (fun p => z_bytes_content p.value) = (last_inserted ops k).map z_bytes_content) ∧
    z_bytes_map_iter (z_bytes_map_build ops) collecting [] =
      (0, (z_bytes_map_build ops)._inner.map fun p => (p.key, p.value)) ∧
    (z_bytes_map_apply m0 op)._inner.filter (fun p => !_z_bytes_eq op.key p.key) =
      m0._inner.filter (fun p => !_z_bytes_eq op.key p.key) := by
  refine ⟨?_, build_find ops k, ?_, apply_filter m0 op⟩
  · have h := build_nodup ops
    rw [List.Nodup, List.pairwise_map] at h
    exact h.imp fun hne => (z_bytes_eq_false_iff _ _).mpr hne
  · simpa [z_bytes_map_iter] using iter_collecting (z_bytes_map_build ops)._inner []

/-! ## C22: the attachment round trip -/

theorem iter_insert_distinct (mk : z_bytes_t → z_bytes_t → MapInsert)
    (hmk : ∀ k v, (mk k v).key = k) (l : List _z_bytes_pair_t) :
    ∀ acc : z_owned_bytes_map_t,
      l.Pairwise (fun p q => _z_bytes_eq p.key q.key = false) →
      (∀ p ∈ l, ∀ q ∈ acc._inner, z_bytes_content p.key ≠ z_bytes_content q.key) →
      z_bytes_map_iter_loop (fun k v m => ((0 : Int), z_bytes_map_apply m (mk k v))) l acc =
        (0, { _inner := (l.map fun p => (mk p.key p.value).pair).reverse ++ acc._inner }) := by
  induction l with
  | nil => intro acc _ _; simp [z_bytes_map_iter_loop]
  | cons h t ih =>
    intro acc hpw hacc
    have hnone : z_bytes_map_update_first (mk h.key h.value).update (mk h.key h.value).key
        acc._inner = none := by
      rw [update_first_none_iff]
      intro q hq
      rw [hmk]
      exact (z_bytes_eq_false_iff _ _).mpr (hacc h (List.mem_cons_self _ _) q hq)
    have happly : z_bytes_map_apply acc (mk h.key h.value) =
        { _inner := (mk h.key h.value).pair :: acc._inner } := by
      have := apply_inner_eq acc (mk h.key h.value)
      rw [hnone] at this
      cases hx : z_bytes_map_apply acc (mk h.key h.value)
      rw [hx] at this
      simpa using this
    have hpw2 := (List.pairwise_cons.mp hpw)
    have hstep : z_bytes_map_iter_loop
        (fun k v m => ((0 : Int), z_bytes_map_apply m (mk k v))) (h :: t) acc =
        z_bytes_map_iter_loop (fun k v m => ((0 : Int), z_bytes_map_apply m (mk k v))) t
          { _inner := (mk h.key h.value).pair :: acc._inner } := by
      simp [z_bytes_map_iter_loop, happly]
    rw [hstep, ih _ hpw2.2]
    · simp
    · intro p hp q hq
      rcases List.mem_cons.mp hq with e | e
      · subst e
        rw [op_pair_key, hmk]
        exact fun e2 => (z_bytes_eq_false_iff _ _).mp (hpw2.1 p hp) e2.symm
      · exact hacc p (List.mem_cons_of_mem _ hp) q e

/-- C22: for every bytes map `m` (stored at some address, its keys pairwise
different as the insert functions keep them),
`z_bytes_map_from_attachment(z_bytes_map_as_attachment(m))` holds one copy of
each pair of `m`, and the aliasing variant one alias of each pair (the pair
the insertion pushes), in the reverse list order: the same key-to-value associations, byte for byte, up to
pair order.  The attachment is the null attachment exactly when `m` is at its
gravestone value, and the map built back from the null attachment is
gravestone. -/
theorem attachment_round_trip (mem : Memory) (addr : Nat) (m : z_owned_bytes_map_t)
    (hm : mem.map_at addr = some m)
    (hd : m._inner.Pairwise (fun p q => _z_bytes_eq p.key q.key = false)) :
    (z_bytes_map_as_attachment mem addr).bind (z_bytes_map_from_attachment mem) =
      some { _inner := m._inner.reverse.map fun p => (MapInsert.by_copy p.key p.value).pair } ∧
    (z_bytes_map_as_attachment mem addr).bind (z_bytes_map_from_attachment_aliasing mem) =
      some { _inner := m._inner.reverse.map fun p => (MapInsert.by_alias p.key p.value).pair } ∧
    List.Perm
      ((m._inner.reverse.map fun p => (MapInsert.by_copy p.key p.value).pair).map
        fun p => (z_bytes_content p.key, z_bytes_content p.value))
      (m._inner.map fun p => (z_bytes_content p.key, z_bytes_content p.value)) ∧
    z_bytes_map_as_attachment mem addr =
      some (if z_bytes_map_check m then
          { data := some addr, iteration_driver := some mem.z_bytes_map_iter }
        else z_attachment_null) ∧
    z_bytes_map_from_attachment mem z_attachment_null = some z_bytes_map_null ∧
    z_bytes_map_from_attachment_aliasing mem z_attachment_null = some z_bytes_map_null := by
  have hc := iter_insert_distinct MapInsert.by_copy (fun _ _ => rfl) m._inner z_bytes_map_new hd
    (by intro p _ q hq; cases hq)
  have ha := iter_insert_distinct MapInsert.by_alias (fun _ _ => rfl) m._inner z_bytes_map_new hd
    (by intro p _ q hq; cases hq)
  have hatt : z_bytes_map_as_attachment mem addr =
      some (if z_bytes_map_check m then
          { data := some addr, iteration_driver := some mem.z_bytes_map_iter }
        else z_attachment_null) := by
    cases hl : m._inner <;> simp [z_bytes_map_as_attachment, hm, z_bytes_map_check, hl]
  have hbc : _z_bytes_map_insert_by_copy =
      fun k v mm => ((0 : Int), z_bytes_map_apply mm (MapInsert.by_copy k v)) := rfl
  have hba : _z_bytes_map_insert_by_alias =
      fun k v mm => ((0 : Int), z_bytes_map_apply mm (MapInsert.by_alias k v)) := rfl
  refine ⟨?_, ?_, ?_, hatt, rfl, rfl⟩
  · rw [hatt]
    by_cases hchk : z_bytes_map_check m = true
    · have hfrom : z_bytes_map_from_attachment mem
          { data := some addr, iteration_driver := some mem.z_bytes_map_iter } =
          some (z_bytes_map_iter_loop _z_bytes_map_insert_by_copy m._inner z_bytes_map_new).2 := by
        simp [z_bytes_map_from_attachment, z_attachment_check, z_attachment_iterate, hm,
          z_bytes_map_iter]
      simp only [hchk, if_true, Option.some_bind]
      rw [hfrom, hbc, hc]
      simp [z_bytes_map_new, List.map_reverse]
    · have hnil : m._inner = [] := by simpa [z_bytes_map_check] using hchk
      simp [hchk, hnil, z_bytes_map_from_attachment, z_attachment_check, z_attachment_null,
        z_bytes_map_null]
  · rw [hatt]
    by_cases hchk : z_bytes_map_check m = true
    · have hfrom : z_bytes_map_from_attachment_aliasing mem
          { data := some addr, iteration_driver := some mem.z_bytes_map_iter } =
          some (z_bytes_map_iter_loop _z_bytes_map_insert_by_alias m._inner z_bytes_map_new).2 := by
        simp [z_bytes_map_from_attachment_aliasing, z_attachment_check, z_attachment_iterate, hm,
          z_bytes_map_iter]
      simp only [hchk, if_true, Option.some_bind]
      rw [hfrom, hba, ha]
      simp [z_bytes_map_new, List.map_reverse]
    · have hnil : m._inner = [] := by simpa [z_bytes_map_check] using hchk
      simp [hchk, hnil, z_bytes_map_from_attachment_aliasing, z_attachment_check,
        z_attachment_null, z_bytes_map_null]
  · rw [List.map_map, List.map_reverse]
    refine (List.reverse_perm _).trans ?_
    simp [Function.comp_def, MapInsert.pair, z_bytes_content_copy]

theorem attachment_round_trip_witness :
    demoMemory.map_at 100 = some demoMap ∧
    demoMap._inner.Pairwise (fun p q => _z_bytes_eq p.key q.key = false) ∧
    (z_bytes_map_as_attachment demoMemory 100).bind (z_bytes_map_from_attachment demoMemory) =
      some { _inner := [{ key := _z_bytes_copy (bstr "b"), value := _z_bytes_copy (bstr "2") },
                        { key := _z_bytes_copy (bstr "a"), value := _z_bytes_copy (bstr "1") }] } ∧
    (z_bytes_map_as_attachment demoMemory 100).bind (z_bytes_map_from_attachment demoMemory) =
      some { _inner := demoMap._inner.reverse.map fun p =>
        (MapInsert.by_copy p.key p.value).pair } :=
  ⟨by decide, by decide, by decide,
   (attachment_round_trip demoMemory 100 demoMap (by decide) (by decide)).1⟩

/-! ## C23: `z_bytes_from_str` -/

/-- C23 (the code at the failing input): `z_bytes_from_str(NULL)` does not return
`z_bytes_null()`: it applies `strlen` to the NULL pointer (the model's
`none`); there is no test of `str`.  For a non-NULL string it returns the
non-owning view of the string's bytes, `len` being the string's length. -/
theorem z_bytes_from_str_null (s : List Char) :
    z_bytes_from_str none = none ∧
    z_bytes_from_str none ≠ some z_bytes_null ∧
    z_bytes_from_str (some s) =
      some { start := some (s.map Char.toNat), len := s.length, _is_alloc := false } := by
  refine ⟨rfl, ?_, rfl⟩
  intro h
  cases h

/-! ## C24: `z_scouting_config_from` -/

/-- C24: with the three scouting keys pairwise different and the default
multicast locator `udp/224.0.0.224:7446`, `z_scouting_config_from(c)` on a
configuration `c` yields the configuration holding exactly three entries, for
the scouting-what, scouting-timeout and multicast-locator keys, each with
`c`'s value when `c` defines the key and the default otherwise; under any
other key it holds nothing.  When `c` defines none of the three keys the
result is `z_scouting_config_default()`, whose locator is
`udp/224.0.0.224:7446`. -/
theorem z_scouting_config_from_three_keys (net : NetLayer σ) (cv : _z_config_t) (key : Nat)
    (h12 : net.Z_CONFIG_MULTICAST_LOCATOR_KEY ≠ net.Z_CONFIG_SCOUTING_TIMEOUT_KEY)
    (h13 : net.Z_CONFIG_MULTICAST_LOCATOR_KEY ≠ net.Z_CONFIG_SCOUTING_WHAT_KEY)
    (h23 : net.Z_CONFIG_SCOUTING_TIMEOUT_KEY ≠ net.Z_CONFIG_SCOUTING_WHAT_KEY)
    (hdef : net.Z_CONFIG_MULTICAST_LOCATOR_DEFAULT = Z_CONFIG_MULTICAST_LOCATOR_DEFAULT) :
    z_scouting_config_from net { _val := some cv } =
      some { _value := some [
         (net.Z_CONFIG_SCOUTING_WHAT_KEY,
            (_z_config_get cv net.Z_CONFIG_SCOUTING_WHAT_KEY).getD
              net.Z_CONFIG_SCOUTING_WHAT_DEFAULT),
         (net.Z_CONFIG_SCOUTING_TIMEOUT_KEY,
            (_z_config_get cv net.Z_CONFIG_SCOUTING_TIMEOUT_KEY).getD
              net.Z_CONFIG_SCOUTING_TIMEOUT_DEFAULT),
         (net.Z_CONFIG_MULTICAST_LOCATOR_KEY,
            (_z_config_get cv net.Z_CONFIG_MULTICAST_LOCATOR_KEY).getD
              Z_CONFIG_MULTICAST_LOCATOR_DEFAULT)] } ∧
    (key ≠ net.Z_CONFIG_SCOUTING_WHAT_KEY → key ≠ net.Z_CONFIG_SCOUTING_TIMEOUT_KEY →
      key ≠ net.Z_CONFIG_MULTICAST_LOCATOR_KEY →
      (z_scouting_config_from net { _val := some cv }).map
        (fun sc => sc._value.bind fun c => _z_config_get c key) = some none) ∧
    (_z_config_get cv net.Z_CONFIG_SCOUTING_WHAT_KEY = none →
      _z_config_get cv net.Z_CONFIG_SCOUTING_TIMEOUT_KEY = none →
      _z_config_get cv net.Z_CONFIG_MULTICAST_LOCATOR_KEY = none →
      z_scouting_config_from net { _val := some cv } = some (z_scouting_config_default net)) ∧
    (z_scouting_config_default net)._value.bind
        (fun c => _z_config_get c net.Z_CONFIG_MULTICAST_LOCATOR_KEY) =
      some "udp/224.0.0.224:7446".toList := by
  have h21 := h12.symm
  have h31 := h13.symm
  have h32 := h23.symm
  have hmain : z_scouting_config_from net { _val := some cv } =
      some { _value := some [
         (net.Z_CONFIG_SCOUTING_WHAT_KEY,
            (_z_config_get cv net.Z_CONFIG_SCOUTING_WHAT_KEY).getD
              net.Z_CONFIG_SCOUTING_WHAT_DEFAULT),
         (net.Z_CONFIG_SCOUTING_TIMEOUT_KEY,
            (_z_config_get cv net.Z_CONFIG_SCOUTING_TIMEOUT_KEY).getD
              net.Z_CONFIG_SCOUTING_TIMEOUT_DEFAULT),
         (net.Z_CONFIG_MULTICAST_LOCATOR_KEY,
            (_z_config_get cv net.Z_CONFIG_MULTICAST_LOCATOR_KEY).getD
              Z_CONFIG_MULTICAST_LOCATOR_DEFAULT)] } := by
    rw [← hdef]
    rcases hw : _z_config_get cv net.Z_CONFIG_SCOUTING_WHAT_KEY with _ | vw <;>
    rcases ht : _z_config_get cv net.Z_CONFIG_SCOUTING_TIMEOUT_KEY with _ | vt <;>
    rcases hl : _z_config_get cv net.Z_CONFIG_MULTICAST_LOCATOR_KEY with _ | vl <;>
    simp [z_scouting_config_from, hw, ht, hl, _zp_config_insert, _z_config_empty,
      _z_string_make, List.filter_cons, bne_iff_ne, h12, h13, h23, h21, h31, h32]
  refine ⟨hmain, ?_, ?_, ?_⟩
  · intro k1 k2 k3
    have e1 : (net.Z_CONFIG_SCOUTING_WHAT_KEY == key) = false := by simpa using Ne.symm k1
    have e2 : (net.Z_CONFIG_SCOUTING_TIMEOUT_KEY == key) = false := by simpa using Ne.symm k2
    have e3 : (net.Z_CONFIG_MULTICAST_LOCATOR_KEY == key) = false := by simpa using Ne.symm k3
    rw [hmain]
    simp [_z_config_get, List.find?, e1, e2, e3]
  · intro g1 g2 g3
    rw [hmain, g1, g2, g3, ← hdef]
    simp [z_scouting_config_default, _zp_config_insert, _z_config_empty, _z_string_make,
      List.filter_cons, bne_iff_ne, h12, h13, h23, h21, h31, h32]
  · have e1 : (net.Z_CONFIG_SCOUTING_WHAT_KEY == net.Z_CONFIG_MULTICAST_LOCATOR_KEY) = false := by
      simpa using h31
    have e2 : (net.Z_CONFIG_SCOUTING_TIMEOUT_KEY == net.Z_CONFIG_MULTICAST_LOCATOR_KEY) = false := by
      simpa using h21
    simp [z_scouting_config_default, _zp_config_insert, _z_config_empty, _z_string_make,
      List.filter_cons, bne_iff_ne, _z_config_get, List.find?, h12, h13, h23, h21, h31, h32,
      hdef, Z_CONFIG_MULTICAST_LOCATOR_DEFAULT, e1, e2]

theorem z_scouting_config_from_three_keys_witness :
    demoNet.Z_CONFIG_MULTICAST_LOCATOR_KEY ≠ demoNet.Z_CONFIG_SCOUTING_TIMEOUT_KEY ∧
    demoNet.Z_CONFIG_MULTICAST_LOCATOR_KEY ≠ demoNet.Z_CONFIG_SCOUTING_WHAT_KEY ∧
    demoNet.Z_CONFIG_SCOUTING_TIMEOUT_KEY ≠ demoNet.Z_CONFIG_SCOUTING_WHAT_KEY ∧
    demoNet.Z_CONFIG_MULTICAST_LOCATOR_DEFAULT = Z_CONFIG_MULTICAST_LOCATOR_DEFAULT ∧
    z_scouting_config_from demoNet { _val := some [(71, cstr "500"), (1, cstr "client")] } =
      some { _value := some [(72, cstr "3"), (71, cstr "500"),
                             (70, cstr "udp/224.0.0.224:7446")] } ∧
    z_scouting_config_from demoNet { _val := some [(71, cstr "500"), (1, cstr "client")] } =
      some { _value := some [
         (demoNet.Z_CONFIG_SCOUTING_WHAT_KEY,
            (_z_config_get [(71, cstr "500"), (1, cstr "client")]
              demoNet.Z_CONFIG_SCOUTING_WHAT_KEY).getD demoNet.Z_CONFIG_SCOUTING_WHAT_DEFAULT),
         (demoNet.Z_CONFIG_SCOUTING_TIMEOUT_KEY,
            (_z_config_get [(71, cstr "500"), (1, cstr "client")]
              demoNet.Z_CONFIG_SCOUTING_TIMEOUT_KEY).getD
              demoNet.Z_CONFIG_SCOUTING_TIMEOUT_DEFAULT),
         (demoNet.Z_CONFIG_MULTICAST_LOCATOR_KEY,
            (_z_config_get [(71, cstr "500"), (1, cstr "client")]
              demoNet.Z_CONFIG_MULTICAST_LOCATOR_KEY).getD
              Z_CONFIG_MULTICAST_LOCATOR_DEFAULT)] } :=
  ⟨by decide, by decide, by decide, by decide, by decide,
   (z_scouting_config_from_three_keys demoNet [(71, cstr "500"), (1, cstr "client")] 1
      (by decide) (by decide) (by decide) (by decide)).1⟩

/-! ## C25: key-expression accessors -/

/-- C25: for every string `s`, `z_keyexpr(s)` is an initialized, not-declared key;
`z_keyexpr_to_string` returns an owned copy equal to `s` (the gravestone
string when the copy cannot be allocated) and `z_keyexpr_as_bytes` the bytes
of `s`, not owned, with `len` the length of `s`.  For every key with a
non-zero resource id, whatever its suffix, `zp_keyexpr_was_declared` is true,
`z_keyexpr_to_string` returns the gravestone string and `z_keyexpr_as_bytes`
the null bytes value, with `len` 0. -/
theorem keyexpr_accessors (s : List Char) (i : Nat) (suffix : Option (List Char)) (o b : Bool) :
    z_keyexpr_is_initialized (z_keyexpr (some s)) = true ∧
    zp_keyexpr_was_declared (z_keyexpr (some s)) = false ∧
    z_keyexpr_to_string true (z_keyexpr (some s)) = some { _value := some s } ∧
    z_keyexpr_to_string false (z_keyexpr (some s)) = some { _value := none } ∧
    z_keyexpr_as_bytes (z_keyexpr (some s)) =
      some { start := some (s.map Char.toNat), len := s.length, _is_alloc := false } ∧
    zp_keyexpr_was_declared { _id := i + 1, _suffix := suffix, _owns_suffix := o } = true ∧
    z_keyexpr_to_string b { _id := i + 1, _suffix := suffix, _owns_suffix := o } =
      some { _value := none } ∧
    z_str_check { _value := none } = false ∧
    z_keyexpr_as_bytes { _id := i + 1, _suffix := suffix, _owns_suffix := o } =
      some z_bytes_null ∧
    z_bytes_null.len = 0 := by
  refine ⟨rfl, rfl, ?_, rfl, rfl, ?_, ?_, rfl, ?_, rfl⟩
  · simp [z_keyexpr_to_string, z_keyexpr, _z_rname, _z_rid_with_suffix, Z_RESOURCE_ID_NONE,
      _z_str_size, _z_str_n_copy, strlen]
  · simp [zp_keyexpr_was_declared, Z_RESOURCE_ID_NONE]
  · simp [z_keyexpr_to_string, Z_RESOURCE_ID_NONE]
  · simp [z_keyexpr_as_bytes, Z_RESOURCE_ID_NONE, z_bytes_null]

/-! ## C26: what the key of a declared subscriber resolves to -/

/-- C26: on a fresh unicast session, a subscriber declared on a key whose first
character is the wildcard `*` is registered with a key that does not resolve
to the caller's key: for every such key `k` the whole of `k` is declared as
the resource and kept again as the suffix, so the registered key resolves to
`k` followed by `k` (`**` resolves to `****`, `*/a` to `*/a*/a`).  Keys
without a wildcard (`a`) and with a wildcard after a separator (`a/**`) do
resolve to themselves. -/
theorem z_declare_subscriber_first_wildcard_resolution (rest : List Char) :
    ((z_declare_subscriber demoNet demoUnicast true (z_keyexpr (some ('*' :: rest)))
        demoClosure none).bind fun r =>
      (declared_subscriber_key r.2.log).bind (demo_resolve r.2.sess)) =
      some (('*' :: rest) ++ ('*' :: rest)) ∧
    demo_subscriber_resolves true "**" = some (cstr "****") ∧
    demo_subscriber_resolves true "*/a" = some (cstr "*/a*/a") ∧
    demo_subscriber_resolves true "a" = some (cstr "a") ∧
    demo_subscriber_resolves true "a/**" = some (cstr "a/**") := by
  refine ⟨?_, by decide, by decide, by decide, by decide⟩
  simp [z_declare_subscriber, _z_get_resource_by_key, _z_declare_resource,
    _z_declare_subscriber, demoNet, demoUnicast, z_keyexpr, _z_rname, _z_rid_with_suffix,
    strpbrk, declared_subscriber_key, demo_resolve, Z_RESOURCE_ID_NONE, demoClosure]

/-! ## C27: where the split of a wildcard key falls -/

/-- C27: on a fresh unicast session, `z_declare_subscriber` on the key `a/b$*`,
whose first wildcard character sits inside a segment, splits one character
before the wildcard: the resource declared is `a/`, which ends with the
separator, and the suffix kept on the subscriber is `b$*`, which does not
begin with it.  On the key `a$*` the resource declared is the empty string
and the suffix is the whole key.  On `a/**` the split is on the separator:
resource `a`, suffix `/**`. -/
theorem z_declare_subscriber_split_inside_segment :
    strpbrk (cstr "a/b$*") ['*', '$'] = some 3 ∧
    (Option.map (fun r => (declared_resource_key r.2.log, declared_subscriber_key r.2.log))
      (z_declare_subscriber demoNet demoUnicast true (lit "a/b$*") demoClosure none)) =
      some (some { _id := 0, _suffix := some (cstr "a/"), _owns_suffix := false },
            some (_z_rid_with_suffix 1 (some (cstr "b$*")))) ∧
    (Option.map (fun r => (declared_resource_key r.2.log, declared_subscriber_key r.2.log))
      (z_declare_subscriber demoNet demoUnicast true (lit "a$*") demoClosure none)) =
      some (some { _id := 0, _suffix := some [], _owns_suffix := false },
            some (_z_rid_with_suffix 1 (some (cstr "a$*")))) ∧
    (Option.map (fun r => (declared_resource_key r.2.log, declared_subscriber_key r.2.log))
      (z_declare_subscriber demoNet demoUnicast true (lit "a/**") demoClosure none)) =
      some (some { _id := 0, _suffix := some (cstr "a"), _owns_suffix := false },
            some (_z_rid_with_suffix 1 (some (cstr "/**")))) := by
  decide

/-! ## C28: `z_publisher_put` against `z_put` -/

/-- C28: `z_publisher_put` through a publisher with key `k`, congestion control
`c` and priority `p` makes the same transport write as `z_put` on `k` with the
options `{encoding, c, p, attachment}`, but its local delivery carries the
default QoS `_Z_N_QOS_DEFAULT` where `z_put` carries the QoS made of `c` and
`p`; the calls are otherwise the same.  With a publisher of congestion control
BLOCK and priority 1 the two local deliveries differ. -/
theorem z_publisher_put_local_qos (net : NetLayer σ) (w : World σ) (p : _z_publisher_t)
    (payload : Option (List Nat)) (len : Nat) (enc : z_encoding_t) (att : z_attachment_t) :
    (z_publisher_put net w { _val := some p } payload len
        (some { encoding := enc, attachment := att })).map (fun r => r.2.log) =
      some (w.log ++
        [NetCall._z_write
           { keyexpr := p._key, payload := payload, len := len, encoding := enc,
             kind := Z_SAMPLE_KIND_PUT, cong_ctrl := p._congestion_control,
             priority := p._priority, attachment := att },
         NetCall._z_trigger_local_subscriptions
           { keyexpr := p._key, payload := payload, payload_len := len,
             qos := net._Z_N_QOS_DEFAULT, attachment := att }]) ∧
    (z_put net w p._key payload len
        (some { encoding := enc, congestion_control := p._congestion_control,
                priority := p._priority, attachment := att })).2.log =
      w.log ++
        [NetCall._z_write
           { keyexpr := p._key, payload := payload, len := len, encoding := enc,
             kind := Z_SAMPLE_KIND_PUT, cong_ctrl := p._congestion_control,
             priority := p._priority, attachment := att },
         NetCall._z_trigger_local_subscriptions
           { keyexpr := p._key, payload := payload, payload_len := len,
             qos := _z_n_qos_make false
               (p._congestion_control = Z_CONGESTION_CONTROL_BLOCK) p._priority,
             attachment := att }] ∧
    demoNet._Z_N_QOS_DEFAULT = { express := false, nodrop := false, priority := 5 } ∧
    _z_n_qos_make false
        (demoPublisher._congestion_control = Z_CONGESTION_CONTROL_BLOCK)
        demoPublisher._priority =
      { express := false, nodrop := true, priority := 1 } ∧
    (z_publisher_put demoNet demoUnicast { _val := some demoPublisher } (some [1]) 1 none).map
        (fun r => r.2.log) ≠
      some (z_put demoNet demoUnicast demoPublisher._key (some [1]) 1
        (some { encoding := z_encoding_default demoNet,
                congestion_control := demoPublisher._congestion_control,
                priority := demoPublisher._priority,
                attachment := z_attachment_null })).2.log := by
  refine ⟨?_, ?_, by decide, by decide, by decide⟩
  · simp [z_publisher_put, _z_write, _z_trigger_local_subscriptions]
  · simp [z_put, _z_write, _z_trigger_local_subscriptions]

/-! ## C29: the result encoding of the relation wrappers -/

/-- C29: for literal (id-less) key expressions with non-NULL strings `l` and
`r`, `z_keyexpr_includes` returns 0 exactly when the inclusion relation of the
net layer holds of them and -1 otherwise, and `z_keyexpr_intersects` returns 0
exactly when the intersection relation holds and -1 otherwise.  When either
string is NULL each returns the generic error status `_Z_ERR_GENERIC`, which
is not 0 as soon as that constant is not 0. -/
theorem z_keyexpr_relation_encoding (net : NetLayer σ) (l r : List Char)
    (x : Option (List Char)) (herr : net._Z_ERR_GENERIC ≠ 0) :
    (z_keyexpr_includes net (z_keyexpr (some l)) (z_keyexpr (some r)) = 0 ↔
      net._z_keyexpr_includes l l.length r r.length = true) ∧
    (z_keyexpr_includes net (z_keyexpr (some l)) (z_keyexpr (some r)) = -1 ↔
      net._z_keyexpr_includes l l.length r r.length = false) ∧
    (z_keyexpr_intersects net (z_keyexpr (some l)) (z_keyexpr (some r)) = 0 ↔
      net._z_keyexpr_intersects l l.length r r.length = true) ∧
    (z_keyexpr_intersects net (z_keyexpr (some l)) (z_keyexpr (some r)) = -1 ↔
      net._z_keyexpr_intersects l l.length r r.length = false) ∧
    z_keyexpr_includes net (z_keyexpr none) (z_keyexpr x) = net._Z_ERR_GENERIC ∧
    z_keyexpr_includes net (z_keyexpr x) (z_keyexpr none) = net._Z_ERR_GENERIC ∧
    z_keyexpr_intersects net (z_keyexpr none) (z_keyexpr x) = net._Z_ERR_GENERIC ∧
    z_keyexpr_intersects net (z_keyexpr x) (z_keyexpr none) = net._Z_ERR_GENERIC ∧
    z_keyexpr_includes net (z_keyexpr none) (z_keyexpr x) ≠ 0 ∧
    z_keyexpr_includes net (z_keyexpr x) (z_keyexpr none) ≠ 0 ∧
    z_keyexpr_intersects net (z_keyexpr none) (z_keyexpr x) ≠ 0 ∧
    z_keyexpr_intersects net (z_keyexpr x) (z_keyexpr none) ≠ 0 := by
  have hinc : z_keyexpr_includes net (z_keyexpr (some l)) (z_keyexpr (some r)) =
      if net._z_keyexpr_includes l l.length r r.length = true then 0 else -1 := by
    simp [z_keyexpr_includes, zp_keyexpr_includes_null_terminated, z_keyexpr, _z_rname,
      _z_rid_with_suffix, strlen]
  have hint : z_keyexpr_intersects net (z_keyexpr (some l)) (z_keyexpr (some r)) =
      if net._z_keyexpr_intersects l l.length r r.length = true then 0 else -1 := by
    simp [z_keyexpr_intersects, zp_keyexpr_intersect_null_terminated, z_keyexpr, _z_rname,
      _z_rid_with_suffix, strlen]
  have a1 : z_keyexpr_includes net (z_keyexpr none) (z_keyexpr x) = net._Z_ERR_GENERIC := by
    simp [z_keyexpr_includes, zp_keyexpr_includes_null_terminated, z_keyexpr, _z_rname,
      _z_rid_with_suffix]
  have a2 : z_keyexpr_includes net (z_keyexpr x) (z_keyexpr none) = net._Z_ERR_GENERIC := by
    cases x <;>
    simp [z_keyexpr_includes, zp_keyexpr_includes_null_terminated, z_keyexpr, _z_rname,
      _z_rid_with_suffix]
  have a3 : z_keyexpr_intersects net (z_keyexpr none) (z_keyexpr x) = net._Z_ERR_GENERIC := by
    simp [z_keyexpr_intersects, zp_keyexpr_intersect_null_terminated, z_keyexpr, _z_rname,
      _z_rid_with_suffix]
  have a4 : z_keyexpr_intersects net (z_keyexpr x) (z_keyexpr none) = net._Z_ERR_GENERIC := by
    cases x <;>
    simp [z_keyexpr_intersects, zp_keyexpr_intersect_null_terminated, z_keyexpr, _z_rname,
      _z_rid_with_suffix]
  refine ⟨?_, ?_, ?_, ?_, a1, a2, a3, a4, ?_, ?_, ?_, ?_⟩
  · rw [hinc]; cases net._z_keyexpr_includes l l.length r r.length <;> simp
  · rw [hinc]; cases net._z_keyexpr_includes l l.length r r.length <;> simp
  · rw [hint]; cases net._z_keyexpr_intersects l l.length r r.length <;> simp
  · rw [hint]; cases net._z_keyexpr_intersects l l.length r r.length <;> simp
  · rw [a1]; exact herr
  · rw [a2]; exact herr
  · rw [a3]; exact herr
  · rw [a4]; exact herr

theorem z_keyexpr_relation_encoding_witness :
    demoNet._Z_ERR_GENERIC ≠ 0 ∧
    z_keyexpr_includes demoNet (lit "demo/a") (lit "demo/a") = 0 ∧
    z_keyexpr_includes demoNet (lit "demo/a") (lit "demo/b") = -1 ∧
    z_keyexpr_intersects demoNet (lit "demo/a") (lit "demo/b") = -1 ∧
    z_keyexpr_includes demoNet (z_keyexpr none) (lit "demo/b") = -128 ∧
    (z_keyexpr_includes demoNet (z_keyexpr (some (cstr "demo/a")))
        (z_keyexpr (some (cstr "demo/b"))) = 0 ↔
      demoNet._z_keyexpr_includes (cstr "demo/a") (cstr "demo/a").length
        (cstr "demo/b") (cstr "demo/b").length = true) :=
  ⟨by decide, by decide, by decide, by decide, by decide,
   (z_keyexpr_relation_encoding demoNet (cstr "demo/a") (cstr "demo/b") (some (cstr "demo/b"))
      (by decide)).1⟩

/-! ## C30: the key expression of a null publisher or subscriber -/

/-- C30: `z_subscriber_keyexpr` on a null subscriber reads `_entity_id` through
the NULL pointer, so it has no result; `z_publisher_keyexpr` on a null
publisher returns, when its allocation succeeds, a handle that passes
`z_keyexpr_check` and holds the memory as allocated, never written, so not
the gravestone; only when the allocation fails is the result the gravestone.
On a live subscriber whose entity id is the id of a local subscription,
`z_subscriber_keyexpr` returns a copy of that subscription's key, and the
gravestone when the session has no local subscription. -/
theorem keyexpr_of_null_entity (net : NetLayer σ) (w : World σ) (b : Bool)
    (uninit : z_keyexpr_t) :
    z_subscriber_keyexpr net w b { _val := none } = none ∧
    z_subscriber_keyexpr net w b (z_subscriber_loan { _value := none }) = none ∧
    z_publisher_keyexpr true uninit (z_publisher_loan { _value := none }) =
      { _value := some uninit } ∧
    z_keyexpr_check (z_publisher_keyexpr true uninit (z_publisher_loan { _value := none })) =
      true ∧
    z_publisher_keyexpr false uninit (z_publisher_loan { _value := none }) = z_keyexpr_null ∧
    z_subscriber_keyexpr demoNet
        { demoUnicast with
          sess := { demoUnicast.sess with
                    subscriptions := [{ _id := 4, _key := lit "a" }, { _id := 5, _key := lit "b" }] } }
        true { _val := some { _entity_id := 5 } } =
      some { _value := some (_z_keyexpr_duplicate (lit "b")) } ∧
    z_subscriber_keyexpr demoNet demoUnicast true { _val := some { _entity_id := 5 } } =
      some z_keyexpr_null := by
  refine ⟨rfl, rfl, rfl, rfl, rfl, by decide, by decide⟩

end ZenohPico
